import Mathlib

/-!
# ChainPass: the mirror store, the validator, the live listener and the backfill sweeps

A shallow embedding of the backend of the repository:

* `models/Ticket.js`, `models/Event.js`  : the two record kinds of the mirror store;
* `routes/validate.js`                   : `POST /api/validate`, `summary`, `parseChainError`;
* `services/listener.js`                 : the seven live event handlers;
* `scripts/syncEvents.js`, `scripts/syncTickets.js` : the two backfill sweeps.

Conventions.

* A JavaScript `Number` holding an integer is an `Int`; a ledger `uint256` is a `Nat`, and
  `Number(x)` of such a value is its cast to `Int` (ids and counters are taken to stay below
  `2^53`, where the conversion is exact).
* The mirror store is key-indexed: both collections carry a unique index on their id field, so a
  collection is a partial map from the id to the stored document.
* Everything the code awaits from outside (the ledger, the string-to-number coercion of the
  runtime, the amount formatter of the ledger library) is a parameter of the model.
* `console.log` and `console.error` calls have no effect on any modelled state and are omitted.
-/

namespace ChainPass

/-! ## JavaScript values of a request body -/

/-- A value found in a field of a parsed JSON request body. `undefined` is a field that is absent,
`num` an integral number, `frac` a number that is not an integer, `obj` an object or array together
with the string it converts to under `ToPrimitive`. -/
inductive JsValue where
  | undefined
  | null
  | bool (b : Bool)
  | num (n : Int)
  | frac
  | str (s : String)
  | obj (prim : String)
deriving DecidableEq, Repr

/-- The result of `Number(v)` as far as a lookup by an integer key can tell: an integer, `NaN`, or
some other number (not an integer, or infinite) that equals no stored id. -/
inductive JsNumber where
  | int (n : Int)
  | other
  | nan
deriving DecidableEq, Repr

/-- An error value that reaches a `catch`: `err.reason` and `err.message`, each possibly absent. -/
structure JsError where
  reason : Option String
  message : Option String
deriving DecidableEq, Repr

/-- What the runtime and the libraries contribute and the repository does not define. -/
structure Env where
  /-- The value of `Number(s)` for a string `s`. -/
  strToNumber : String → JsNumber
  /-- The value of `ethers.formatEther(wei)`. -/
  formatEther : Nat → String
  /-- How the store answers a filter `{ tokenId: NaN }`: `some e` when the query is rejected with the
  error `e`, `none` when it simply matches no document. -/
  nanLookup : Option JsError

/-- JavaScript truthiness, the meaning of `!v` being false. -/
def JsValue.truthy : JsValue → Bool
  | .undefined => false
  | .null => false
  | .bool b => b
  | .num n => n != 0
  | .frac => true
  | .str s => s != ""
  | .obj _ => true

/-- The conversion `Number(v)`. -/
def JsValue.toNumber (env : Env) : JsValue → JsNumber
  | .undefined => .nan
  | .null => .int 0
  | .bool b => .int (if b then 1 else 0)
  | .num n => .int n
  | .frac => .other
  | .str s => env.strToNumber s
  | .obj p => env.strToNumber p

/-! ## The mirror store (`models/Ticket.js`, `models/Event.js`) -/

/-- The embedded `listing` sub-document of a Ticket. -/
structure Listing where
  isActive : Bool := false
  seller : Option String := none
  price : Option String := none
  listedAt : Option Nat := none
deriving DecidableEq, Repr

/-- A document of the `Ticket` collection (`TicketSchema`), with the schema defaults. -/
structure Ticket where
  tokenId : Int
  eventId : Int
  seatNumber : Option String := none
  originalPrice : Option String := none
  originalBuyer : Option String := none
  isUsed : Bool := false
  qrHash : Option String := none
  transferCount : Int := 0
  metadataURI : Option String := none
  listing : Listing := {}
  createdAt : Nat := 0
  updatedAt : Nat := 0
deriving DecidableEq, Repr

/-- A document of the `Event` collection (`EventSchema`), with the schema defaults. -/
structure Event where
  eventId : Int
  name : String
  date : Option String := none
  venue : Option String := none
  ticketPrice : Option String := none
  totalSupply : Option Int := none
  ticketsMinted : Int := 0
  maxResalePercent : Option Int := none
  isActive : Bool := true
  createdAt : Nat := 0
  updatedAt : Nat := 0
deriving DecidableEq, Repr

/-- The mirror store: the two collections, each indexed by its unique id. -/
structure Mirror where
  events : Int → Option Event
  tickets : Int → Option Ticket

/-- The store with no document. -/
def Mirror.empty : Mirror := ⟨fun _ => none, fun _ => none⟩

/-- Replace the Ticket stored under `key`. -/
def Mirror.setTicket (m : Mirror) (key : Int) (t : Ticket) : Mirror :=
  { m with tickets := fun k => if k = key then some t else m.tickets k }

/-- Replace the Event stored under `key`. -/
def Mirror.setEvent (m : Mirror) (key : Int) (e : Event) : Mirror :=
  { m with events := fun k => if k = key then some e else m.events k }

/-- The call `Ticket.findOneAndUpdate({ tokenId: key }, update)` without `upsert`: the update is
applied to the document under `key` when there is one, and nothing happens otherwise. -/
def Mirror.updateTicket (m : Mirror) (key : Int) (update : Ticket → Ticket) : Mirror :=
  match m.tickets key with
  | some t => m.setTicket key (update t)
  | none => m

/-- The call `Event.findOneAndUpdate({ eventId: key }, update)` without `upsert`. -/
def Mirror.updateEvent (m : Mirror) (key : Int) (update : Event → Event) : Mirror :=
  match m.events key with
  | some e => m.setEvent key (update e)
  | none => m

/-- The call `Ticket.findOneAndUpdate({ tokenId: key }, update, { upsert: true })`: when no document
is stored under `key`, one is inserted (`fresh`: the filter fields and the schema defaults) and the
update applied to it. -/
def Mirror.upsertTicket (m : Mirror) (key : Int) (fresh : Ticket) (update : Ticket → Ticket) :
    Mirror :=
  match m.tickets key with
  | some t => m.setTicket key (update t)
  | none => m.setTicket key (update fresh)

/-- The call `Event.findOneAndUpdate({ eventId: key }, update, { upsert: true })`. -/
def Mirror.upsertEvent (m : Mirror) (key : Int) (fresh : Event) (update : Event → Event) :
    Mirror :=
  match m.events key with
  | some e => m.setEvent key (update e)
  | none => m.setEvent key (update fresh)

/-! ## The validator (`routes/validate.js`) -/

namespace Validate

/-- The body of a `POST /api/validate` request: `const { tokenId, qrHash } = req.body`. -/
structure Request where
  tokenId : JsValue
  qrHash : JsValue
deriving DecidableEq, Repr

/-- The object built by `summary(ticket)`. -/
structure Summary where
  tokenId : Int
  eventId : Int
  seatNumber : Option String
  owner : Option String
deriving DecidableEq, Repr

/-- An HTTP answer of the validator: the status and the fields of the JSON body (`none` for a field
the body does not carry). -/
structure Response where
  status : Nat
  success : Bool
  message : String
  txHash : Option String := none
  block : Option Int := none
  ticket : Option Summary := none
deriving DecidableEq, Repr

/-- The object returned by `contract.markTicketAsUsed(...)`: the sent transaction. -/
structure Tx where
  hash : String
deriving DecidableEq, Repr

/-- The object returned by `tx.wait()`. -/
structure Receipt where
  blockNumber : Int
deriving DecidableEq, Repr

/-- The signer-bound contract handle returned by `getContract()`, over a ledger whose state has
type `σ`. Each call either returns or throws, and may move the ledger to a new state. Building the
handle reads only the process configuration and is taken to succeed. -/
structure Contract (σ : Type) where
  estimateGas : σ → JsValue → JsValue → Except JsError Unit × σ
  markTicketAsUsed : σ → JsValue → JsValue → Except JsError Tx × σ
  wait : σ → Tx → Except JsError Receipt × σ

/-- One observable step of a validator run, in the order the steps happen. -/
inductive Op where
  | findOne (key : JsNumber)
  | estimateGas (tokenId qrHash : JsValue)
  | markTicketAsUsed (tokenId qrHash : JsValue)
  | wait (tx : Tx)
deriving DecidableEq, Repr

/-- Is the step a call to the ledger? -/
def Op.isLedger : Op → Bool
  | .findOne _ => false
  | _ => true

/-- Is the step the gas estimation? -/
def Op.isEstimate : Op → Bool
  | .estimateGas _ _ => true
  | _ => false

/-- Is the step the state-changing call `markTicketAsUsed`? -/
def Op.isSubmit : Op → Bool
  | .markTicketAsUsed _ _ => true
  | _ => false

/-- Is the step the wait for the confirmation? -/
def Op.isWait : Op → Bool
  | .wait _ => true
  | _ => false

/-- Everything a validator run can read or change: the mirror, the ledger, and the record of the
steps taken so far. -/
structure World (σ : Type) where
  mirror : Mirror
  chain : σ
  log : List Op

/-- The world before a validator run. -/
def World.start {σ : Type} (m : Mirror) (s : σ) : World σ := ⟨m, s, []⟩

/-- The documents matched by the filter `{ tokenId: n }`, or the error the query is rejected
with. -/
def lookup (env : Env) (m : Mirror) : JsNumber → Except JsError (Option Ticket)
  | .int k => .ok (m.tickets k)
  | .other => .ok none
  | .nan =>
    match env.nanLookup with
    | some e => .error e
    | none => .ok none

/-- The call `Ticket.findOne({ tokenId: n })`. -/
def findOne {σ : Type} (env : Env) (n : JsNumber) (w : World σ) :
    Except JsError (Option Ticket) × World σ :=
  (lookup env w.mirror n, { w with log := w.log ++ [Op.findOne n] })

/-- The call `contract.markTicketAsUsed.estimateGas(tokenId, qrHash)`. -/
def estimateGas {σ : Type} (C : Contract σ) (tokenId qrHash : JsValue) (w : World σ) :
    Except JsError Unit × World σ :=
  let r := C.estimateGas w.chain tokenId qrHash
  (r.1, { w with chain := r.2, log := w.log ++ [Op.estimateGas tokenId qrHash] })

/-- The call `contract.markTicketAsUsed(tokenId, qrHash)`. -/
def markTicketAsUsed {σ : Type} (C : Contract σ) (tokenId qrHash : JsValue) (w : World σ) :
    Except JsError Tx × World σ :=
  let r := C.markTicketAsUsed w.chain tokenId qrHash
  (r.1, { w with chain := r.2, log := w.log ++ [Op.markTicketAsUsed tokenId qrHash] })

/-- The call `tx.wait()`. -/
def wait {σ : Type} (C : Contract σ) (tx : Tx) (w : World σ) :
    Except JsError Receipt × World σ :=
  let r := C.wait w.chain tx
  (r.1, { w with chain := r.2, log := w.log ++ [Op.wait tx] })

/-- The helper `summary(ticket)`. -/
def summary (ticket : Ticket) : Summary :=
  { tokenId := ticket.tokenId
    eventId := ticket.eventId
    seatNumber := ticket.seatNumber
    owner := ticket.originalBuyer }

/-- Does the character list start with `pat`? -/
def startsWith : List Char → List Char → Bool
  | [], _ => true
  | _ :: _, [] => false
  | p :: ps, c :: rest => p == c && startsWith ps rest

/-- Does `pat` occur somewhere in the character list? -/
def occursIn (pat : List Char) : List Char → Bool
  | [] => pat.isEmpty
  | c :: cs => startsWith pat (c :: cs) || occursIn pat cs

/-- The method `s.includes(pat)`. -/
def includes (s pat : String) : Bool := occursIn pat.toList s.toList

/-- The branches of `parseChainError` that look at `err.message`, reached when `err.reason` is
absent or empty. -/
def parseMessage : Option String → String
  | some msg =>
    if includes msg "AlreadyUsed" then "Already used on-chain."
    else if includes msg "BadQRHash" then "QR hash rejected by contract."
    else if includes msg "BadTokenId" then "Token does not exist on-chain."
    else if includes msg "insufficient funds" then
      "Backend wallet has insufficient ETH for gas."
    else if msg != "" then msg
    else "Unknown error during on-chain validation."
  | none => "Unknown error during on-chain validation."

/-- The helper `parseChainError(err)`. -/
def parseChainError (err : JsError) : String :=
  match err.reason with
  | some r => if r != "" then "Contract error: " ++ r else parseMessage err.message
  | none => parseMessage err.message

/-- The comparison `ticket.qrHash !== qrHash` negated: strict equality of the stored hash (a string,
or absent) with a value of the request. -/
def strictEq (stored : Option String) (v : JsValue) : Bool :=
  match stored, v with
  | some s, .str s' => s == s'
  | none, .undefined => true
  | _, _ => false

/-- The answer `400`. -/
def badRequest : Response :=
  { status := 400, success := false, message := "tokenId and qrHash are required." }

/-- The answer `404`. -/
def notFound : Response :=
  { status := 404, success := false
    message := "Ticket not found. It may not have been synced yet." }

/-- The answer `409`. -/
def conflict (ticket : Ticket) : Response :=
  { status := 409, success := false
    message := "Ticket has already been used. Entry denied."
    ticket := some (summary ticket) }

/-- The answer `401`. -/
def mismatch : Response :=
  { status := 401, success := false, message := "QR hash mismatch. Invalid ticket." }

/-- The answer `200`. -/
def granted (tx : Tx) (receipt : Receipt) (ticket : Ticket) : Response :=
  { status := 200, success := true
    message := "Ticket validated. Entry granted ✅"
    txHash := some tx.hash
    block := some receipt.blockNumber
    ticket := some (summary ticket) }

/-- The answer `500` of the `catch` block. -/
def failed (err : JsError) : Response :=
  { status := 500, success := false, message := parseChainError err }

/-- The `try` block of `router.post("/")`: the pre-check on the mirror, then the three ledger
steps. An `error` is a value thrown to the `catch`. -/
def tryBlock {σ : Type} (env : Env) (C : Contract σ) (req : Request) (w : World σ) :
    Except JsError Response × World σ :=
  let found := findOne env (req.tokenId.toNumber env) w
  match found.1 with
  | .error e => (.error e, found.2)
  | .ok none => (.ok notFound, found.2)
  | .ok (some ticket) =>
    if ticket.isUsed then (.ok (conflict ticket), found.2)
    else if !strictEq ticket.qrHash req.qrHash then (.ok mismatch, found.2)
    else
      let estimated := estimateGas C req.tokenId req.qrHash found.2
      match estimated.1 with
      | .error e => (.error e, estimated.2)
      | .ok _ =>
        let sent := markTicketAsUsed C req.tokenId req.qrHash estimated.2
        match sent.1 with
        | .error e => (.error e, sent.2)
        | .ok tx =>
          let waited := wait C tx sent.2
          match waited.1 with
          | .error e => (.error e, waited.2)
          | .ok receipt => (.ok (granted tx receipt ticket), waited.2)

/-- The handler `router.post("/")` of `POST /api/validate`. -/
def post {σ : Type} (env : Env) (C : Contract σ) (req : Request) (w : World σ) :
    Response × World σ :=
  if !req.tokenId.truthy || !req.qrHash.truthy then (badRequest, w)
  else
    let tried := tryBlock env C req w
    match tried.1 with
    | .ok res => (res, tried.2)
    | .error err => (failed err, tried.2)

/-- Two validator calls in succession with the same request, no listener event being applied in
between: the second call starts from the mirror and the ledger the first call leaves. The result
is the pair of the two outcomes. -/
def postTwice {σ : Type} (env : Env) (C : Contract σ) (req : Request) (m : Mirror) (s : σ) :
    (Response × World σ) × (Response × World σ) :=
  let first := post env C req (World.start m s)
  (first, post env C req (World.start first.2.mirror first.2.chain))

/-- The outcome of the part of the handler that runs before any ledger call. -/
inductive PreCheck where
  | clientError
  | lookupFailed (err : JsError)
  | notFound
  | alreadyUsed (ticket : Ticket)
  | mismatch
  | passed (ticket : Ticket)
deriving DecidableEq, Repr

/-- The input validation and the mirror pre-check of `router.post("/")`, in the order of the
source. -/
def preCheck (env : Env) (m : Mirror) (req : Request) : PreCheck :=
  if !req.tokenId.truthy || !req.qrHash.truthy then .clientError
  else
    match lookup env m (req.tokenId.toNumber env) with
    | .error e => .lookupFailed e
    | .ok none => .notFound
    | .ok (some ticket) =>
      if ticket.isUsed then .alreadyUsed ticket
      else if !strictEq ticket.qrHash req.qrHash then .mismatch
      else .passed ticket

end Validate

/-! ## The ledger as the listener and the sweeps read it -/

/-- The value returned by the ledger call `getEventDetails(eventId)`. -/
structure EventSnapshot where
  name : String
  date : String
  venue : String
  ticketPrice : Nat
  totalSupply : Nat
  ticketsMinted : Nat
  maxResalePercent : Nat
  isActive : Bool
deriving DecidableEq, Repr

/-- The value returned by the ledger call `tickets(tokenId)`. -/
structure TicketSnapshot where
  eventId : Nat
  seatNumber : String
  originalPrice : Nat
  isUsed : Bool
  qrHash : String
  transferCount : Nat
deriving DecidableEq, Repr

/-- The read calls of the ledger at one moment; `none` is a call that throws. -/
structure Chain where
  getEventDetails : Nat → Option EventSnapshot
  ownerOf : Nat → Option String
  tickets : Nat → Option TicketSnapshot

/-- The document inserted by an upserting update of the Event under `key` before the update
itself is applied: the filter field, the schema defaults and `createdAt`. The `name` is a
placeholder, every upserting update of the code sets it. -/
def Event.fresh (key : Int) (now : Nat) : Event :=
  { eventId := key, name := "", createdAt := now }

/-- The document inserted by an upserting update of the Ticket under `key` before the update
itself is applied. The `eventId` is a placeholder, every upserting update of the code sets it. -/
def Ticket.fresh (key : Int) (now : Nat) : Ticket :=
  { tokenId := key, eventId := 0, createdAt := now }

/-! ## The live listener (`services/listener.js`) -/

namespace Listener

/-- The events of the ledger the listener subscribes to, with their positional fields. -/
inductive LedgerEvent where
  | EventCreated (eventId : Nat) (name : String) (ticketPrice totalSupply : Nat)
  | EventDeactivated (eventId : Nat)
  | TicketMinted (tokenId eventId : Nat) (buyer qrHash : String)
  | TicketListed (tokenId : Nat) (seller : String) (price : Nat)
  | ListingCancelled (tokenId : Nat)
  | TicketSold (tokenId : Nat) (seller buyer : String) (price fee : Nat)
  | TicketUsed (tokenId : Nat)
deriving DecidableEq, Repr

/-- One run of a handler: the event delivered, the ledger as the handler reads it, the clock, and
whether the first and the second write to the mirror go through (a write that does not throws, and
the handler's `catch` ends the run). -/
structure Delivery where
  event : LedgerEvent
  chain : Chain
  now : Nat
  writeOk1 : Bool := true
  writeOk2 : Bool := true

/-- The handler of `EventCreated`. -/
def onEventCreated (env : Env) (d : Delivery) (eventId : Nat) (m : Mirror) : Mirror :=
  match d.chain.getEventDetails eventId with
  | none => m
  | some ev =>
    if !d.writeOk1 then m
    else
      m.upsertEvent eventId (Event.fresh eventId d.now) fun e =>
        { e with
          eventId := eventId
          name := ev.name
          date := some ev.date
          venue := some ev.venue
          ticketPrice := some (env.formatEther ev.ticketPrice)
          totalSupply := some ev.totalSupply
          maxResalePercent := some ev.maxResalePercent
          isActive := ev.isActive
          updatedAt := d.now }

/-- The handler of `EventDeactivated`. -/
def onEventDeactivated (d : Delivery) (eventId : Nat) (m : Mirror) : Mirror :=
  if !d.writeOk1 then m
  else m.updateEvent eventId fun e => { e with isActive := false, updatedAt := d.now }

/-- The handler of `TicketMinted`. -/
def onTicketMinted (env : Env) (d : Delivery) (tokenId eventId : Nat) (buyer qrHash : String)
    (m : Mirror) : Mirror :=
  match d.chain.tickets tokenId with
  | none => m
  | some td =>
    if !d.writeOk1 then m
    else
      let m1 := m.upsertTicket tokenId (Ticket.fresh tokenId d.now) fun t =>
        { t with
          tokenId := tokenId
          eventId := eventId
          seatNumber := some td.seatNumber
          originalPrice := some (env.formatEther td.originalPrice)
          originalBuyer := some buyer
          qrHash := some qrHash
          transferCount := td.transferCount
          updatedAt := d.now }
      if !d.writeOk2 then m1
      else
        m1.updateEvent eventId fun e =>
          { e with ticketsMinted := e.ticketsMinted + 1, updatedAt := d.now }

/-- The handler of `TicketListed`. -/
def onTicketListed (env : Env) (d : Delivery) (tokenId : Nat) (seller : String) (price : Nat)
    (m : Mirror) : Mirror :=
  if !d.writeOk1 then m
  else
    m.updateTicket tokenId fun t =>
      { t with
        listing :=
          { isActive := true
            seller := some seller
            price := some (env.formatEther price)
            listedAt := some d.now }
        updatedAt := d.now }

/-- The handler of `ListingCancelled`. -/
def onListingCancelled (d : Delivery) (tokenId : Nat) (m : Mirror) : Mirror :=
  if !d.writeOk1 then m
  else
    m.updateTicket tokenId fun t =>
      { t with listing := { t.listing with isActive := false }, updatedAt := d.now }

/-- The handler of `TicketSold`. -/
def onTicketSold (d : Delivery) (tokenId : Nat) (buyer : String) (m : Mirror) : Mirror :=
  if !d.writeOk1 then m
  else
    m.updateTicket tokenId fun t =>
      { t with
        originalBuyer := some buyer
        listing := { t.listing with isActive := false }
        transferCount := t.transferCount + 1
        updatedAt := d.now }

/-- The handler of `TicketUsed`. -/
def onTicketUsed (d : Delivery) (tokenId : Nat) (m : Mirror) : Mirror :=
  if !d.writeOk1 then m
  else
    m.updateTicket tokenId fun t =>
      { t with isUsed := true, listing := { t.listing with isActive := false }, updatedAt := d.now }

/-- The subscriptions set up by `startListener`: the handler run for a delivered event. -/
def startListener (env : Env) (d : Delivery) (m : Mirror) : Mirror :=
  match d.event with
  | .EventCreated eventId _ _ _ => onEventCreated env d eventId m
  | .EventDeactivated eventId => onEventDeactivated d eventId m
  | .TicketMinted tokenId eventId buyer qrHash => onTicketMinted env d tokenId eventId buyer qrHash m
  | .TicketListed tokenId seller price => onTicketListed env d tokenId seller price m
  | .ListingCancelled tokenId => onListingCancelled d tokenId m
  | .TicketSold tokenId _ buyer _ _ => onTicketSold d tokenId buyer m
  | .TicketUsed tokenId => onTicketUsed d tokenId m

/-- The mirror after a finite sequence of deliveries, applied one after the other. -/
def applyAll (env : Env) : List Delivery → Mirror → Mirror
  | [], m => m
  | d :: ds, m => applyAll env ds (startListener env d m)

end Listener

/-! ## The backfill sweeps (`scripts/syncEvents.js`, `scripts/syncTickets.js`) -/

namespace SyncEvents

/-- The `while (true)` loop of `sync`, entered with the counter `eventId`. The ledger is read as it
stands during the sweep, `clock id` is the time of the write for `id`, and writes to the mirror go
through. `fuel` bounds the number of iterations: `none` means the bound was reached before the loop
left through its `break`. -/
def loop (env : Env) (chain : Chain) (clock : Nat → Nat) : Nat → Nat → Mirror → Option Mirror
  | 0, _, _ => none
  | fuel + 1, eventId, m =>
    match chain.getEventDetails eventId with
    | none => some m
    | some ev =>
      loop env chain clock fuel (eventId + 1)
        (m.upsertEvent eventId (Event.fresh eventId (clock eventId)) fun e =>
          { e with
            eventId := eventId
            name := ev.name
            date := some ev.date
            venue := some ev.venue
            ticketPrice := some (env.formatEther ev.ticketPrice)
            totalSupply := some ev.totalSupply
            ticketsMinted := ev.ticketsMinted
            maxResalePercent := some ev.maxResalePercent
            isActive := ev.isActive
            updatedAt := clock eventId })

/-- The function `sync` of `scripts/syncEvents.js`: the sweep starts at `eventId = 1`. -/
def sync (env : Env) (chain : Chain) (clock : Nat → Nat) (fuel : Nat) (m : Mirror) :
    Option Mirror :=
  loop env chain clock fuel 1 m

end SyncEvents

namespace SyncTickets

/-- The `while (true)` loop of `sync`, entered with the counter `tokenId`; parameters as in
`SyncEvents.loop`. -/
def loop (env : Env) (chain : Chain) (clock : Nat → Nat) : Nat → Nat → Mirror → Option Mirror
  | 0, _, _ => none
  | fuel + 1, tokenId, m =>
    match chain.ownerOf tokenId with
    | none => some m
    | some owner =>
      match chain.tickets tokenId with
      | none => some m
      | some td =>
        let m1 := m.upsertTicket tokenId (Ticket.fresh tokenId (clock tokenId)) fun t =>
          { t with
            tokenId := tokenId
            eventId := td.eventId
            seatNumber := some td.seatNumber
            originalPrice := some (env.formatEther td.originalPrice)
            originalBuyer := some owner
            isUsed := td.isUsed
            qrHash := some td.qrHash
            transferCount := td.transferCount
            updatedAt := clock tokenId }
        let m2 := m1.updateEvent td.eventId fun e =>
          { e with ticketsMinted := tokenId, updatedAt := clock tokenId }
        loop env chain clock fuel (tokenId + 1) m2

/-- The function `sync` of `scripts/syncTickets.js`: the sweep starts at `tokenId = 1`. -/
def sync (env : Env) (chain : Chain) (clock : Nat → Nat) (fuel : Nat) (m : Mirror) :
    Option Mirror :=
  loop env chain clock fuel 1 m

end SyncTickets

/-- The backfill: the event sweep followed by the ticket sweep. -/
def backfill (env : Env) (chain : Chain) (clock : Nat → Nat) (fuel : Nat) (m : Mirror) :
    Option Mirror :=
  (SyncEvents.sync env chain clock fuel m).bind (SyncTickets.sync env chain clock fuel)

/-! ## Invariants of the data model -/

/-- The capacity invariant of one Event: `0 <= ticketsMinted <= totalSupply`. -/
def Event.withinCapacity (e : Event) : Prop :=
  0 ≤ e.ticketsMinted ∧ ∃ supply, e.totalSupply = some supply ∧ e.ticketsMinted ≤ supply

/-- The capacity invariant of the ledger: every event it returns has
`ticketsMinted <= totalSupply`. -/
def Chain.withinCapacity (chain : Chain) : Prop :=
  ∀ id ev, chain.getEventDetails id = some ev → ev.ticketsMinted ≤ ev.totalSupply

/-- Listing/used exclusivity: a Ticket of the mirror that is used has no active listing. -/
def Mirror.exclusive (m : Mirror) : Prop :=
  ∀ key t, m.tickets key = some t → t.isUsed = true → t.listing.isActive = false

/-! ## Sample data -/

namespace Sample

/-- A runtime in which no string converts to a number and a `NaN` filter matches nothing. -/
def env : Env := { strToNumber := fun _ => .nan, formatEther := fun _ => "1.0", nanLookup := none }

/-- A ledger on which every call succeeds. -/
def okContract : Validate.Contract Unit :=
  { estimateGas := fun s _ _ => (.ok (), s)
    markTicketAsUsed := fun s _ _ => (.ok ⟨"0xTX"⟩, s)
    wait := fun s _ => (.ok ⟨42⟩, s) }

/-- The error a ledger raises for a ticket that is already used. -/
def alreadyUsed : JsError := { reason := none, message := some "execution reverted: AlreadyUsed()" }

/-- A ledger on which the gas estimation fails. -/
def revertingContract : Validate.Contract Unit :=
  { estimateGas := fun s _ _ => (.error alreadyUsed, s)
    markTicketAsUsed := fun s _ _ => (.ok ⟨"0xTX"⟩, s)
    wait := fun s _ => (.ok ⟨42⟩, s) }

/-- A mock ledger that keeps the token ids already marked as used, accepts the first
`markTicketAsUsed` for a token and rejects every later one. -/
def doubleSpendMock : Validate.Contract (List JsValue) :=
  { estimateGas := fun s tokenId _ =>
      if tokenId ∈ s then (.error alreadyUsed, s) else (.ok (), s)
    markTicketAsUsed := fun s tokenId _ =>
      if tokenId ∈ s then (.error alreadyUsed, s) else (.ok ⟨"0xTX"⟩, tokenId :: s)
    wait := fun s _ => (.ok ⟨42⟩, s) }

/-- An unused Ticket with token id 7. -/
def ticket7 : Ticket :=
  { tokenId := 7, eventId := 1, seatNumber := some "A1", originalBuyer := some "0xABC"
    qrHash := some "0xHASH7" }

/-- The Ticket with token id 7 once used. -/
def usedTicket7 : Ticket := { ticket7 with isUsed := true }

/-- An unused Ticket with token id 0. -/
def ticket0 : Ticket :=
  { tokenId := 0, eventId := 1, seatNumber := some "A0", originalBuyer := some "0xABC"
    qrHash := some "0xHASH0" }

/-- The Ticket with token id 0 once used. -/
def usedTicket0 : Ticket := { ticket0 with isUsed := true }

/-- A mirror holding the unused Ticket 7. -/
def mirror7 : Mirror := Mirror.empty.setTicket 7 ticket7

/-- A mirror holding the used Ticket 7. -/
def usedMirror7 : Mirror := Mirror.empty.setTicket 7 usedTicket7

/-- A mirror holding the unused Ticket 0. -/
def mirror0 : Mirror := Mirror.empty.setTicket 0 ticket0

/-- A mirror holding the used Ticket 0. -/
def usedMirror0 : Mirror := Mirror.empty.setTicket 0 usedTicket0

/-- A ledger with no event and no ticket. -/
def emptyChain : Chain :=
  { getEventDetails := fun _ => none, ownerOf := fun _ => none, tickets := fun _ => none }

/-- A sold-out event of capacity one. -/
def soldOut (name : String) : EventSnapshot :=
  { name := name, date := "2026-01-01", venue := "Hall", ticketPrice := 1, totalSupply := 1
    ticketsMinted := 1, maxResalePercent := 110, isActive := true }

/-- A ledger with two sold-out events of capacity one: ticket 1 belongs to event 1 and ticket 2 to
event 2. -/
def twoEvents : Chain :=
  { getEventDetails := fun id =>
      if id = 1 then some (soldOut "Genesis Concert")
      else if id = 2 then some (soldOut "Encore")
      else none
    ownerOf := fun id => if id = 1 ∨ id = 2 then some "0xABC" else none
    tickets := fun id =>
      if id = 1 ∨ id = 2 then
        some { eventId := id, seatNumber := "A1", originalPrice := 1, isUsed := false
               qrHash := "0xHASH", transferCount := 0 }
      else none }

/-- The delivery of an event against the empty ledger at time `0`, all writes going through. -/
def deliver (event : Listener.LedgerEvent) : Listener.Delivery :=
  { event := event, chain := emptyChain, now := 0 }

/-- The delivery of `TicketMinted(7, 1, "0xNEW", "0xHASH7")` against a ledger that knows
ticket 7. -/
def mintAgain : Listener.Delivery :=
  { event := .TicketMinted 7 1 "0xNEW" "0xHASH7"
    chain :=
      { emptyChain with
        tickets := fun _ =>
          some { eventId := 1, seatNumber := "A1", originalPrice := 1, isUsed := false
                 qrHash := "0xHASH7", transferCount := 0 } }
    now := 5 }

/-- The clock of a sweep in which every write happens at time `0`. -/
def clock : Nat → Nat := fun _ => 0

end Sample

/-! ## The sweeps with their ledger reads recorded -/

/-- A read of the ledger made by a sweep. -/
inductive Read where
  | getEventDetails (id : Nat)
  | ownerOf (id : Nat)
  | tickets (id : Nat)
deriving DecidableEq, Repr

/-- The id a read asks for. -/
def Read.id : Read → Nat
  | .getEventDetails id => id
  | .ownerOf id => id
  | .tickets id => id

/-- Is the read an `ownerOf` probe? -/
def Read.isOwnerOf : Read → Bool
  | .ownerOf _ => true
  | _ => false

namespace SyncEvents

/-- The update that `sync` writes for `eventId` from the ledger snapshot `ev`, as a function of the
stored document. -/
def fields (env : Env) (clock : Nat → Nat) (eventId : Nat) (ev : EventSnapshot) (e : Event) :
    Event :=
  { e with
    eventId := eventId
    name := ev.name
    date := some ev.date
    venue := some ev.venue
    ticketPrice := some (env.formatEther ev.ticketPrice)
    totalSupply := some ev.totalSupply
    ticketsMinted := ev.ticketsMinted
    maxResalePercent := some ev.maxResalePercent
    isActive := ev.isActive
    updatedAt := clock eventId }

/-- The loop of `sync` as in `SyncEvents.loop`, with every ledger read appended to `reads` in the
order it is made. -/
def traced (env : Env) (chain : Chain) (clock : Nat → Nat) :
    Nat → Nat → Mirror → List Read → Option (Mirror × List Read)
  | 0, _, _, _ => none
  | fuel + 1, eventId, m, reads =>
    match chain.getEventDetails eventId with
    | none => some (m, reads ++ [Read.getEventDetails eventId])
    | some ev =>
      traced env chain clock fuel (eventId + 1)
        (m.upsertEvent eventId (Event.fresh eventId (clock eventId))
          (fields env clock eventId ev))
        (reads ++ [Read.getEventDetails eventId])

end SyncEvents

namespace SyncTickets

/-- The update that `sync` writes for `tokenId` from the ledger's owner and snapshot, as a function
of the stored document. -/
def fields (env : Env) (clock : Nat → Nat) (tokenId : Nat) (owner : String)
    (td : TicketSnapshot) (t : Ticket) : Ticket :=
  { t with
    tokenId := tokenId
    eventId := td.eventId
    seatNumber := some td.seatNumber
    originalPrice := some (env.formatEther td.originalPrice)
    originalBuyer := some owner
    isUsed := td.isUsed
    qrHash := some td.qrHash
    transferCount := td.transferCount
    updatedAt := clock tokenId }

/-- The update `{ $set: { ticketsMinted: tokenId } }` that `sync` writes on the owning Event. -/
def mark (clock : Nat → Nat) (tokenId : Nat) (e : Event) : Event :=
  { e with ticketsMinted := tokenId, updatedAt := clock tokenId }

/-- The net effect of the sweep on an Event, given the last scanned token id the ledger assigns to
it (`none` when it owns no scanned ticket): the Event is marked with that id, or left alone. -/
def settle (clock : Nat → Nat) (last : Option Nat) (e : Event) : Event :=
  match last with
  | none => e
  | some tokenId => mark clock tokenId e

/-- The loop of `sync` as in `SyncTickets.loop`, with every ledger read appended to `reads` in the
order it is made. -/
def traced (env : Env) (chain : Chain) (clock : Nat → Nat) :
    Nat → Nat → Mirror → List Read → Option (Mirror × List Read)
  | 0, _, _, _ => none
  | fuel + 1, tokenId, m, reads =>
    match chain.ownerOf tokenId with
    | none => some (m, reads ++ [Read.ownerOf tokenId])
    | some owner =>
      match chain.tickets tokenId with
      | none => some (m, reads ++ [Read.ownerOf tokenId, Read.tickets tokenId])
      | some td =>
        traced env chain clock fuel (tokenId + 1)
          ((m.upsertTicket tokenId (Ticket.fresh tokenId (clock tokenId))
            (fields env clock tokenId owner td)).updateEvent td.eventId (mark clock tokenId))
          (reads ++ [Read.ownerOf tokenId, Read.tickets tokenId])

end SyncTickets

/-- Does the ledger assign ticket `tokenId` to the event with id `key`? -/
def Chain.owns (chain : Chain) (key : Int) (tokenId : Nat) : Bool :=
  match chain.tickets tokenId with
  | some td => decide ((td.eventId : Int) = key)
  | none => false

/-- The largest token id among `start, ..., start + count - 1` that the ledger assigns to the event
with id `key`, if there is one. -/
def Chain.lastOwned (chain : Chain) (key : Int) : Nat → Nat → Option Nat
  | 0, _ => none
  | count + 1, start =>
    match Chain.lastOwned chain key count (start + 1) with
    | some j => some j
    | none => if chain.owns key start then some start else none

/-- The ledger's event reads succeed for the `count` ids from `start` on and fail for the next
one. -/
def Chain.eventGap (chain : Chain) (start count : Nat) : Prop :=
  (∀ i, start ≤ i → i < start + count → chain.getEventDetails i ≠ none) ∧
    chain.getEventDetails (start + count) = none

/-- The ledger's ticket reads (`ownerOf` and `tickets`) succeed for the `count` ids from `start`
on, and one of them fails for the next id. -/
def Chain.ticketGap (chain : Chain) (start count : Nat) : Prop :=
  (∀ i, start ≤ i → i < start + count → chain.ownerOf i ≠ none ∧ chain.tickets i ≠ none) ∧
    (chain.ownerOf (start + count) = none ∨ chain.tickets (start + count) = none)

/-- The reads the ticket sweep makes for one id: `ownerOf`, then `tickets` unless `ownerOf`
failed. -/
def Chain.ticketReads (chain : Chain) (tokenId : Nat) : List Read :=
  match chain.ownerOf tokenId with
  | none => [Read.ownerOf tokenId]
  | some _ => [Read.ownerOf tokenId, Read.tickets tokenId]

/-! ## Equality of mirrors up to chosen fields -/

/-- An Event without its advisory timestamps `createdAt` and `updatedAt`. -/
def Event.noStamps (e : Event) : Event := { e with createdAt := 0, updatedAt := 0 }

/-- A Ticket without its advisory timestamps `createdAt` and `updatedAt`. -/
def Ticket.noStamps (t : Ticket) : Ticket := { t with createdAt := 0, updatedAt := 0 }

/-- A Ticket without any time: `createdAt`, `updatedAt` and `listing.listedAt`. -/
def Ticket.noTimes (t : Ticket) : Ticket :=
  { t with createdAt := 0, updatedAt := 0, listing := { t.listing with listedAt := none } }

/-- An Event without its timestamps and without the counter `ticketsMinted`. -/
def Event.noCount (e : Event) : Event :=
  { e with createdAt := 0, updatedAt := 0, ticketsMinted := 0 }

/-- A Ticket without any time and without the counter `transferCount`. -/
def Ticket.noCount (t : Ticket) : Ticket :=
  { t with
    createdAt := 0, updatedAt := 0, listing := { t.listing with listedAt := none }
    transferCount := 0 }

/-- Two mirrors hold documents under the same keys, and the documents under each key are equal
once `fe` (Events) and `ft` (Tickets) have erased the fields that are not compared. -/
def Mirror.agree (fe : Event → Event) (ft : Ticket → Ticket) (a b : Mirror) : Prop :=
  ∀ k, (a.events k).map fe = (b.events k).map fe ∧ (a.tickets k).map ft = (b.tickets k).map ft

/-! ## More sample data -/

namespace Sample

/-- The ledger event "Genesis Concert": capacity 100, two tickets minted. -/
def genesis : EventSnapshot :=
  { name := "Genesis Concert", date := "2026-01-01", venue := "Hall", ticketPrice := 1
    totalSupply := 100, ticketsMinted := 2, maxResalePercent := 110, isActive := true }

/-- A ledger with the single event 1, "Genesis Concert", and its two tickets 1 and 2. -/
def oneEvent : Chain :=
  { getEventDetails := fun id => if id = 1 then some genesis else none
    ownerOf := fun id => if id = 1 ∨ id = 2 then some "0xABC" else none
    tickets := fun id =>
      if id = 1 ∨ id = 2 then
        some { eventId := 1, seatNumber := "A1", originalPrice := 1, isUsed := false
               qrHash := "0xHASH", transferCount := 0 }
      else none }

/-- The mirrored Event 1, with three tickets minted so far. -/
def event1 : Event :=
  { eventId := 1, name := "Genesis Concert", totalSupply := some 100, ticketsMinted := 3 }

/-- A mirror holding Event 1 and no Ticket. -/
def mirrorEvent1 : Mirror := Mirror.empty.setEvent 1 event1

/-- The ledger's view of ticket 7 with a given number of transfers. -/
def snapshot7 (transferCount : Nat) : TicketSnapshot :=
  { eventId := 1, seatNumber := "A1", originalPrice := 1, isUsed := false, qrHash := "0xHASH7"
    transferCount := transferCount }

/-- The delivery of `TicketMinted(7, 1, "0xABC", "0xHASH7")` at time `5`, against a ledger on which
ticket 7 has the given number of transfers. -/
def mint7 (transferCount : Nat) : Listener.Delivery :=
  { event := .TicketMinted 7 1 "0xABC" "0xHASH7"
    chain := { emptyChain with tickets := fun _ => some (snapshot7 transferCount) }
    now := 5 }

/-- The delivery of `EventCreated(1, "Genesis Concert", 1, 1)` at time `5`, against a ledger on
which event 1 is sold out (one ticket minted) and active. -/
def created1 : Listener.Delivery :=
  { event := .EventCreated 1 "Genesis Concert" 1 1
    chain := { emptyChain with getEventDetails := fun _ => some (soldOut "Genesis Concert") }
    now := 5 }

/-- The delivery of `EventCreated(1, "Genesis Concert", 1, 1)` at time `6`, against a ledger on
which event 1 has been deactivated. -/
def createdInactive1 : Listener.Delivery :=
  { event := .EventCreated 1 "Genesis Concert" 1 1
    chain :=
      { emptyChain with
        getEventDetails := fun _ => some { soldOut "Genesis Concert" with isActive := false } }
    now := 6 }

/-- A later clock of a sweep: every write happens at time `9`. -/
def laterClock : Nat → Nat := fun _ => 9

/-- The mirrored Event 1 after its deactivation. -/
def inactiveEvent1 : Event := { event1 with isActive := false }

/-- A mirror holding the deactivated Event 1. -/
def mirrorInactive1 : Mirror := Mirror.empty.setEvent 1 inactiveEvent1

/-- A mirror holding Event 1 and the unused Ticket 7. -/
def mirrorBoth : Mirror := mirrorEvent1.setTicket 7 ticket7

end Sample

/-! ## The status query (`routes/validate.js`, `GET /:tokenId`) -/

namespace Validate

/-- The JSON body of an answered status query. -/
structure StatusBody where
  tokenId : Int
  eventId : Int
  seatNumber : Option String
  owner : Option String
  isUsed : Bool
  status : String
deriving DecidableEq, Repr

/-- An HTTP answer of the status query: the status, and either the body or the `error` field
(`none` for a field the answer does not carry). -/
structure StatusResponse where
  status : Nat
  body : Option StatusBody := none
  error : Option String := none
deriving DecidableEq, Repr

/-- The handler `router.get("/:tokenId")` of `GET /api/validate/:tokenId`; `param` is the path
segment `req.params.tokenId`, a string. -/
def get {σ : Type} (env : Env) (param : String) (w : World σ) : StatusResponse × World σ :=
  let found := findOne env (env.strToNumber param) w
  match found.1 with
  | .error err => ({ status := 500, error := err.message }, found.2)
  | .ok none => ({ status := 404, error := some "Ticket not found" }, found.2)
  | .ok (some ticket) =>
    ({ status := 200
       body := some
         { tokenId := ticket.tokenId
           eventId := ticket.eventId
           seatNumber := ticket.seatNumber
           owner := ticket.originalBuyer
           isUsed := ticket.isUsed
           status := if ticket.isUsed then "USED" else "VALID" } },
     found.2)

end Validate

/-! ## The handlers with what they throw (`services/listener.js`) -/

namespace Listener

/-- What the `try` block of a handler can throw: a ledger read that fails, or a write to the mirror
that fails. -/
inductive Failure where
  | ledgerRead
  | mirrorWrite
deriving DecidableEq, Repr

/-- The `try` block of the `EventCreated` handler: what it throws, if anything, and the mirror as
it leaves it. -/
def tryEventCreated (env : Env) (d : Delivery) (eventId : Nat) (m : Mirror) :
    Except Failure Unit × Mirror :=
  match d.chain.getEventDetails eventId with
  | none => (.error .ledgerRead, m)
  | some ev =>
    if !d.writeOk1 then (.error .mirrorWrite, m)
    else
      (.ok (),
       m.upsertEvent eventId (Event.fresh eventId d.now) fun e =>
        { e with
          eventId := eventId
          name := ev.name
          date := some ev.date
          venue := some ev.venue
          ticketPrice := some (env.formatEther ev.ticketPrice)
          totalSupply := some ev.totalSupply
          maxResalePercent := some ev.maxResalePercent
          isActive := ev.isActive
          updatedAt := d.now })

/-- The `try` block of the `EventDeactivated` handler. -/
def tryEventDeactivated (d : Delivery) (eventId : Nat) (m : Mirror) :
    Except Failure Unit × Mirror :=
  if !d.writeOk1 then (.error .mirrorWrite, m)
  else (.ok (), m.updateEvent eventId fun e => { e with isActive := false, updatedAt := d.now })

/-- The `try` block of the `TicketMinted` handler: a failure of the second write leaves the first
one in place. -/
def tryTicketMinted (env : Env) (d : Delivery) (tokenId eventId : Nat) (buyer qrHash : String)
    (m : Mirror) : Except Failure Unit × Mirror :=
  match d.chain.tickets tokenId with
  | none => (.error .ledgerRead, m)
  | some td =>
    if !d.writeOk1 then (.error .mirrorWrite, m)
    else
      let m1 := m.upsertTicket tokenId (Ticket.fresh tokenId d.now) fun t =>
        { t with
          tokenId := tokenId
          eventId := eventId
          seatNumber := some td.seatNumber
          originalPrice := some (env.formatEther td.originalPrice)
          originalBuyer := some buyer
          qrHash := some qrHash
          transferCount := td.transferCount
          updatedAt := d.now }
      if !d.writeOk2 then (.error .mirrorWrite, m1)
      else
        (.ok (),
         m1.updateEvent eventId fun e =>
          { e with ticketsMinted := e.ticketsMinted + 1, updatedAt := d.now })

/-- The `try` block of the `TicketListed` handler. -/
def tryTicketListed (env : Env) (d : Delivery) (tokenId : Nat) (seller : String) (price : Nat)
    (m : Mirror) : Except Failure Unit × Mirror :=
  if !d.writeOk1 then (.error .mirrorWrite, m)
  else
    (.ok (),
     m.updateTicket tokenId fun t =>
      { t with
        listing :=
          { isActive := true
            seller := some seller
            price := some (env.formatEther price)
            listedAt := some d.now }
        updatedAt := d.now })

/-- The `try` block of the `ListingCancelled` handler. -/
def tryListingCancelled (d : Delivery) (tokenId : Nat) (m : Mirror) :
    Except Failure Unit × Mirror :=
  if !d.writeOk1 then (.error .mirrorWrite, m)
  else
    (.ok (),
     m.updateTicket tokenId fun t =>
      { t with listing := { t.listing with isActive := false }, updatedAt := d.now })

/-- The `try` block of the `TicketSold` handler. -/
def tryTicketSold (d : Delivery) (tokenId : Nat) (buyer : String) (m : Mirror) :
    Except Failure Unit × Mirror :=
  if !d.writeOk1 then (.error .mirrorWrite, m)
  else
    (.ok (),
     m.updateTicket tokenId fun t =>
      { t with
        originalBuyer := some buyer
        listing := { t.listing with isActive := false }
        transferCount := t.transferCount + 1
        updatedAt := d.now })

/-- The `try` block of the `TicketUsed` handler. -/
def tryTicketUsed (d : Delivery) (tokenId : Nat) (m : Mirror) : Except Failure Unit × Mirror :=
  if !d.writeOk1 then (.error .mirrorWrite, m)
  else
    (.ok (),
     m.updateTicket tokenId fun t =>
      { t with isUsed := true, listing := { t.listing with isActive := false }, updatedAt := d.now })

/-- The `try` block of the handler subscribed to the delivered event. -/
def attempt (env : Env) (d : Delivery) (m : Mirror) : Except Failure Unit × Mirror :=
  match d.event with
  | .EventCreated eventId _ _ _ => tryEventCreated env d eventId m
  | .EventDeactivated eventId => tryEventDeactivated d eventId m
  | .TicketMinted tokenId eventId buyer qrHash =>
    tryTicketMinted env d tokenId eventId buyer qrHash m
  | .TicketListed tokenId seller price => tryTicketListed env d tokenId seller price m
  | .ListingCancelled tokenId => tryListingCancelled d tokenId m
  | .TicketSold tokenId _ buyer _ _ => tryTicketSold d tokenId buyer m
  | .TicketUsed tokenId => tryTicketUsed d tokenId m

/-- The callback registered with `contract.on`: the `try` block, and the `catch` that only logs
what was thrown. The value is what the callback settles to: `ok` with the mirror it leaves, `error`
if it raised to the subscription. -/
def callback (env : Env) (d : Delivery) (m : Mirror) : Except Failure Mirror :=
  match attempt env d m with
  | (.ok _, m') => .ok m'
  | (.error _, m') => .ok m'

/-- The subscription at work: the callbacks of the delivered events run one after the other, and a
callback that raised would end the run with its error. -/
def listen (env : Env) : List Delivery → Mirror → Except Failure Mirror
  | [], m => .ok m
  | d :: ds, m =>
    match callback env d m with
    | .ok m' => listen env ds m'
    | .error f => .error f

end Listener

/-! ## Sample data for the status query, the confirmation wait and the handlers -/

namespace Sample

/-- A runtime in which the path segment `"7"` converts to the number 7. -/
def pathEnv : Env :=
  { strToNumber := fun s => if s = "7" then .int 7 else .nan
    formatEther := fun _ => "1.0"
    nanLookup := none }

/-- The error raised by a wait for a confirmation that gives up. -/
def timeout : JsError := { reason := none, message := some "wait for transaction timeout" }

/-- A ledger on which the estimation and the submission succeed and the wait for the confirmation
gives up. -/
def stalledContract : Validate.Contract Unit :=
  { estimateGas := fun s _ _ => (.ok (), s)
    markTicketAsUsed := fun s _ _ => (.ok ⟨"0xTX"⟩, s)
    wait := fun s _ => (.error timeout, s) }

/-- The request carrying token id 7 and the proof token stored for it. -/
def request7 : Validate.Request := { tokenId := .num 7, qrHash := .str "0xHASH7" }

/-- The delivery of `TicketListed(7, "0xABC", 2)` at time `5`. -/
def listed7 : Listener.Delivery :=
  { event := .TicketListed 7 "0xABC" 2, chain := emptyChain, now := 5 }

/-- The delivery of `TicketUsed(7)` at time `4`. -/
def used7 : Listener.Delivery := { event := .TicketUsed 7, chain := emptyChain, now := 4 }

/-- A delivery of `TicketMinted(7, 1, "0xABC", "0xHASH7")` whose ledger read fails. -/
def mintUnread7 : Listener.Delivery :=
  { event := .TicketMinted 7 1 "0xABC" "0xHASH7", chain := emptyChain, now := 3 }

/-- A mirror holding the Events 1 and 2 of the ledger `twoEvents`, one ticket minted each, and the
Ticket 7 with an active listing. -/
def mirrorTwoEvents : Mirror :=
  ((Mirror.empty.setEvent 1
      { eventId := 1, name := "Genesis Concert", ticketsMinted := 1 }).setEvent 2
      { eventId := 2, name := "Encore", ticketsMinted := 1 }).setTicket 7
    { ticket7 with listing := { isActive := true, seller := some "0xABC", price := some "2.0" } }

end Sample

/-! ## The validator: shared lemmas -/

namespace Validate

/-- A run that fails the input validation answers `400` and touches nothing. -/
theorem post_of_falsy {σ : Type} (env : Env) (C : Contract σ) (req : Request) (w : World σ)
    (h : req.tokenId.truthy = false ∨ req.qrHash.truthy = false) :
    post env C req w = (badRequest, w) := by
  rcases h with h | h <;> simp [post, h]

/-- A stored hash that is strictly equal to a truthy value of the request is that very string. -/
theorem strictEq_truthy {stored : Option String} {v : JsValue}
    (h : strictEq stored v = true) (hv : v.truthy = true) :
    ∃ s, stored = some s ∧ v = .str s := by
  cases stored <;> cases v <;> simp_all [strictEq, JsValue.truthy]

/-- The `try` block never writes to the mirror. -/
theorem tryBlock_mirror {σ : Type} (env : Env) (C : Contract σ) (req : Request) (w : World σ) :
    (tryBlock env C req w).2.mirror = w.mirror := by
  simp only [tryBlock, findOne, estimateGas, markTicketAsUsed, wait]
  repeat' split
  all_goals rfl

/-- The pre-check passes exactly when both fields are truthy, the lookup finds a Ticket, the
Ticket is unused and the stored hash is strictly equal to the presented one. -/
theorem preCheck_passed_iff (env : Env) (m : Mirror) (req : Request) (t : Ticket) :
    preCheck env m req = .passed t ↔
      req.tokenId.truthy = true ∧ req.qrHash.truthy = true ∧
        lookup env m (req.tokenId.toNumber env) = .ok (some t) ∧ t.isUsed = false ∧
        strictEq t.qrHash req.qrHash = true := by
  unfold preCheck
  cases ht : req.tokenId.truthy <;> cases hq : req.qrHash.truthy <;> simp
  cases hl : lookup env m (req.tokenId.toNumber env) with
  | error e => simp
  | ok found =>
    cases found with
    | none => simp
    | some t' =>
      cases hu : t'.isUsed <;> cases hs : strictEq t'.qrHash req.qrHash <;> simp [hu, hs]
      all_goals (intro h; subst h; simp [hu, hs])

/-- The run of a request that passes the pre-check, written as the three ledger steps. -/
theorem post_of_passed {σ : Type} (env : Env) (C : Contract σ) (req : Request) (w : World σ)
    (t : Ticket) (hpre : preCheck env w.mirror req = .passed t) :
    post env C req w =
      match (estimateGas C req.tokenId req.qrHash (findOne env (req.tokenId.toNumber env) w).2).1 with
      | .error e =>
        (failed e, (estimateGas C req.tokenId req.qrHash
          (findOne env (req.tokenId.toNumber env) w).2).2)
      | .ok _ =>
        match (markTicketAsUsed C req.tokenId req.qrHash (estimateGas C req.tokenId req.qrHash
          (findOne env (req.tokenId.toNumber env) w).2).2).1 with
        | .error e =>
          (failed e, (markTicketAsUsed C req.tokenId req.qrHash (estimateGas C req.tokenId
            req.qrHash (findOne env (req.tokenId.toNumber env) w).2).2).2)
        | .ok tx =>
          match (wait C tx (markTicketAsUsed C req.tokenId req.qrHash (estimateGas C req.tokenId
            req.qrHash (findOne env (req.tokenId.toNumber env) w).2).2).2).1 with
          | .error e =>
            (failed e, (wait C tx (markTicketAsUsed C req.tokenId req.qrHash (estimateGas C
              req.tokenId req.qrHash (findOne env (req.tokenId.toNumber env) w).2).2).2).2)
          | .ok receipt =>
            (granted tx receipt t, (wait C tx (markTicketAsUsed C req.tokenId req.qrHash
              (estimateGas C req.tokenId req.qrHash
                (findOne env (req.tokenId.toNumber env) w).2).2).2).2) := by
  obtain ⟨ht, hq, hl, hu, hs⟩ := (preCheck_passed_iff env w.mirror req t).1 hpre
  simp only [post, tryBlock, ht, hq, findOne, hl, hu, hs]
  simp only [Bool.not_true, Bool.or_self, Bool.false_eq_true, if_false]
  repeat' split
  all_goals simp_all

/-- A request made of a non-zero number and a non-empty string, for an unused Ticket stored under
that number with that string as hash, passes the pre-check. -/
theorem preCheck_of_match (env : Env) (m : Mirror) (k : Int) (t : Ticket) (h : String)
    (hm : m.tickets k = some t) (hu : t.isUsed = false) (hh : t.qrHash = some h)
    (hk : k ≠ 0) (hne : h ≠ "") :
    preCheck env m ⟨.num k, .str h⟩ = .passed t := by
  rw [preCheck_passed_iff]
  simp [JsValue.truthy, JsValue.toNumber, lookup, strictEq, hk, hne, hm, hu, hh]

/-- The run of a request that passes the pre-check on a ledger whose three steps succeed. -/
theorem post_granted {σ : Type} (env : Env) (C : Contract σ) (req : Request) (m : Mirror)
    (s s1 s2 s3 : σ) (t : Ticket) (tx : Tx) (receipt : Receipt)
    (hpre : preCheck env m req = .passed t)
    (hest : C.estimateGas s req.tokenId req.qrHash = (.ok (), s1))
    (hsub : C.markTicketAsUsed s1 req.tokenId req.qrHash = (.ok tx, s2))
    (hwait : C.wait s2 tx = (.ok receipt, s3)) :
    post env C req (World.start m s) =
      (granted tx receipt t, ⟨m, s3, [Op.findOne (req.tokenId.toNumber env),
        Op.estimateGas req.tokenId req.qrHash, Op.markTicketAsUsed req.tokenId req.qrHash,
        Op.wait tx]⟩) := by
  rw [post_of_passed env C _ (World.start m s) t hpre]
  simp [estimateGas, markTicketAsUsed, wait, findOne, World.start, hest, hsub, hwait]

end Validate

/-! ## The validator: claims -/

open Validate

/-- C1, counterexample. The mirror holds a used Ticket, and the validator called with that
ticket's tokenId does not answer with the Conflict result: with the empty string as proof token
(first part), and with the tokenId `0` of a used Ticket (second part), the answer is the client
input error `400`. -/
theorem C1_counterexample :
    (Sample.usedMirror7.tickets 7 = some Sample.usedTicket7 ∧ Sample.usedTicket7.isUsed = true ∧
      (post Sample.env Sample.okContract ⟨.num 7, .str ""⟩
        (World.start Sample.usedMirror7 ())).1 = badRequest ∧
      badRequest ≠ conflict Sample.usedTicket7) ∧
    (Sample.usedMirror0.tickets 0 = some Sample.usedTicket0 ∧ Sample.usedTicket0.isUsed = true ∧
      (post Sample.env Sample.okContract ⟨.num 0, .str "0xHASH0"⟩
        (World.start Sample.usedMirror0 ())).1 = badRequest ∧
      badRequest ≠ conflict Sample.usedTicket0) := by
  refine ⟨⟨rfl, rfl, rfl, by decide⟩, ⟨rfl, rfl, rfl, by decide⟩⟩

/-- C1, amended. For every mirror that holds a Ticket with `isUsed = true` under a non-zero
tokenId and for every truthy (present, non-empty) proof token, the validator called with that
tokenId and that proof token returns the Conflict result: status `409`, `success = false`, the
"already used" message and the ticket summary; it makes no ledger call at all (the only step
recorded is the mirror read) and leaves the ledger as it was. -/
theorem C1_used_ticket_conflict {σ : Type} (env : Env) (C : Contract σ) (m : Mirror) (s : σ)
    (k : Int) (t : Ticket) (proof : JsValue)
    (hm : m.tickets k = some t) (hused : t.isUsed = true)
    (hk : k ≠ 0) (hp : proof.truthy = true) :
    (post env C ⟨.num k, proof⟩ (World.start m s)).1 =
        { status := 409, success := false
          message := "Ticket has already been used. Entry denied."
          ticket := some (summary t) } ∧
      (post env C ⟨.num k, proof⟩ (World.start m s)).2.log = [Op.findOne (.int k)] ∧
      (post env C ⟨.num k, proof⟩ (World.start m s)).2.log.countP Op.isLedger = 0 ∧
      (post env C ⟨.num k, proof⟩ (World.start m s)).2.chain = s := by
  have hpost : post env C ⟨.num k, proof⟩ (World.start m s) =
      (conflict t, ⟨m, s, [Op.findOne (.int k)]⟩) := by
    have hk' : (JsValue.num k).truthy = true := by simp [JsValue.truthy, hk]
    simp [post, tryBlock, findOne, lookup, JsValue.toNumber, World.start, hk', hp, hm, hused]
  rw [hpost]
  exact ⟨rfl, rfl, rfl, rfl⟩

/-- C1, witness: the used Ticket 7 presented with a wrong proof token. -/
theorem C1_used_ticket_conflict_witness :
    (Sample.usedMirror7.tickets 7 = some Sample.usedTicket7 ∧ Sample.usedTicket7.isUsed = true ∧
      (7 : Int) ≠ 0 ∧ (JsValue.str "0xWRONG").truthy = true) ∧
    ((post Sample.env Sample.okContract ⟨.num 7, .str "0xWRONG"⟩
        (World.start Sample.usedMirror7 ())).1 =
        { status := 409, success := false
          message := "Ticket has already been used. Entry denied."
          ticket := some (summary Sample.usedTicket7) } ∧
      (post Sample.env Sample.okContract ⟨.num 7, .str "0xWRONG"⟩
        (World.start Sample.usedMirror7 ())).2.log = [Op.findOne (.int 7)] ∧
      (post Sample.env Sample.okContract ⟨.num 7, .str "0xWRONG"⟩
        (World.start Sample.usedMirror7 ())).2.log.countP Op.isLedger = 0 ∧
      (post Sample.env Sample.okContract ⟨.num 7, .str "0xWRONG"⟩
        (World.start Sample.usedMirror7 ())).2.chain = ()) :=
  ⟨⟨rfl, rfl, by decide, by decide⟩,
    C1_used_ticket_conflict Sample.env Sample.okContract Sample.usedMirror7 () 7
      Sample.usedTicket7 (.str "0xWRONG") rfl rfl (by decide) (by decide)⟩

/-- C2, counterexample. The stored qrHash differs from the proof token and the result is not the
"mismatch" rejection `401`: for the unused Ticket 7 presented with the empty string the answer is
`400` (first part), and for the used Ticket 7 presented with a wrong token it is `409` (second
part). -/
theorem C2_counterexample :
    (Sample.mirror7.tickets 7 = some Sample.ticket7 ∧
      strictEq Sample.ticket7.qrHash (.str "") = false ∧
      (post Sample.env Sample.okContract ⟨.num 7, .str ""⟩
        (World.start Sample.mirror7 ())).1.status = 400) ∧
    (Sample.usedMirror7.tickets 7 = some Sample.usedTicket7 ∧
      strictEq Sample.usedTicket7.qrHash (.str "0xWRONG") = false ∧
      (post Sample.env Sample.okContract ⟨.num 7, .str "0xWRONG"⟩
        (World.start Sample.usedMirror7 ())).1.status = 409) := by
  refine ⟨⟨rfl, by decide, rfl⟩, ⟨rfl, by decide, rfl⟩⟩

/-- C2, amended. For every request and every mirror state, the validator invokes a ledger call
only if the mirror holds a Ticket for the requested tokenId, that Ticket has `isUsed = false`, and
its stored qrHash is exactly the presented proof token (first part); and when the request carries a
truthy tokenId and a truthy proof token, the mirror holds an unused Ticket for the tokenId and the
stored qrHash differs from the proof token, the result is the "mismatch" rejection (status `401`,
`success = false`) with zero ledger calls (second part). -/
theorem C2_ledger_only_after_precheck {σ : Type} (env : Env) (C : Contract σ) (req : Request)
    (m : Mirror) (s : σ) :
    ((∃ op ∈ (post env C req (World.start m s)).2.log, op.isLedger = true) →
      ∃ k t h, req.tokenId.toNumber env = .int k ∧ m.tickets k = some t ∧ t.isUsed = false ∧
        t.qrHash = some h ∧ req.qrHash = .str h) ∧
    (∀ k t, req.tokenId.truthy = true → req.qrHash.truthy = true →
      req.tokenId.toNumber env = .int k → m.tickets k = some t → t.isUsed = false →
      strictEq t.qrHash req.qrHash = false →
      (post env C req (World.start m s)).1 =
          { status := 401, success := false, message := "QR hash mismatch. Invalid ticket." } ∧
        (post env C req (World.start m s)).2.log.countP Op.isLedger = 0) := by
  constructor
  · rintro ⟨op, hop, hled⟩
    by_cases hin : req.tokenId.truthy = false ∨ req.qrHash.truthy = false
    · rw [post_of_falsy env C req _ hin] at hop
      simp [World.start] at hop
    · have ht : req.tokenId.truthy = true := by
        cases h : req.tokenId.truthy <;> simp_all
      have hq : req.qrHash.truthy = true := by
        cases h : req.qrHash.truthy <;> simp_all
      cases hn : req.tokenId.toNumber env with
      | int k =>
        cases hm : m.tickets k with
        | none =>
          simp [post, tryBlock, findOne, lookup, World.start, ht, hq, hn, hm] at hop
          subst hop
          simp [Op.isLedger] at hled
        | some t =>
          cases hu : t.isUsed with
          | true =>
            simp [post, tryBlock, findOne, lookup, World.start, ht, hq, hn, hm, hu] at hop
            subst hop
            simp [Op.isLedger] at hled
          | false =>
            cases hs : strictEq t.qrHash req.qrHash with
            | false =>
              simp [post, tryBlock, findOne, lookup, World.start, ht, hq, hn, hm, hu, hs] at hop
              subst hop
              simp [Op.isLedger] at hled
            | true =>
              obtain ⟨h, h1, h2⟩ := strictEq_truthy hs hq
              exact ⟨k, t, h, rfl, hm, hu, h1, h2⟩
      | other =>
        simp [post, tryBlock, findOne, lookup, World.start, ht, hq, hn] at hop
        subst hop
        simp [Op.isLedger] at hled
      | nan =>
        cases hnl : env.nanLookup <;>
          simp [post, tryBlock, findOne, lookup, World.start, ht, hq, hn, hnl] at hop <;>
          (subst hop; simp [Op.isLedger] at hled)
  · intro k t ht hq hn hm hu hs
    have hpost : post env C req (World.start m s) = (mismatch, ⟨m, s, [Op.findOne (.int k)]⟩) := by
      simp [post, tryBlock, findOne, lookup, World.start, ht, hq, hn, hm, hu, hs]
    rw [hpost]
    exact ⟨rfl, rfl⟩

/-- C2, witness: the unused Ticket 7 presented with a wrong proof token. -/
theorem C2_ledger_only_after_precheck_witness :
    ((JsValue.num 7).truthy = true ∧ (JsValue.str "0xWRONG").truthy = true ∧
      (JsValue.num 7).toNumber Sample.env = .int 7 ∧
      Sample.mirror7.tickets 7 = some Sample.ticket7 ∧ Sample.ticket7.isUsed = false ∧
      strictEq Sample.ticket7.qrHash (.str "0xWRONG") = false) ∧
    ((post Sample.env Sample.okContract ⟨.num 7, .str "0xWRONG"⟩
        (World.start Sample.mirror7 ())).1 =
        { status := 401, success := false, message := "QR hash mismatch. Invalid ticket." } ∧
      (post Sample.env Sample.okContract ⟨.num 7, .str "0xWRONG"⟩
        (World.start Sample.mirror7 ())).2.log.countP Op.isLedger = 0) :=
  ⟨⟨by decide, by decide, rfl, rfl, rfl, by decide⟩,
    (C2_ledger_only_after_precheck Sample.env Sample.okContract ⟨.num 7, .str "0xWRONG"⟩
      Sample.mirror7 ()).2 7 Sample.ticket7 (by decide) (by decide) rfl rfl rfl (by decide)⟩

/-- C3. For every request, every mirror state and every ledger behaviour, the mirror store after
a validator call is the mirror store before it; in particular, after a success the validated
Ticket is still in the mirror with `isUsed = false`. -/
theorem C3_validator_leaves_mirror {σ : Type} (env : Env) (C : Contract σ) (req : Request)
    (w : World σ) :
    (post env C req w).2.mirror = w.mirror ∧
    ((post env C req w).1.success = true →
      ∃ k t, req.tokenId.toNumber env = .int k ∧
        (post env C req w).2.mirror.tickets k = some t ∧ t.isUsed = false ∧
        (post env C req w).1.ticket = some (summary t)) := by
  have hmirror : (post env C req w).2.mirror = w.mirror := by
    unfold post
    split
    · rfl
    · simp only []
      split <;> exact tryBlock_mirror env C req w
  refine ⟨hmirror, ?_⟩
  rw [hmirror]
  intro hsucc
  by_cases hin : req.tokenId.truthy = false ∨ req.qrHash.truthy = false
  · rw [post_of_falsy env C req _ hin] at hsucc
    simp [badRequest] at hsucc
  · have ht : req.tokenId.truthy = true := by
      cases h : req.tokenId.truthy <;> simp_all
    have hq : req.qrHash.truthy = true := by
      cases h : req.qrHash.truthy <;> simp_all
    cases hl : lookup env w.mirror (req.tokenId.toNumber env) with
    | error e =>
      simp [post, tryBlock, findOne, ht, hq, hl, failed] at hsucc
    | ok found =>
      cases found with
      | none => simp [post, tryBlock, findOne, ht, hq, hl, notFound] at hsucc
      | some t =>
        cases hu : t.isUsed with
        | true => simp [post, tryBlock, findOne, ht, hq, hl, hu, conflict] at hsucc
        | false =>
          cases hs : strictEq t.qrHash req.qrHash with
          | false => simp [post, tryBlock, findOne, ht, hq, hl, hu, hs, Validate.mismatch] at hsucc
          | true =>
            have hpre : preCheck env w.mirror req = .passed t :=
              (preCheck_passed_iff env w.mirror req t).2 ⟨ht, hq, hl, hu, hs⟩
            cases hn : req.tokenId.toNumber env with
            | int k =>
              rw [hn] at hl
              simp only [lookup, Except.ok.injEq] at hl
              refine ⟨k, t, rfl, hl, hu, ?_⟩
              rw [post_of_passed env C req w t hpre] at hsucc ⊢
              repeat' split
              all_goals simp_all [failed, granted]
            | other => rw [hn] at hl; simp [lookup] at hl
            | nan => rw [hn] at hl; cases hnl : env.nanLookup <;> simp [lookup, hnl] at hl

/-- C3, witness: after the successful validation of the unused Ticket 7 the mirror still holds
Ticket 7 with `isUsed = false`. -/
theorem C3_validator_leaves_mirror_witness :
    (post Sample.env Sample.okContract ⟨.num 7, .str "0xHASH7"⟩
        (World.start Sample.mirror7 ())).1.success = true ∧
    ∃ k t, (JsValue.num 7).toNumber Sample.env = .int k ∧
      (post Sample.env Sample.okContract ⟨.num 7, .str "0xHASH7"⟩
        (World.start Sample.mirror7 ())).2.mirror.tickets k = some t ∧ t.isUsed = false ∧
      (post Sample.env Sample.okContract ⟨.num 7, .str "0xHASH7"⟩
        (World.start Sample.mirror7 ())).1.ticket = some (summary t) :=
  ⟨rfl, (C3_validator_leaves_mirror Sample.env Sample.okContract ⟨.num 7, .str "0xHASH7"⟩
    (World.start Sample.mirror7 ())).2 rfl⟩

/-- C4. For every request that passes the mirror pre-check, if the gas estimation of
`markTicketAsUsed(tokenId, qrHash)` fails with an error `e`, the validator returns a rejection
(`success = false`, message the translation `parseChainError e`, status `500`); the steps taken
are the mirror read and the estimation, and `markTicketAsUsed` is never submitted. -/
theorem C4_estimation_failure_rejects {σ : Type} (env : Env) (C : Contract σ) (req : Request)
    (m : Mirror) (s : σ) (t : Ticket) (e : JsError)
    (hpre : preCheck env m req = .passed t)
    (hest : (C.estimateGas s req.tokenId req.qrHash).1 = .error e) :
    (post env C req (World.start m s)).1 =
        { status := 500, success := false, message := parseChainError e } ∧
      (post env C req (World.start m s)).2.log =
        [Op.findOne (req.tokenId.toNumber env), Op.estimateGas req.tokenId req.qrHash] ∧
      (post env C req (World.start m s)).2.log.countP Op.isSubmit = 0 := by
  have hpost : post env C req (World.start m s) =
      (failed e, ⟨m, (C.estimateGas s req.tokenId req.qrHash).2,
        [Op.findOne (req.tokenId.toNumber env), Op.estimateGas req.tokenId req.qrHash]⟩) := by
    rw [post_of_passed env C req (World.start m s) t hpre]
    simp [estimateGas, findOne, World.start, hest]
  rw [hpost]
  exact ⟨rfl, rfl, rfl⟩

/-- C4, witness: the unused Ticket 7 with its own proof token, on a ledger whose gas estimation
reverts. -/
theorem C4_estimation_failure_rejects_witness :
    (preCheck Sample.env Sample.mirror7 ⟨.num 7, .str "0xHASH7"⟩ = .passed Sample.ticket7 ∧
      (Sample.revertingContract.estimateGas () (.num 7) (.str "0xHASH7")).1 =
        .error Sample.alreadyUsed) ∧
    ((post Sample.env Sample.revertingContract ⟨.num 7, .str "0xHASH7"⟩
        (World.start Sample.mirror7 ())).1 =
        { status := 500, success := false, message := parseChainError Sample.alreadyUsed } ∧
      (post Sample.env Sample.revertingContract ⟨.num 7, .str "0xHASH7"⟩
        (World.start Sample.mirror7 ())).2.log =
        [Op.findOne (.int 7), Op.estimateGas (.num 7) (.str "0xHASH7")] ∧
      (post Sample.env Sample.revertingContract ⟨.num 7, .str "0xHASH7"⟩
        (World.start Sample.mirror7 ())).2.log.countP Op.isSubmit = 0) :=
  ⟨⟨by decide, rfl⟩,
    C4_estimation_failure_rejects Sample.env Sample.revertingContract ⟨.num 7, .str "0xHASH7"⟩
      Sample.mirror7 () Sample.ticket7 Sample.alreadyUsed (by decide) rfl⟩

/-- C5, counterexample. The mirror holds the unused Ticket 0 whose qrHash equals the presented
proof token, every ledger call succeeds, and the validator called with tokenId `0` does not return
success: it answers the client input error `400` and takes no step at all. -/
theorem C5_counterexample :
    Sample.mirror0.tickets 0 = some Sample.ticket0 ∧ Sample.ticket0.isUsed = false ∧
      Sample.ticket0.qrHash = some "0xHASH0" ∧
      (post Sample.env Sample.okContract ⟨.num 0, .str "0xHASH0"⟩
        (World.start Sample.mirror0 ())).1.status = 400 ∧
      (post Sample.env Sample.okContract ⟨.num 0, .str "0xHASH0"⟩
        (World.start Sample.mirror0 ())).1.success = false ∧
      (post Sample.env Sample.okContract ⟨.num 0, .str "0xHASH0"⟩
        (World.start Sample.mirror0 ())).2.log = [] := by
  refine ⟨rfl, rfl, rfl, rfl, rfl, rfl⟩

/-- C5, amended. For every mirror holding, under a non-zero tokenId, an unused Ticket whose
non-empty qrHash equals the presented proof token, and a ledger on which estimation, submit and
confirmation all succeed, the validator reads the mirror, estimates once, submits
`markTicketAsUsed` exactly once, awaits confirmation exactly once, and returns `success = true`
(status `200`) with `txHash` the hash of the submitted transaction, `block` the block number of the
receipt, and the ticket summary `{tokenId, eventId, seatNumber, owner = originalBuyer}` of the
mirrored Ticket. -/
theorem C5_successful_validation {σ : Type} (env : Env) (C : Contract σ) (m : Mirror)
    (s s1 s2 s3 : σ) (k : Int) (t : Ticket) (h : String) (tx : Tx) (receipt : Receipt)
    (hm : m.tickets k = some t) (hu : t.isUsed = false) (hh : t.qrHash = some h)
    (hk : k ≠ 0) (hne : h ≠ "")
    (hest : C.estimateGas s (.num k) (.str h) = (.ok (), s1))
    (hsub : C.markTicketAsUsed s1 (.num k) (.str h) = (.ok tx, s2))
    (hwait : C.wait s2 tx = (.ok receipt, s3)) :
    (post env C ⟨.num k, .str h⟩ (World.start m s)).1 =
        { status := 200, success := true
          message := "Ticket validated. Entry granted ✅"
          txHash := some tx.hash
          block := some receipt.blockNumber
          ticket := some
            { tokenId := t.tokenId, eventId := t.eventId, seatNumber := t.seatNumber
              owner := t.originalBuyer } } ∧
      (post env C ⟨.num k, .str h⟩ (World.start m s)).2.log =
        [Op.findOne (.int k), Op.estimateGas (.num k) (.str h),
          Op.markTicketAsUsed (.num k) (.str h), Op.wait tx] ∧
      (post env C ⟨.num k, .str h⟩ (World.start m s)).2.chain = s3 := by
  rw [post_granted env C ⟨.num k, .str h⟩ m s s1 s2 s3 t tx receipt
    (preCheck_of_match env m k t h hm hu hh hk hne) hest hsub hwait]
  exact ⟨rfl, rfl, rfl⟩

/-- C5, witness: the unused Ticket 7 with its own proof token on a ledger where every call
succeeds. -/
theorem C5_successful_validation_witness :
    (Sample.mirror7.tickets 7 = some Sample.ticket7 ∧ Sample.ticket7.isUsed = false ∧
      Sample.ticket7.qrHash = some "0xHASH7" ∧ (7 : Int) ≠ 0 ∧ "0xHASH7" ≠ "" ∧
      Sample.okContract.estimateGas () (.num 7) (.str "0xHASH7") = (.ok (), ()) ∧
      Sample.okContract.markTicketAsUsed () (.num 7) (.str "0xHASH7") = (.ok ⟨"0xTX"⟩, ()) ∧
      Sample.okContract.wait () ⟨"0xTX"⟩ = (.ok ⟨42⟩, ())) ∧
    ((post Sample.env Sample.okContract ⟨.num 7, .str "0xHASH7"⟩
        (World.start Sample.mirror7 ())).1 =
        { status := 200, success := true
          message := "Ticket validated. Entry granted ✅"
          txHash := some "0xTX"
          block := some 42
          ticket := some
            { tokenId := 7, eventId := 1, seatNumber := some "A1", owner := some "0xABC" } } ∧
      (post Sample.env Sample.okContract ⟨.num 7, .str "0xHASH7"⟩
        (World.start Sample.mirror7 ())).2.log =
        [Op.findOne (.int 7), Op.estimateGas (.num 7) (.str "0xHASH7"),
          Op.markTicketAsUsed (.num 7) (.str "0xHASH7"), Op.wait ⟨"0xTX"⟩] ∧
      (post Sample.env Sample.okContract ⟨.num 7, .str "0xHASH7"⟩
        (World.start Sample.mirror7 ())).2.chain = ()) :=
  ⟨⟨rfl, rfl, rfl, by decide, by decide, rfl, rfl, rfl⟩,
    C5_successful_validation Sample.env Sample.okContract Sample.mirror7 () () () () 7
      Sample.ticket7 "0xHASH7" ⟨"0xTX"⟩ ⟨42⟩ rfl rfl rfl (by decide) (by decide) rfl rfl rfl⟩

/-- C6, counterexample. The mirror holds the unused Ticket 0 with matching qrHash, the ledger is
the mock that accepts the first `markTicketAsUsed` for a token and rejects every later one, and the
first of two validator calls with the same valid `{tokenId, qrHash}` does not return success: it
answers `400`, and so does the second, neither reaching the ledger. -/
theorem C6_counterexample :
    Sample.mirror0.tickets 0 = some Sample.ticket0 ∧ Sample.ticket0.isUsed = false ∧
      Sample.ticket0.qrHash = some "0xHASH0" ∧
      (postTwice Sample.env Sample.doubleSpendMock ⟨.num 0, .str "0xHASH0"⟩
        Sample.mirror0 []).1.1.success = false ∧
      (postTwice Sample.env Sample.doubleSpendMock ⟨.num 0, .str "0xHASH0"⟩
        Sample.mirror0 []).1.1.status = 400 ∧
      (postTwice Sample.env Sample.doubleSpendMock ⟨.num 0, .str "0xHASH0"⟩
        Sample.mirror0 []).2.1.status = 400 ∧
      (postTwice Sample.env Sample.doubleSpendMock ⟨.num 0, .str "0xHASH0"⟩
        Sample.mirror0 []).2.2.log = [] := by
  refine ⟨rfl, rfl, rfl, rfl, rfl, rfl, rfl⟩

/-- C6, amended. For every mirror holding, under a non-zero tokenId, an unused Ticket with a
non-empty matching qrHash, and a ledger that accepts the first `markTicketAsUsed` for the token
(estimation, submit and confirmation succeed) and rejects the later one with an error `e` (at the
estimation, at the submit, or at the confirmation), two validator calls with the same valid
`{tokenId, qrHash}` made in succession with no `TicketUsed` event applied in between behave as
follows: the first returns success; the second also passes the mirror pre-check, reaches the ledger
(its gas estimation is called) and returns a LedgerRejection (status `500`, `success = false`,
message the translation `parseChainError e`). -/
theorem C6_double_validation {σ : Type} (env : Env) (C : Contract σ) (m : Mirror)
    (s s1 s2 s3 : σ) (k : Int) (t : Ticket) (h : String) (tx : Tx) (receipt : Receipt)
    (e : JsError)
    (hm : m.tickets k = some t) (hu : t.isUsed = false) (hh : t.qrHash = some h)
    (hk : k ≠ 0) (hne : h ≠ "")
    (hest : C.estimateGas s (.num k) (.str h) = (.ok (), s1))
    (hsub : C.markTicketAsUsed s1 (.num k) (.str h) = (.ok tx, s2))
    (hwait : C.wait s2 tx = (.ok receipt, s3))
    (hrej : (C.estimateGas s3 (.num k) (.str h)).1 = .error e ∨
      ((C.estimateGas s3 (.num k) (.str h)).1 = .ok () ∧
        (C.markTicketAsUsed (C.estimateGas s3 (.num k) (.str h)).2 (.num k) (.str h)).1 =
          .error e) ∨
      ((C.estimateGas s3 (.num k) (.str h)).1 = .ok () ∧
        ∃ tx', (C.markTicketAsUsed (C.estimateGas s3 (.num k) (.str h)).2 (.num k)
            (.str h)).1 = .ok tx' ∧
          (C.wait (C.markTicketAsUsed (C.estimateGas s3 (.num k) (.str h)).2 (.num k)
            (.str h)).2 tx').1 = .error e)) :
    (postTwice env C ⟨.num k, .str h⟩ m s).1.1.success = true ∧
      (postTwice env C ⟨.num k, .str h⟩ m s).1.1.status = 200 ∧
      preCheck env (postTwice env C ⟨.num k, .str h⟩ m s).1.2.mirror ⟨.num k, .str h⟩ =
        .passed t ∧
      Op.estimateGas (.num k) (.str h) ∈ (postTwice env C ⟨.num k, .str h⟩ m s).2.2.log ∧
      (postTwice env C ⟨.num k, .str h⟩ m s).2.1 =
        { status := 500, success := false, message := parseChainError e } := by
  have hpre := preCheck_of_match env m k t h hm hu hh hk hne
  have hfirst := post_granted env C ⟨.num k, .str h⟩ m s s1 s2 s3 t tx receipt hpre hest hsub
    hwait
  have hsecond : (postTwice env C ⟨.num k, .str h⟩ m s).2 =
      post env C ⟨.num k, .str h⟩ (World.start m s3) := by
    simp only [postTwice, hfirst]
  have hfst : (postTwice env C ⟨.num k, .str h⟩ m s).1 =
      post env C ⟨.num k, .str h⟩ (World.start m s) := rfl
  rw [hsecond, hfst, hfirst, post_of_passed env C _ (World.start m s3) t hpre]
  refine ⟨rfl, rfl, hpre, ?_, ?_⟩
  · rcases hrej with h1 | ⟨h1, h2⟩ | ⟨h1, tx', h2, h3⟩
    · simp [estimateGas, findOne, World.start, h1]
    · simp [estimateGas, markTicketAsUsed, findOne, World.start, h1, h2]
    · simp [estimateGas, markTicketAsUsed, wait, findOne, World.start, h1, h2, h3]
  · rcases hrej with h1 | ⟨h1, h2⟩ | ⟨h1, tx', h2, h3⟩
    · simp [estimateGas, findOne, World.start, h1, failed]
    · simp [estimateGas, markTicketAsUsed, findOne, World.start, h1, h2, failed]
    · simp [estimateGas, markTicketAsUsed, wait, findOne, World.start, h1, h2, h3, failed]

/-- C6, witness: the unused Ticket 7 validated twice against the double-spend mock. -/
theorem C6_double_validation_witness :
    (Sample.mirror7.tickets 7 = some Sample.ticket7 ∧ Sample.ticket7.isUsed = false ∧
      Sample.ticket7.qrHash = some "0xHASH7" ∧ (7 : Int) ≠ 0 ∧ "0xHASH7" ≠ "" ∧
      Sample.doubleSpendMock.estimateGas [] (.num 7) (.str "0xHASH7") = (.ok (), []) ∧
      Sample.doubleSpendMock.markTicketAsUsed [] (.num 7) (.str "0xHASH7") =
        (.ok ⟨"0xTX"⟩, [.num 7]) ∧
      Sample.doubleSpendMock.wait [.num 7] ⟨"0xTX"⟩ = (.ok ⟨42⟩, [.num 7]) ∧
      (Sample.doubleSpendMock.estimateGas [.num 7] (.num 7) (.str "0xHASH7")).1 =
        .error Sample.alreadyUsed) ∧
    ((postTwice Sample.env Sample.doubleSpendMock ⟨.num 7, .str "0xHASH7"⟩
        Sample.mirror7 []).1.1.success = true ∧
      (postTwice Sample.env Sample.doubleSpendMock ⟨.num 7, .str "0xHASH7"⟩
        Sample.mirror7 []).1.1.status = 200 ∧
      preCheck Sample.env (postTwice Sample.env Sample.doubleSpendMock
        ⟨.num 7, .str "0xHASH7"⟩ Sample.mirror7 []).1.2.mirror ⟨.num 7, .str "0xHASH7"⟩ =
        .passed Sample.ticket7 ∧
      Op.estimateGas (.num 7) (.str "0xHASH7") ∈
        (postTwice Sample.env Sample.doubleSpendMock ⟨.num 7, .str "0xHASH7"⟩
          Sample.mirror7 []).2.2.log ∧
      (postTwice Sample.env Sample.doubleSpendMock ⟨.num 7, .str "0xHASH7"⟩
        Sample.mirror7 []).2.1 =
        { status := 500, success := false, message := parseChainError Sample.alreadyUsed }) :=
  ⟨⟨rfl, rfl, rfl, by decide, by decide, rfl, rfl, rfl, rfl⟩,
    C6_double_validation Sample.env Sample.doubleSpendMock Sample.mirror7 [] [] [.num 7]
      [.num 7] 7 Sample.ticket7 "0xHASH7" ⟨"0xTX"⟩ ⟨42⟩ Sample.alreadyUsed rfl rfl rfl
      (by decide) (by decide) rfl rfl rfl (Or.inl rfl)⟩

/-- C7, counterexample. A request that carries an integer tokenId and a string qrHash is rejected
as a client input error: `{tokenId: 0, qrHash: "0xHASH0"}` (first part) and
`{tokenId: 7, qrHash: ""}` (second part) are both answered `400` with the message
"tokenId and qrHash are required.". -/
theorem C7_counterexample :
    (post Sample.env Sample.okContract ⟨.num 0, .str "0xHASH0"⟩
        (World.start Sample.mirror0 ())).1 =
        { status := 400, success := false, message := "tokenId and qrHash are required." } ∧
    (post Sample.env Sample.okContract ⟨.num 7, .str ""⟩
        (World.start Sample.mirror7 ())).1 =
        { status := 400, success := false, message := "tokenId and qrHash are required." } := by
  refine ⟨rfl, rfl⟩

/-- C7, amended. The validator returns the client input error (status `400`, `success = false`,
message "tokenId and qrHash are required.") exactly when tokenId or the proof token is falsy
(absent, `null`, `false`, the number `0` or the empty string): every such request, in particular
every request lacking either field, is rejected this way with no mirror read and no ledger call
(the mirror, the ledger and the record of steps are untouched), and every request that carries a
non-zero integer tokenId and a non-empty string qrHash is never rejected as a client input
error. -/
theorem C7_client_input_error {σ : Type} (env : Env) (C : Contract σ) (req : Request)
    (w : World σ) :
    ((post env C req w).1.status = 400 ↔
      (req.tokenId.truthy = false ∨ req.qrHash.truthy = false)) ∧
    ((req.tokenId.truthy = false ∨ req.qrHash.truthy = false) →
      post env C req w =
        ({ status := 400, success := false, message := "tokenId and qrHash are required." }, w)) ∧
    ((req.tokenId = .undefined ∨ req.qrHash = .undefined) →
      post env C req w =
        ({ status := 400, success := false, message := "tokenId and qrHash are required." }, w)) ∧
    (∀ k h, req = ⟨.num k, .str h⟩ → k ≠ 0 → h ≠ "" → (post env C req w).1.status ≠ 400) := by
  have hiff : (post env C req w).1.status = 400 ↔
      (req.tokenId.truthy = false ∨ req.qrHash.truthy = false) := by
    constructor
    · intro hst
      by_contra hin
      have ht : req.tokenId.truthy = true := by
        cases h : req.tokenId.truthy <;> simp_all
      have hq : req.qrHash.truthy = true := by
        cases h : req.qrHash.truthy <;> simp_all
      cases hl : lookup env w.mirror (req.tokenId.toNumber env) with
      | error e => simp [post, tryBlock, findOne, ht, hq, hl, failed] at hst
      | ok found =>
        cases found with
        | none => simp [post, tryBlock, findOne, ht, hq, hl, notFound] at hst
        | some t =>
          cases hu : t.isUsed with
          | true => simp [post, tryBlock, findOne, ht, hq, hl, hu, conflict] at hst
          | false =>
            cases hs : strictEq t.qrHash req.qrHash with
            | false =>
              simp [post, tryBlock, findOne, ht, hq, hl, hu, hs, Validate.mismatch] at hst
            | true =>
              have hpre : preCheck env w.mirror req = .passed t :=
                (preCheck_passed_iff env w.mirror req t).2 ⟨ht, hq, hl, hu, hs⟩
              rw [post_of_passed env C req w t hpre] at hst
              repeat' split at hst
              all_goals simp [failed, granted] at hst
    · intro hin
      rw [post_of_falsy env C req w hin]
      rfl
  refine ⟨hiff, fun hin => post_of_falsy env C req w hin, ?_, ?_⟩
  · intro hmiss
    apply post_of_falsy
    rcases hmiss with h | h <;> simp [h, JsValue.truthy]
  · intro k h hreq hk hne hst
    subst hreq
    have := hiff.1 hst
    simp [JsValue.truthy, hk, hne] at this

/-- C7, witness: a request without qrHash is answered `400` and nothing is read or called; the
request `{tokenId: 7, qrHash: "0xHASH7"}` is not answered `400`. -/
theorem C7_client_input_error_witness :
    post Sample.env Sample.okContract ⟨.num 7, .undefined⟩ (World.start Sample.mirror7 ()) =
        ({ status := 400, success := false, message := "tokenId and qrHash are required." },
          World.start Sample.mirror7 ()) ∧
    (post Sample.env Sample.okContract ⟨.num 7, .str "0xHASH7"⟩
        (World.start Sample.mirror7 ())).1.status ≠ 400 :=
  ⟨(C7_client_input_error Sample.env Sample.okContract ⟨.num 7, .undefined⟩
      (World.start Sample.mirror7 ())).2.2.1 (Or.inr rfl),
    (C7_client_input_error Sample.env Sample.okContract ⟨.num 7, .str "0xHASH7"⟩
      (World.start Sample.mirror7 ())).2.2.2 7 "0xHASH7" rfl (by decide) (by decide)⟩

/-! ## The mirror store: how each write changes the two collections -/

@[simp]
theorem Mirror.setTicket_tickets (m : Mirror) (key k : Int) (t : Ticket) :
    (m.setTicket key t).tickets k = if k = key then some t else m.tickets k := rfl

@[simp]
theorem Mirror.setTicket_events (m : Mirror) (key : Int) (t : Ticket) :
    (m.setTicket key t).events = m.events := rfl

@[simp]
theorem Mirror.setEvent_events (m : Mirror) (key k : Int) (e : Event) :
    (m.setEvent key e).events k = if k = key then some e else m.events k := rfl

@[simp]
theorem Mirror.setEvent_tickets (m : Mirror) (key : Int) (e : Event) :
    (m.setEvent key e).tickets = m.tickets := rfl

theorem Mirror.updateTicket_tickets (m : Mirror) (key k : Int) (f : Ticket → Ticket) :
    (m.updateTicket key f).tickets k = if k = key then (m.tickets key).map f else m.tickets k := by
  unfold Mirror.updateTicket
  cases h : m.tickets key with
  | none => by_cases hk : k = key <;> simp [hk, h]
  | some t => simp

theorem Mirror.updateTicket_events (m : Mirror) (key : Int) (f : Ticket → Ticket) :
    (m.updateTicket key f).events = m.events := by
  unfold Mirror.updateTicket
  cases m.tickets key <;> rfl

theorem Mirror.upsertTicket_tickets (m : Mirror) (key k : Int) (fresh : Ticket)
    (f : Ticket → Ticket) :
    (m.upsertTicket key fresh f).tickets k =
      if k = key then some (f ((m.tickets key).getD fresh)) else m.tickets k := by
  unfold Mirror.upsertTicket
  cases h : m.tickets key <;> simp

theorem Mirror.upsertTicket_events (m : Mirror) (key : Int) (fresh : Ticket)
    (f : Ticket → Ticket) :
    (m.upsertTicket key fresh f).events = m.events := by
  unfold Mirror.upsertTicket
  cases m.tickets key <;> rfl

theorem Mirror.updateEvent_events (m : Mirror) (key k : Int) (f : Event → Event) :
    (m.updateEvent key f).events k = if k = key then (m.events key).map f else m.events k := by
  unfold Mirror.updateEvent
  cases h : m.events key with
  | none => by_cases hk : k = key <;> simp [hk, h]
  | some e => simp

theorem Mirror.updateEvent_tickets (m : Mirror) (key : Int) (f : Event → Event) :
    (m.updateEvent key f).tickets = m.tickets := by
  unfold Mirror.updateEvent
  cases m.events key <;> rfl

theorem Mirror.upsertEvent_events (m : Mirror) (key k : Int) (fresh : Event)
    (f : Event → Event) :
    (m.upsertEvent key fresh f).events k =
      if k = key then some (f ((m.events key).getD fresh)) else m.events k := by
  unfold Mirror.upsertEvent
  cases h : m.events key <;> simp

theorem Mirror.upsertEvent_tickets (m : Mirror) (key : Int) (fresh : Event)
    (f : Event → Event) :
    (m.upsertEvent key fresh f).tickets = m.tickets := by
  unfold Mirror.upsertEvent
  cases m.events key <;> rfl

/-! ## The live listener: claims -/

namespace Listener

/-- What one handler run does to the Ticket stored under a key: the document is kept, replaced by
an updated one, or (for `TicketMinted`) inserted; `isUsed` is only ever set to `true` and the
listing is only activated by `TicketListed`. -/
theorem ticket_after_step (env : Env) (d : Delivery) (m : Mirror) (k : Int) (t : Ticket)
    (hm : m.tickets k = some t) :
    ∃ t', (startListener env d m).tickets k = some t' ∧
      (t.isUsed = true → t'.isUsed = true) ∧
      ((∀ tokenId seller price, d.event ≠ .TicketListed tokenId seller price) →
        t.listing.isActive = false → t'.listing.isActive = false) := by
  unfold startListener
  cases hev : d.event with
  | EventCreated eventId name price supply =>
    refine ⟨t, ?_, id, fun _ => id⟩
    simp only [onEventCreated]
    repeat' split
    all_goals simp [Mirror.upsertEvent_tickets, hm]
  | EventDeactivated eventId =>
    refine ⟨t, ?_, id, fun _ => id⟩
    simp only [onEventDeactivated]
    split <;> simp [Mirror.updateEvent_tickets, hm]
  | TicketMinted tokenId eventId buyer qrHash =>
    simp only [onTicketMinted]
    cases d.chain.tickets tokenId with
    | none => exact ⟨t, hm, id, fun _ => id⟩
    | some td =>
      cases d.writeOk1 with
      | false => exact ⟨t, by simpa using hm, id, fun _ => id⟩
      | true =>
        by_cases hk : k = (tokenId : Int)
        · subst hk
          cases d.writeOk2 <;>
            simp [Mirror.updateEvent_tickets, Mirror.upsertTicket_tickets, hm]
        · cases d.writeOk2 <;>
            simp [Mirror.updateEvent_tickets, Mirror.upsertTicket_tickets, hm, hk]
  | TicketListed tokenId seller price =>
    simp only [onTicketListed]
    cases d.writeOk1 with
    | false => exact ⟨t, by simpa using hm, id, fun _ => id⟩
    | true =>
      by_cases hk : k = (tokenId : Int)
      · subst hk
        simp only [Bool.not_true, Bool.false_eq_true, if_false, Mirror.updateTicket_tickets,
          if_true, hm, Option.map_some']
        exact ⟨_, rfl, fun h => h, fun h => absurd rfl (h tokenId seller price)⟩
      · exact ⟨t, by simp [Mirror.updateTicket_tickets, hm, hk], id, fun _ => id⟩
  | ListingCancelled tokenId =>
    simp only [onListingCancelled]
    cases d.writeOk1 with
    | false => exact ⟨t, by simpa using hm, id, fun _ => id⟩
    | true =>
      by_cases hk : k = (tokenId : Int)
      · subst hk
        simp [Mirror.updateTicket_tickets, hm]
      · simp [Mirror.updateTicket_tickets, hm, hk]
  | TicketSold tokenId seller buyer price fee =>
    simp only [onTicketSold]
    cases d.writeOk1 with
    | false => exact ⟨t, by simpa using hm, id, fun _ => id⟩
    | true =>
      by_cases hk : k = (tokenId : Int)
      · subst hk
        simp [Mirror.updateTicket_tickets, hm]
      · simp [Mirror.updateTicket_tickets, hm, hk]
  | TicketUsed tokenId =>
    simp only [onTicketUsed]
    cases d.writeOk1 with
    | false => exact ⟨t, by simpa using hm, id, fun _ => id⟩
    | true =>
      by_cases hk : k = (tokenId : Int)
      · subst hk
        simp [Mirror.updateTicket_tickets, hm]
      · simp [Mirror.updateTicket_tickets, hm, hk]

end Listener

open Listener

/-- C8. Monotonic isUsed: for every mirror state, every Ticket whose `isUsed` is true, and every
finite sequence of live event applications (the seven event types, with arbitrary arguments,
arbitrary ledger snapshots, and writes that may fail), that Ticket is still in the mirror with
`isUsed = true` afterwards. -/
theorem C8_isUsed_monotonic (env : Env) (ds : List Delivery) (m : Mirror) (k : Int) (t : Ticket)
    (hm : m.tickets k = some t) (hu : t.isUsed = true) :
    ∃ t', (applyAll env ds m).tickets k = some t' ∧ t'.isUsed = true := by
  induction ds generalizing m t with
  | nil => exact ⟨t, hm, hu⟩
  | cons d ds ih =>
    obtain ⟨t1, h1, hu1, _⟩ := ticket_after_step env d m k t hm
    exact ih (startListener env d m) t1 h1 (hu1 hu)

/-- C8, witness: the used Ticket 7 after it is listed, minted again, sold and used again. -/
theorem C8_isUsed_monotonic_witness :
    (Sample.usedMirror7.tickets 7 = some Sample.usedTicket7 ∧
      Sample.usedTicket7.isUsed = true) ∧
    ∃ t', (applyAll Sample.env
        [Sample.deliver (.TicketListed 7 "0xSELLER" 5), Sample.mintAgain,
          Sample.deliver (.TicketSold 7 "0xSELLER" "0xBUYER" 5 1),
          Sample.deliver (.TicketUsed 7)]
        Sample.usedMirror7).tickets 7 = some t' ∧ t'.isUsed = true :=
  ⟨⟨rfl, rfl⟩,
    C8_isUsed_monotonic Sample.env
      [Sample.deliver (.TicketListed 7 "0xSELLER" 5), Sample.mintAgain,
        Sample.deliver (.TicketSold 7 "0xSELLER" "0xBUYER" 5 1),
        Sample.deliver (.TicketUsed 7)]
      Sample.usedMirror7 7 Sample.usedTicket7 rfl rfl⟩

/-- C9, counterexample. The mirror holds the used Ticket 7 with an inactive listing, so every
Ticket satisfies `isUsed = true` implies `listing.isActive = false`; after the application of
`TicketListed(7, "0xSELLER", 5)` Ticket 7 is used and its listing is active. -/
theorem C9_counterexample :
    Sample.usedMirror7.exclusive ∧
    ((startListener Sample.env (Sample.deliver (.TicketListed 7 "0xSELLER" 5))
        Sample.usedMirror7).tickets 7).map (fun t => (t.isUsed, t.listing.isActive)) =
      some (true, true) ∧
    ¬ (startListener Sample.env (Sample.deliver (.TicketListed 7 "0xSELLER" 5))
        Sample.usedMirror7).exclusive := by
  refine ⟨?_, rfl, ?_⟩
  · intro key t ht _
    simp only [Sample.usedMirror7, Mirror.setTicket_tickets, Mirror.empty] at ht
    split at ht
    · cases ht; rfl
    · cases ht
  · intro hex
    have h := hex 7 _ rfl rfl
    exact absurd h (by decide)

/-- C9, amended. Listing/used exclusivity: starting from any mirror in which every Ticket
satisfies (`isUsed = true` implies `listing.isActive = false`), after every single live event
application other than a `TicketListed` for a Ticket the mirror holds as used, every Ticket in the
mirror still satisfies `isUsed = true` implies `listing.isActive = false`. -/
theorem C9_exclusivity_preserved (env : Env) (d : Delivery) (m : Mirror)
    (hex : m.exclusive)
    (hlisted : ∀ tokenId seller price, d.event = .TicketListed tokenId seller price →
      ∀ t, m.tickets tokenId = some t → t.isUsed = false) :
    (startListener env d m).exclusive := by
  intro k t' hk' hu'
  cases hev : d.event with
  | EventCreated eventId name price supply =>
    simp only [startListener, hev, onEventCreated] at hk'
    refine hex k t' ?_ hu'
    revert hk'
    repeat' split
    all_goals simp [Mirror.upsertEvent_tickets]
  | EventDeactivated eventId =>
    simp only [startListener, hev, onEventDeactivated] at hk'
    refine hex k t' ?_ hu'
    revert hk'
    split <;> simp [Mirror.updateEvent_tickets]
  | TicketMinted tokenId eventId buyer qrHash =>
    simp only [startListener, hev, onTicketMinted] at hk'
    cases htd : d.chain.tickets tokenId with
    | none => rw [htd] at hk'; exact hex k t' hk' hu'
    | some td =>
      rw [htd] at hk'
      cases hw1 : d.writeOk1 with
      | false => rw [hw1] at hk'; exact hex k t' (by simpa using hk') hu'
      | true =>
        have hk2 : (m.upsertTicket tokenId (Ticket.fresh tokenId d.now) fun t =>
            { t with
              tokenId := tokenId
              eventId := eventId
              seatNumber := some td.seatNumber
              originalPrice := some (env.formatEther td.originalPrice)
              originalBuyer := some buyer
              qrHash := some qrHash
              transferCount := td.transferCount
              updatedAt := d.now }).tickets k = some t' := by
          rw [hw1] at hk'
          cases hw2 : d.writeOk2 <;> rw [hw2] at hk' <;>
            simpa [Mirror.updateEvent_tickets] using hk'
        rw [Mirror.upsertTicket_tickets] at hk2
        by_cases hk : k = (tokenId : Int)
        · subst hk
          rw [if_pos rfl] at hk2
          cases hold : m.tickets (tokenId : Int) with
          | none =>
            rw [hold] at hk2
            simp only [Option.getD_none, Option.some.injEq] at hk2
            subst hk2
            simp [Ticket.fresh] at hu'
          | some t =>
            rw [hold] at hk2
            simp only [Option.getD_some, Option.some.injEq] at hk2
            subst hk2
            exact hex _ t hold hu'
        · rw [if_neg hk] at hk2
          exact hex k t' hk2 hu'
  | TicketListed tokenId seller price =>
    simp only [startListener, hev, onTicketListed] at hk'
    cases hw1 : d.writeOk1 with
    | false => rw [hw1] at hk'; exact hex k t' (by simpa using hk') hu'
    | true =>
      rw [hw1] at hk'
      simp only [Bool.not_true, Bool.false_eq_true, if_false, Mirror.updateTicket_tickets] at hk'
      by_cases hk : k = (tokenId : Int)
      · subst hk
        rw [if_pos rfl] at hk'
        cases hold : m.tickets (tokenId : Int) with
        | none => rw [hold] at hk'; cases hk'
        | some t =>
          rw [hold] at hk'
          simp only [Option.map_some', Option.some.injEq] at hk'
          subst hk'
          have := hlisted tokenId seller price hev t hold
          simp [this] at hu'
      · rw [if_neg hk] at hk'
        exact hex k t' hk' hu'
  | ListingCancelled tokenId =>
    simp only [startListener, hev, onListingCancelled] at hk'
    cases hw1 : d.writeOk1 with
    | false => rw [hw1] at hk'; exact hex k t' (by simpa using hk') hu'
    | true =>
      rw [hw1] at hk'
      simp only [Bool.not_true, Bool.false_eq_true, if_false, Mirror.updateTicket_tickets] at hk'
      by_cases hk : k = (tokenId : Int)
      · subst hk
        rw [if_pos rfl] at hk'
        cases hold : m.tickets (tokenId : Int) with
        | none => rw [hold] at hk'; cases hk'
        | some t =>
          rw [hold] at hk'
          simp only [Option.map_some', Option.some.injEq] at hk'
          subst hk'
          rfl
      · rw [if_neg hk] at hk'
        exact hex k t' hk' hu'
  | TicketSold tokenId seller buyer price fee =>
    simp only [startListener, hev, onTicketSold] at hk'
    cases hw1 : d.writeOk1 with
    | false => rw [hw1] at hk'; exact hex k t' (by simpa using hk') hu'
    | true =>
      rw [hw1] at hk'
      simp only [Bool.not_true, Bool.false_eq_true, if_false, Mirror.updateTicket_tickets] at hk'
      by_cases hk : k = (tokenId : Int)
      · subst hk
        rw [if_pos rfl] at hk'
        cases hold : m.tickets (tokenId : Int) with
        | none => rw [hold] at hk'; cases hk'
        | some t =>
          rw [hold] at hk'
          simp only [Option.map_some', Option.some.injEq] at hk'
          subst hk'
          rfl
      · rw [if_neg hk] at hk'
        exact hex k t' hk' hu'
  | TicketUsed tokenId =>
    simp only [startListener, hev, onTicketUsed] at hk'
    cases hw1 : d.writeOk1 with
    | false => rw [hw1] at hk'; exact hex k t' (by simpa using hk') hu'
    | true =>
      rw [hw1] at hk'
      simp only [Bool.not_true, Bool.false_eq_true, if_false, Mirror.updateTicket_tickets] at hk'
      by_cases hk : k = (tokenId : Int)
      · subst hk
        rw [if_pos rfl] at hk'
        cases hold : m.tickets (tokenId : Int) with
        | none => rw [hold] at hk'; cases hk'
        | some t =>
          rw [hold] at hk'
          simp only [Option.map_some', Option.some.injEq] at hk'
          subst hk'
          rfl
      · rw [if_neg hk] at hk'
        exact hex k t' hk' hu'

/-- C9, witness: listing the unused Ticket 7 keeps the exclusivity. -/
theorem C9_exclusivity_preserved_witness :
    (Sample.mirror7.exclusive ∧
      ∀ tokenId seller price,
        (Sample.deliver (.TicketListed 7 "0xSELLER" 5)).event =
          .TicketListed tokenId seller price →
        ∀ t, Sample.mirror7.tickets tokenId = some t → t.isUsed = false) ∧
    (startListener Sample.env (Sample.deliver (.TicketListed 7 "0xSELLER" 5))
      Sample.mirror7).exclusive :=
  have hex : Sample.mirror7.exclusive := by
    intro key t ht _
    simp only [Sample.mirror7, Mirror.setTicket_tickets, Mirror.empty] at ht
    split at ht
    · cases ht; rfl
    · cases ht
  have hlisted : ∀ tokenId seller price,
      (Sample.deliver (.TicketListed 7 "0xSELLER" 5)).event =
        .TicketListed tokenId seller price →
      ∀ t, Sample.mirror7.tickets tokenId = some t → t.isUsed = false := by
    intro tokenId seller price hev t ht
    simp only [Sample.mirror7, Mirror.setTicket_tickets, Mirror.empty] at ht
    split at ht
    · cases ht; rfl
    · cases ht
  ⟨⟨hex, hlisted⟩,
    C9_exclusivity_preserved Sample.env (Sample.deliver (.TicketListed 7 "0xSELLER" 5))
      Sample.mirror7 hex hlisted⟩

/-! ## The backfill: claims -/

/-- C10, the code at the failing input. The ledger `Sample.twoEvents` satisfies the capacity
invariant (two events of capacity one with one ticket minted each). Starting from the empty
mirror, the event sweep leaves Event 2 with `ticketsMinted = 1` and `totalSupply = 1`; the ticket
sweep that follows terminates and overwrites `ticketsMinted` of Event 2 with the tokenId `2`, so
the mirrored Event 2 has `ticketsMinted = 2 > totalSupply = 1` and breaks the capacity
invariant. -/
theorem C10_ticket_sweep_breaks_capacity :
    Sample.twoEvents.withinCapacity ∧
    ((SyncEvents.sync Sample.env Sample.twoEvents Sample.clock 3 Mirror.empty).bind
        fun m => (m.events 2).map fun e => (e.ticketsMinted, e.totalSupply)) =
      some (1, some 1) ∧
    ((backfill Sample.env Sample.twoEvents Sample.clock 3 Mirror.empty).bind
        fun m => (m.events 2).map fun e => (e.ticketsMinted, e.totalSupply)) =
      some (2, some 1) ∧
    ∃ m e, backfill Sample.env Sample.twoEvents Sample.clock 3 Mirror.empty = some m ∧
      m.events 2 = some e ∧ ¬ e.withinCapacity := by
  refine ⟨?_, rfl, rfl, ?_⟩
  · intro id ev h
    simp only [Sample.twoEvents] at h
    split at h
    · cases h; decide
    · split at h
      · cases h; decide
      · cases h
  · refine ⟨_, _, rfl, rfl, ?_⟩
    rintro ⟨_, supply, hs, hle⟩
    cases hs
    exact absurd hle (by decide)

/-! ## The translation of ledger errors -/

namespace Validate

/-- The test `startsWith` holds exactly when the list is `pat` followed by something. -/
theorem startsWith_iff (pat : List Char) : ∀ cs : List Char,
    startsWith pat cs = true ↔ ∃ b, cs = pat ++ b := by
  induction pat with
  | nil => intro cs; simp [startsWith]
  | cons p ps ih =>
    intro cs
    cases cs with
    | nil => simp [startsWith]
    | cons c rest =>
      simp only [startsWith, Bool.and_eq_true, beq_iff_eq, ih rest, List.cons_append,
        List.cons.injEq]
      constructor
      · rintro ⟨rfl, b, rfl⟩; exact ⟨b, rfl, rfl⟩
      · rintro ⟨b, rfl, rfl⟩; exact ⟨rfl, b, rfl⟩

/-- The test `occursIn` holds exactly when `pat` is a contiguous part of the list. -/
theorem occursIn_iff (pat : List Char) : ∀ cs : List Char,
    occursIn pat cs = true ↔ ∃ a b, cs = a ++ pat ++ b := by
  intro cs
  induction cs with
  | nil =>
    simp only [occursIn, List.isEmpty_iff]
    constructor
    · rintro rfl; exact ⟨[], [], rfl⟩
    · rintro ⟨a, b, h⟩
      have h1 := congrArg List.length h
      simp only [List.length_nil, List.length_append] at h1
      exact List.length_eq_zero.1 (by omega)
  | cons c cs ih =>
    simp only [occursIn, Bool.or_eq_true, startsWith_iff, ih]
    constructor
    · rintro (⟨b, h⟩ | ⟨a, b, h⟩)
      · exact ⟨[], b, by simpa using h⟩
      · exact ⟨c :: a, b, by simp [h]⟩
    · rintro ⟨a, b, h⟩
      cases a with
      | nil => exact Or.inl ⟨b, by simpa using h⟩
      | cons x a =>
        simp only [List.cons_append, List.cons.injEq] at h
        exact Or.inr ⟨a, b, h.2⟩

/-- The model of `s.includes(pat)` is the substring test. -/
theorem includes_iff (s pat : String) :
    includes s pat = true ↔ ∃ a b, s.toList = a ++ pat.toList ++ b :=
  occursIn_iff pat.toList s.toList

/-- When `err.reason` is absent or empty, `parseChainError` is decided by `err.message`. -/
theorem parseChainError_of_no_reason (err : JsError)
    (h : err.reason = none ∨ err.reason = some "") :
    parseChainError err = parseMessage err.message := by
  rcases h with h | h <;> simp [parseChainError, h]

end Validate

/-- C20. Ledger error translation (`parseChainError`): for every ledger error, if the error
carries a non-empty reason string the returned message is "Contract error: " followed by that
reason, whatever the error's message text; otherwise the message is the coarse classification
selected by the error's message text, tried in this order (mentions `AlreadyUsed`: already used
on-chain; `BadQRHash`: rejected by contract; `BadTokenId`: token does not exist on-chain;
`insufficient funds`: backend wallet lacks funds), and otherwise the raw message text, or the fixed
"Unknown error during on-chain validation." string when there is none (absent or empty). The
validator's failure answer (status `500`) carries exactly this translation of the error thrown in
its `try` block, and every answer `500` arises this way. -/
theorem C20_error_translation (err : JsError) :
    (∀ r, err.reason = some r → r ≠ "" → parseChainError err = "Contract error: " ++ r) ∧
    ((err.reason = none ∨ err.reason = some "") →
      (∀ msg, err.message = some msg →
        (includes msg "AlreadyUsed" = true → parseChainError err = "Already used on-chain.") ∧
        (includes msg "AlreadyUsed" = false → includes msg "BadQRHash" = true →
          parseChainError err = "QR hash rejected by contract.") ∧
        (includes msg "AlreadyUsed" = false → includes msg "BadQRHash" = false →
          includes msg "BadTokenId" = true →
          parseChainError err = "Token does not exist on-chain.") ∧
        (includes msg "AlreadyUsed" = false → includes msg "BadQRHash" = false →
          includes msg "BadTokenId" = false → includes msg "insufficient funds" = true →
          parseChainError err = "Backend wallet has insufficient ETH for gas.") ∧
        (includes msg "AlreadyUsed" = false → includes msg "BadQRHash" = false →
          includes msg "BadTokenId" = false → includes msg "insufficient funds" = false →
          (msg ≠ "" → parseChainError err = msg) ∧
          (msg = "" → parseChainError err = "Unknown error during on-chain validation."))) ∧
      (err.message = none →
        parseChainError err = "Unknown error during on-chain validation.")) ∧
    (∀ (s pat : String), includes s pat = true ↔ ∃ a b, s.toList = a ++ pat.toList ++ b) ∧
    (∀ {σ : Type} (env : Env) (C : Contract σ) (req : Request) (w : World σ),
      req.tokenId.truthy = true → req.qrHash.truthy = true →
      (tryBlock env C req w).1 = .error err →
      (post env C req w).1 =
        { status := 500, success := false, message := parseChainError err }) ∧
    (∀ {σ : Type} (env : Env) (C : Contract σ) (req : Request) (w : World σ),
      (post env C req w).1.status = 500 →
      ∃ thrown, (tryBlock env C req w).1 = .error thrown ∧
        (post env C req w).1.message = parseChainError thrown) := by
  refine ⟨?_, ?_, includes_iff, ?_, ?_⟩
  · intro r hr hne
    simp [parseChainError, hr, hne]
  · intro hno
    rw [parseChainError_of_no_reason err hno]
    refine ⟨fun msg hmsg => ?_, fun hnone => by simp [hnone, parseMessage]⟩
    rw [hmsg]
    refine ⟨?_, ?_, ?_, ?_, ?_⟩
    · intro h1; simp [parseMessage, h1]
    · intro h1 h2; simp [parseMessage, h1, h2]
    · intro h1 h2 h3; simp [parseMessage, h1, h2, h3]
    · intro h1 h2 h3 h4; simp [parseMessage, h1, h2, h3, h4]
    · intro h1 h2 h3 h4
      exact ⟨fun hne => by simp [parseMessage, h1, h2, h3, h4, hne],
        fun he => by subst he; simp [parseMessage, h1, h2, h3, h4]⟩
  · intro σ env C req w ht hq hthrow
    simp [post, ht, hq, hthrow, failed]
  · intro σ env C req w hst
    by_cases hin : req.tokenId.truthy = false ∨ req.qrHash.truthy = false
    · rw [post_of_falsy env C req w hin] at hst
      simp [badRequest] at hst
    · have ht : req.tokenId.truthy = true := by
        cases h : req.tokenId.truthy <;> simp_all
      have hq : req.qrHash.truthy = true := by
        cases h : req.qrHash.truthy <;> simp_all
      cases htry : (tryBlock env C req w).1 with
      | error thrown =>
        exact ⟨thrown, rfl, by simp [post, ht, hq, htry, failed]⟩
      | ok res =>
        exfalso
        have hres : (post env C req w).1 = res := by simp [post, ht, hq, htry]
        rw [hres] at hst
        revert htry
        simp only [tryBlock]
        repeat' split
        all_goals intro h
        all_goals simp only [Except.ok.injEq, reduceCtorEq] at h
        all_goals subst h
        all_goals simp [notFound, conflict, Validate.mismatch, granted] at hst

/-- C20, witness: an error with a reason is rendered from the reason, and an error without one
whose message mentions `AlreadyUsed` is classified as already used on-chain. -/
theorem C20_error_translation_witness :
    parseChainError ⟨some "Ticket already used", some "AlreadyUsed"⟩ =
        "Contract error: " ++ "Ticket already used" ∧
      parseChainError Sample.alreadyUsed = "Already used on-chain." :=
  ⟨(C20_error_translation ⟨some "Ticket already used", some "AlreadyUsed"⟩).1
      "Ticket already used" rfl (by decide),
    ((C20_error_translation Sample.alreadyUsed).2.1 (Or.inl rfl)).1
      "execution reverted: AlreadyUsed()" rfl |>.1 (by decide)⟩

/-! ## The live listener: the effect of single handlers -/

/-- C16, counterexample. `TicketMinted(7, 1, "0xABC", "0xHASH7")` is applied to a mirror that
holds Event 1 and no Ticket 7, the ledger read of ticket 7 succeeds and returns a ticket that
has already been transferred once; the mirrored Ticket 7 then has `transferCount = 1`, not `0`. -/
theorem C16_counterexample :
    Sample.mirrorEvent1.events 1 = some Sample.event1 ∧ Sample.mirrorEvent1.tickets 7 = none ∧
      (Sample.mint7 1).chain.tickets 7 = some (Sample.snapshot7 1) ∧
      ((startListener Sample.env (Sample.mint7 1) Sample.mirrorEvent1).tickets 7).map
        (fun t => t.transferCount) = some 1 := by
  refine ⟨rfl, rfl, rfl, rfl⟩

/-- C16, amended. TicketMinted effect: for every event `TicketMinted(tokenId, eventId, buyer,
qrHash)` whose ledger ticket read succeeds, applied (the mirror writes going through) to a mirror
that holds Event `eventId` and no Ticket `tokenId`, the mirror afterwards holds a Ticket keyed
`tokenId` with that `eventId`, `originalBuyer = buyer`, `qrHash = qrHash`, `transferCount` equal to
the `transferCount` of the ledger snapshot (so `0` when the snapshot says `0`), `isUsed = false`
and an inactive listing, and the `ticketsMinted` of Event `eventId` is exactly one more than
before. -/
theorem C16_ticket_minted_effect (env : Env) (d : Delivery) (m : Mirror) (tokenId eventId : Nat)
    (buyer qrHash : String) (td : TicketSnapshot) (e : Event)
    (hev : d.event = .TicketMinted tokenId eventId buyer qrHash)
    (hread : d.chain.tickets tokenId = some td)
    (hevent : m.events eventId = some e) (hticket : m.tickets tokenId = none)
    (hw1 : d.writeOk1 = true) (hw2 : d.writeOk2 = true) :
    (∃ t', (startListener env d m).tickets tokenId = some t' ∧
      t'.tokenId = tokenId ∧ t'.eventId = eventId ∧ t'.originalBuyer = some buyer ∧
      t'.qrHash = some qrHash ∧ t'.transferCount = td.transferCount ∧
      (td.transferCount = 0 → t'.transferCount = 0) ∧
      t'.isUsed = false ∧ t'.listing.isActive = false) ∧
    (∃ e', (startListener env d m).events eventId = some e' ∧
      e'.ticketsMinted = e.ticketsMinted + 1) := by
  constructor
  · simp only [startListener, hev, onTicketMinted, hread, hw1, hw2, Bool.not_true,
      Bool.false_eq_true, if_false, Mirror.updateEvent_tickets, Mirror.upsertTicket_tickets,
      if_true, hticket, Option.getD_none]
    exact ⟨_, rfl, rfl, rfl, rfl, rfl, rfl, fun h => by simp [h], rfl, rfl⟩
  · simp only [startListener, hev, onTicketMinted, hread, hw1, hw2, Bool.not_true,
      Bool.false_eq_true, if_false, Mirror.updateEvent_events, Mirror.upsertTicket_events,
      if_true, hevent, Option.map_some']
    exact ⟨_, rfl, rfl⟩

/-- C16, witness: `TicketMinted(7, 1, "0xABC", "0xHASH7")` for a ticket the ledger holds with no
transfer, applied to a mirror with Event 1 (three tickets minted) and no Ticket 7. -/
theorem C16_ticket_minted_effect_witness :
    ((Sample.mint7 0).event = .TicketMinted 7 1 "0xABC" "0xHASH7" ∧
      (Sample.mint7 0).chain.tickets 7 = some (Sample.snapshot7 0) ∧
      Sample.mirrorEvent1.events ((1 : Nat) : Int) = some Sample.event1 ∧
      Sample.mirrorEvent1.tickets ((7 : Nat) : Int) = none ∧
      (Sample.mint7 0).writeOk1 = true ∧ (Sample.mint7 0).writeOk2 = true) ∧
    ((∃ t', (startListener Sample.env (Sample.mint7 0) Sample.mirrorEvent1).tickets
        ((7 : Nat) : Int) = some t' ∧
      t'.tokenId = ((7 : Nat) : Int) ∧ t'.eventId = ((1 : Nat) : Int) ∧
      t'.originalBuyer = some "0xABC" ∧
      t'.qrHash = some "0xHASH7" ∧ t'.transferCount = ((Sample.snapshot7 0).transferCount : Int) ∧
      ((Sample.snapshot7 0).transferCount = 0 → t'.transferCount = 0) ∧
      t'.isUsed = false ∧ t'.listing.isActive = false) ∧
    (∃ e', (startListener Sample.env (Sample.mint7 0) Sample.mirrorEvent1).events
        ((1 : Nat) : Int) = some e' ∧
      e'.ticketsMinted = Sample.event1.ticketsMinted + 1)) :=
  ⟨⟨rfl, rfl, rfl, rfl, rfl, rfl⟩,
    C16_ticket_minted_effect Sample.env (Sample.mint7 0) Sample.mirrorEvent1 7 1 "0xABC"
      "0xHASH7" (Sample.snapshot7 0) Sample.event1 rfl rfl rfl rfl rfl rfl⟩

/-- C17. TicketSold effect: for every mirror holding a Ticket keyed `tokenId` and every event
`TicketSold(tokenId, seller, buyer, price, fee)`, after the handler (its mirror write going
through) the Ticket has `originalBuyer = buyer`, `listing.isActive = false` and `transferCount`
equal to its previous value plus exactly 1; its other fields, `updatedAt` apart, are as before. -/
theorem C17_ticket_sold_effect (env : Env) (d : Delivery) (m : Mirror) (tokenId : Nat)
    (seller buyer : String) (price fee : Nat) (t : Ticket)
    (hev : d.event = .TicketSold tokenId seller buyer price fee)
    (hm : m.tickets tokenId = some t) (hw : d.writeOk1 = true) :
    ∃ t', (startListener env d m).tickets tokenId = some t' ∧
      t'.originalBuyer = some buyer ∧ t'.listing.isActive = false ∧
      t'.transferCount = t.transferCount + 1 ∧
      t' = { t with
        originalBuyer := some buyer
        listing := { t.listing with isActive := false }
        transferCount := t.transferCount + 1
        updatedAt := d.now } := by
  simp only [startListener, hev, onTicketSold, hw, Bool.not_true, Bool.false_eq_true, if_false,
    Mirror.updateTicket_tickets, if_true, hm, Option.map_some']
  exact ⟨_, rfl, rfl, rfl, rfl, rfl⟩

/-- C17, witness: the resale of the mirrored Ticket 7 to `"0xBUYER"`. -/
theorem C17_ticket_sold_effect_witness :
    ((Sample.deliver (.TicketSold 7 "0xABC" "0xBUYER" 5 1)).event =
        .TicketSold 7 "0xABC" "0xBUYER" 5 1 ∧
      Sample.mirror7.tickets ((7 : Nat) : Int) = some Sample.ticket7 ∧
      (Sample.deliver (.TicketSold 7 "0xABC" "0xBUYER" 5 1)).writeOk1 = true) ∧
    ∃ t', (startListener Sample.env (Sample.deliver (.TicketSold 7 "0xABC" "0xBUYER" 5 1))
        Sample.mirror7).tickets ((7 : Nat) : Int) = some t' ∧
      t'.originalBuyer = some "0xBUYER" ∧ t'.listing.isActive = false ∧
      t'.transferCount = Sample.ticket7.transferCount + 1 ∧
      t' = { Sample.ticket7 with
        originalBuyer := some "0xBUYER"
        listing := { Sample.ticket7.listing with isActive := false }
        transferCount := Sample.ticket7.transferCount + 1
        updatedAt := (Sample.deliver (.TicketSold 7 "0xABC" "0xBUYER" 5 1)).now } :=
  ⟨⟨rfl, rfl, rfl⟩,
    C17_ticket_sold_effect Sample.env (Sample.deliver (.TicketSold 7 "0xABC" "0xBUYER" 5 1))
      Sample.mirror7 7 "0xABC" "0xBUYER" 5 1 Sample.ticket7 rfl rfl rfl⟩

/-- C18, counterexample. `EventCreated(1, ...)` is applied with a ledger snapshot that reads
`ticketsMinted = 1`. On the empty mirror the Event created has `ticketsMinted = 0` (first part);
on a mirror that already holds Event 1 with `ticketsMinted = 3` the Event keeps `3` (second
part). In neither case does `ticketsMinted` equal the snapshot's. -/
theorem C18_counterexample :
    (Sample.created1.chain.getEventDetails 1 = some (Sample.soldOut "Genesis Concert") ∧
      (Sample.soldOut "Genesis Concert").ticketsMinted = 1) ∧
    ((startListener Sample.env Sample.created1 Mirror.empty).events 1).map
        (fun e => e.ticketsMinted) = some 0 ∧
    ((startListener Sample.env Sample.created1 Sample.mirrorEvent1).events 1).map
        (fun e => e.ticketsMinted) = some 3 := by
  refine ⟨⟨rfl, rfl⟩, rfl, rfl⟩

/-- C18, amended. EventCreated effect: for every event `EventCreated(eventId, ...)` whose ledger
snapshot read succeeds and every mirror state (Event `eventId` absent or already present), after
the handler (its mirror write going through) the mirror holds an Event keyed `eventId` whose
`name`, `date`, `venue`, `ticketPrice` (formatted), `totalSupply`, `maxResalePercent` and
`isActive` equal the snapshot's; `ticketsMinted` is not written: it is the schema default `0` when
the Event was absent and keeps its previous value when the Event was already present. -/
theorem C18_event_created_effect (env : Env) (d : Delivery) (m : Mirror) (eventId : Nat)
    (name : String) (price supply : Nat) (ev : EventSnapshot)
    (hev : d.event = .EventCreated eventId name price supply)
    (hread : d.chain.getEventDetails eventId = some ev) (hw : d.writeOk1 = true) :
    ∃ e', (startListener env d m).events eventId = some e' ∧
      e'.eventId = eventId ∧ e'.name = ev.name ∧ e'.date = some ev.date ∧
      e'.venue = some ev.venue ∧ e'.ticketPrice = some (env.formatEther ev.ticketPrice) ∧
      e'.totalSupply = some (ev.totalSupply : Int) ∧
      e'.maxResalePercent = some (ev.maxResalePercent : Int) ∧ e'.isActive = ev.isActive ∧
      (m.events eventId = none → e'.ticketsMinted = 0) ∧
      (∀ e, m.events eventId = some e → e'.ticketsMinted = e.ticketsMinted) := by
  simp only [startListener, hev, onEventCreated, hread, hw, Bool.not_true, Bool.false_eq_true,
    if_false, Mirror.upsertEvent_events, if_true]
  refine ⟨_, rfl, rfl, rfl, rfl, rfl, rfl, rfl, rfl, rfl, ?_, ?_⟩
  · intro h; simp [h, Event.fresh]
  · intro e h; simp [h]

/-- C18, witness: `EventCreated(1, ...)` applied to a mirror that already holds Event 1. -/
theorem C18_event_created_effect_witness :
    (Sample.created1.event = .EventCreated 1 "Genesis Concert" 1 1 ∧
      Sample.created1.chain.getEventDetails 1 = some (Sample.soldOut "Genesis Concert") ∧
      Sample.created1.writeOk1 = true) ∧
    ∃ e', (startListener Sample.env Sample.created1 Sample.mirrorEvent1).events
        ((1 : Nat) : Int) = some e' ∧
      e'.eventId = ((1 : Nat) : Int) ∧ e'.name = (Sample.soldOut "Genesis Concert").name ∧
      e'.date = some (Sample.soldOut "Genesis Concert").date ∧
      e'.venue = some (Sample.soldOut "Genesis Concert").venue ∧
      e'.ticketPrice =
        some (Sample.env.formatEther (Sample.soldOut "Genesis Concert").ticketPrice) ∧
      e'.totalSupply = some ((Sample.soldOut "Genesis Concert").totalSupply : Int) ∧
      e'.maxResalePercent = some ((Sample.soldOut "Genesis Concert").maxResalePercent : Int) ∧
      e'.isActive = (Sample.soldOut "Genesis Concert").isActive ∧
      (Sample.mirrorEvent1.events ((1 : Nat) : Int) = none → e'.ticketsMinted = 0) ∧
      (∀ e, Sample.mirrorEvent1.events ((1 : Nat) : Int) = some e →
        e'.ticketsMinted = e.ticketsMinted) :=
  ⟨⟨rfl, rfl, rfl⟩,
    C18_event_created_effect Sample.env Sample.created1 Sample.mirrorEvent1 1 "Genesis Concert"
      1 1 (Sample.soldOut "Genesis Concert") rfl rfl rfl⟩

namespace Listener

/-- What one handler run does to the Event stored under a key: the document stays in the mirror,
and its `isActive` can only become `true` through an `EventCreated` for that key whose ledger
snapshot reads `isActive = true`. -/
theorem event_after_step (env : Env) (d : Delivery) (m : Mirror) (k : Int) (e : Event)
    (hm : m.events k = some e) :
    ∃ e', (startListener env d m).events k = some e' ∧
      ((∀ eventId name price supply ev, d.event = .EventCreated eventId name price supply →
          (eventId : Int) = k → d.chain.getEventDetails eventId = some ev →
          ev.isActive = false) →
        e.isActive = false → e'.isActive = false) := by
  unfold startListener
  cases hev : d.event with
  | EventCreated eventId name price supply =>
    simp only [onEventCreated]
    cases hread : d.chain.getEventDetails eventId with
    | none => exact ⟨e, hm, fun _ => id⟩
    | some ev =>
      cases d.writeOk1 with
      | false => exact ⟨e, by simpa using hm, fun _ => id⟩
      | true =>
        by_cases hk : k = (eventId : Int)
        · subst hk
          simp only [Bool.not_true, Bool.false_eq_true, if_false, Mirror.upsertEvent_events,
            if_true]
          exact ⟨_, rfl, fun h _ => h eventId name price supply ev rfl rfl hread⟩
        · exact ⟨e, by simp [Mirror.upsertEvent_events, hk, hm], fun _ => id⟩
  | EventDeactivated eventId =>
    simp only [onEventDeactivated]
    cases d.writeOk1 with
    | false => exact ⟨e, by simpa using hm, fun _ => id⟩
    | true =>
      by_cases hk : k = (eventId : Int)
      · subst hk
        simp only [Bool.not_true, Bool.false_eq_true, if_false, Mirror.updateEvent_events,
          if_true, hm, Option.map_some']
        exact ⟨_, rfl, fun _ _ => rfl⟩
      · exact ⟨e, by simp [Mirror.updateEvent_events, hk, hm], fun _ => id⟩
  | TicketMinted tokenId eventId buyer qrHash =>
    simp only [onTicketMinted]
    cases d.chain.tickets tokenId with
    | none => exact ⟨e, hm, fun _ => id⟩
    | some td =>
      cases d.writeOk1 with
      | false => exact ⟨e, by simpa using hm, fun _ => id⟩
      | true =>
        cases d.writeOk2 with
        | false => exact ⟨e, by simp [Mirror.upsertTicket_events, hm], fun _ => id⟩
        | true =>
          by_cases hk : k = (eventId : Int)
          · subst hk
            simp only [Bool.not_true, Bool.false_eq_true, if_false, Mirror.updateEvent_events,
              Mirror.upsertTicket_events, if_true, hm, Option.map_some']
            exact ⟨_, rfl, fun _ h => h⟩
          · exact ⟨e, by simp [Mirror.updateEvent_events, Mirror.upsertTicket_events, hk, hm],
              fun _ => id⟩
  | TicketListed tokenId seller price =>
    refine ⟨e, ?_, fun _ => id⟩
    simp only [onTicketListed]
    split <;> simp [Mirror.updateTicket_events, hm]
  | ListingCancelled tokenId =>
    refine ⟨e, ?_, fun _ => id⟩
    simp only [onListingCancelled]
    split <;> simp [Mirror.updateTicket_events, hm]
  | TicketSold tokenId seller buyer price fee =>
    refine ⟨e, ?_, fun _ => id⟩
    simp only [onTicketSold]
    split <;> simp [Mirror.updateTicket_events, hm]
  | TicketUsed tokenId =>
    refine ⟨e, ?_, fun _ => id⟩
    simp only [onTicketUsed]
    split <;> simp [Mirror.updateTicket_events, hm]

end Listener

/-- C19, counterexample. The mirror holds Event 1 with `isActive = false`; after the application
of `EventCreated(1, ...)` whose ledger snapshot reads `isActive = true`, the mirrored Event 1 has
`isActive = true`. -/
theorem C19_counterexample :
    Sample.mirrorInactive1.events 1 = some Sample.inactiveEvent1 ∧
      Sample.inactiveEvent1.isActive = false ∧
      ((applyAll Sample.env [Sample.created1] Sample.mirrorInactive1).events 1).map
        (fun e => e.isActive) = some true := by
  refine ⟨rfl, rfl, rfl⟩

/-- C19, amended. Event deactivation is one-way: for every mirror state, every Event whose
`isActive` is false, and every finite sequence of live event applications (with arbitrary arguments
and ledger snapshots) in which no `EventCreated` for that Event reads a ledger snapshot with
`isActive = true`, that Event's `isActive` is still false afterwards. -/
theorem C19_deactivation_one_way (env : Env) (ds : List Delivery) (m : Mirror) (k : Int)
    (e : Event) (hm : m.events k = some e) (hoff : e.isActive = false)
    (hds : ∀ d ∈ ds, ∀ eventId name price supply ev,
      d.event = .EventCreated eventId name price supply → (eventId : Int) = k →
      d.chain.getEventDetails eventId = some ev → ev.isActive = false) :
    ∃ e', (applyAll env ds m).events k = some e' ∧ e'.isActive = false := by
  induction ds generalizing m e with
  | nil => exact ⟨e, hm, hoff⟩
  | cons d ds ih =>
    obtain ⟨e1, h1, hoff1⟩ := event_after_step env d m k e hm
    exact ih (startListener env d m) e1 h1
      (hoff1 (hds d (List.mem_cons_self d ds)) hoff)
      (fun d' hd' => hds d' (List.mem_cons_of_mem d hd'))

/-- C19, witness: the deactivated Event 1 after a mint, an `EventCreated` that reads the
deactivated event from the ledger, a deactivation and a resale. -/
theorem C19_deactivation_one_way_witness :
    (Sample.mirrorInactive1.events 1 = some Sample.inactiveEvent1 ∧
      Sample.inactiveEvent1.isActive = false) ∧
    ∃ e', (applyAll Sample.env
        [Sample.mint7 0, Sample.createdInactive1, Sample.deliver (.EventDeactivated 1),
          Sample.deliver (.TicketSold 7 "0xABC" "0xBUYER" 5 1)]
        Sample.mirrorInactive1).events 1 = some e' ∧ e'.isActive = false :=
  ⟨⟨rfl, rfl⟩,
    C19_deactivation_one_way Sample.env
      [Sample.mint7 0, Sample.createdInactive1, Sample.deliver (.EventDeactivated 1),
        Sample.deliver (.TicketSold 7 "0xABC" "0xBUYER" 5 1)]
      Sample.mirrorInactive1 1 Sample.inactiveEvent1 rfl rfl
      (by
        intro d hd eventId name price supply ev hev hk hread
        simp only [List.mem_cons, List.mem_singleton, List.not_mem_nil, or_false] at hd
        rcases hd with rfl | rfl | rfl | rfl
        · cases hev
        · cases hread; rfl
        · cases hev
        · cases hev)⟩

/-! ## Re-applying a write -/

/-- Every mirror agrees with itself. -/
theorem Mirror.agree_refl (fe : Event → Event) (ft : Ticket → Ticket) (m : Mirror) :
    Mirror.agree fe ft m m :=
  fun _ => ⟨rfl, rfl⟩

/-- Updating a Ticket a second time changes nothing that `ft` keeps, when the second update of an
updated document is invisible to `ft`. -/
theorem Mirror.agree_updateTicket_twice (fe : Event → Event) (ft : Ticket → Ticket) (m : Mirror)
    (key : Int) (f1 f2 : Ticket → Ticket) (h : ∀ t, ft (f2 (f1 t)) = ft (f1 t)) :
    Mirror.agree fe ft ((m.updateTicket key f1).updateTicket key f2) (m.updateTicket key f1) := by
  intro k
  refine ⟨by simp [Mirror.updateTicket_events], ?_⟩
  simp only [Mirror.updateTicket_tickets, if_true]
  by_cases hk : k = key
  · simp only [hk, if_true]
    cases m.tickets key <;> simp [h]
  · simp [hk]

/-- Updating an Event a second time changes nothing that `fe` keeps, when the second update of an
updated document is invisible to `fe`. -/
theorem Mirror.agree_updateEvent_twice (fe : Event → Event) (ft : Ticket → Ticket) (m : Mirror)
    (key : Int) (f1 f2 : Event → Event) (h : ∀ e, fe (f2 (f1 e)) = fe (f1 e)) :
    Mirror.agree fe ft ((m.updateEvent key f1).updateEvent key f2) (m.updateEvent key f1) := by
  intro k
  refine ⟨?_, by simp [Mirror.updateEvent_tickets]⟩
  simp only [Mirror.updateEvent_events, if_true]
  by_cases hk : k = key
  · simp only [hk, if_true]
    cases m.events key <;> simp [h]
  · simp [hk]

/-- Upserting an Event a second time changes nothing that `fe` keeps, when the second update of an
updated document is invisible to `fe`. -/
theorem Mirror.agree_upsertEvent_twice (fe : Event → Event) (ft : Ticket → Ticket) (m : Mirror)
    (key : Int) (fresh1 fresh2 : Event) (f1 f2 : Event → Event)
    (h : ∀ e, fe (f2 (f1 e)) = fe (f1 e)) :
    Mirror.agree fe ft ((m.upsertEvent key fresh1 f1).upsertEvent key fresh2 f2)
      (m.upsertEvent key fresh1 f1) := by
  intro k
  refine ⟨?_, by simp [Mirror.upsertEvent_tickets]⟩
  simp only [Mirror.upsertEvent_events, if_true]
  by_cases hk : k = key
  · simp [hk, h]
  · simp [hk]

/-- Upserting a Ticket a second time changes nothing that `ft` keeps, when the second update of an
updated document is invisible to `ft`. -/
theorem Mirror.agree_upsertTicket_twice (fe : Event → Event) (ft : Ticket → Ticket) (m : Mirror)
    (key : Int) (fresh1 fresh2 : Ticket) (f1 f2 : Ticket → Ticket)
    (h : ∀ t, ft (f2 (f1 t)) = ft (f1 t)) :
    Mirror.agree fe ft ((m.upsertTicket key fresh1 f1).upsertTicket key fresh2 f2)
      (m.upsertTicket key fresh1 f1) := by
  intro k
  refine ⟨by simp [Mirror.upsertTicket_events], ?_⟩
  simp only [Mirror.upsertTicket_tickets, if_true]
  by_cases hk : k = key
  · simp [hk, h]
  · simp [hk]

/-- The two writes of `TicketMinted` (a Ticket upsert, then an Event update) made a second time
change nothing that `fe` and `ft` keep, when the second updates are invisible to them. -/
theorem Mirror.agree_minted_twice (fe : Event → Event) (ft : Ticket → Ticket) (m : Mirror)
    (tkey ekey : Int) (fresh1 fresh2 : Ticket) (f1 f2 : Ticket → Ticket) (g1 g2 : Event → Event)
    (hf : ∀ t, ft (f2 (f1 t)) = ft (f1 t)) (hg : ∀ e, fe (g2 (g1 e)) = fe (g1 e)) :
    Mirror.agree fe ft
      ((((m.upsertTicket tkey fresh1 f1).updateEvent ekey g1).upsertTicket tkey fresh2
        f2).updateEvent ekey g2)
      ((m.upsertTicket tkey fresh1 f1).updateEvent ekey g1) := by
  intro k
  constructor
  · simp only [Mirror.updateEvent_events, Mirror.upsertTicket_events, if_true]
    by_cases hk : k = ekey
    · simp only [hk, if_true]
      cases m.events ekey <;> simp [hg]
    · simp [hk]
  · simp only [Mirror.updateEvent_tickets, Mirror.upsertTicket_tickets, if_true]
    by_cases hk : k = tkey
    · simp [hk, hf]
    · simp [hk]

/-- C15, counterexample. Applying `TicketSold(7, ...)` twice to a mirror holding Ticket 7 leaves
`transferCount = 2`, applying it once leaves `1`; applying `TicketMinted(7, 1, ...)` twice to a
mirror holding Event 1 with three tickets minted leaves `ticketsMinted = 5`, applying it once
leaves `4`. In both cases the mirror after two applications differs from the mirror after one in
more than timestamps. -/
theorem C15_counterexample :
    (((startListener Sample.env (Sample.deliver (.TicketSold 7 "0xABC" "0xBUYER" 5 1))
        Sample.mirror7).tickets 7).map (fun t => t.transferCount) = some 1 ∧
      ((startListener Sample.env (Sample.deliver (.TicketSold 7 "0xABC" "0xBUYER" 5 1))
        (startListener Sample.env (Sample.deliver (.TicketSold 7 "0xABC" "0xBUYER" 5 1))
          Sample.mirror7)).tickets 7).map (fun t => t.transferCount) = some 2 ∧
      ¬ Mirror.agree Event.noStamps Ticket.noTimes
        (startListener Sample.env (Sample.deliver (.TicketSold 7 "0xABC" "0xBUYER" 5 1))
          (startListener Sample.env (Sample.deliver (.TicketSold 7 "0xABC" "0xBUYER" 5 1))
            Sample.mirror7))
        (startListener Sample.env (Sample.deliver (.TicketSold 7 "0xABC" "0xBUYER" 5 1))
          Sample.mirror7)) ∧
    (((startListener Sample.env (Sample.mint7 0) Sample.mirrorEvent1).events 1).map
        (fun e => e.ticketsMinted) = some 4 ∧
      ((startListener Sample.env (Sample.mint7 0)
        (startListener Sample.env (Sample.mint7 0) Sample.mirrorEvent1)).events 1).map
        (fun e => e.ticketsMinted) = some 5 ∧
      ¬ Mirror.agree Event.noStamps Ticket.noTimes
        (startListener Sample.env (Sample.mint7 0)
          (startListener Sample.env (Sample.mint7 0) Sample.mirrorEvent1))
        (startListener Sample.env (Sample.mint7 0) Sample.mirrorEvent1)) := by
  refine ⟨⟨rfl, rfl, fun h => ?_⟩, ⟨rfl, rfl, fun h => ?_⟩⟩
  · exact absurd (h 7).2 (by decide)
  · exact absurd (h 1).1 (by decide)

/-- C15, amended. Handler idempotence: for every mirror state and every event, applied twice
against the same ledger snapshot and with the same outcome of the mirror writes, the second
application at any later time. For each of the five handlers `EventCreated`, `EventDeactivated`,
`TicketListed`, `ListingCancelled` and `TicketUsed`, two applications yield the same mirror state
as one, ignoring timestamps (`createdAt`, `updatedAt`, `listing.listedAt`). For `TicketMinted` the
same holds for every field except `Event.ticketsMinted` (the Tickets, `transferCount` included,
agree up to timestamps), and for `TicketSold` it holds for every field except
`Ticket.transferCount` (the Events agree up to timestamps). The excepted counter grows by one with
each application whose writes go through: after one `TicketMinted` the owning Event has
`ticketsMinted` one above its previous value and after two it has two above, and likewise
`transferCount` of the Ticket after one and after two `TicketSold`. -/
theorem C15_handler_idempotence (env : Env) (d : Delivery) (later : Nat) (m : Mirror) :
    ((∀ tokenId eventId buyer qrHash, d.event ≠ .TicketMinted tokenId eventId buyer qrHash) →
      (∀ tokenId seller buyer price fee, d.event ≠ .TicketSold tokenId seller buyer price fee) →
      Mirror.agree Event.noStamps Ticket.noTimes
        (startListener env { d with now := later } (startListener env d m))
        (startListener env d m)) ∧
    (∀ tokenId eventId buyer qrHash, d.event = .TicketMinted tokenId eventId buyer qrHash →
      Mirror.agree Event.noCount Ticket.noTimes
        (startListener env { d with now := later } (startListener env d m))
        (startListener env d m)) ∧
    (∀ tokenId seller buyer price fee, d.event = .TicketSold tokenId seller buyer price fee →
      Mirror.agree Event.noStamps Ticket.noCount
        (startListener env { d with now := later } (startListener env d m))
        (startListener env d m)) ∧
    (∀ (tokenId eventId : Nat) buyer qrHash td e,
      d.event = .TicketMinted tokenId eventId buyer qrHash →
      d.chain.tickets tokenId = some td → d.writeOk1 = true → d.writeOk2 = true →
      m.events eventId = some e →
      ((startListener env d m).events eventId).map (fun e' => e'.ticketsMinted) =
          some (e.ticketsMinted + 1) ∧
        ((startListener env { d with now := later } (startListener env d m)).events
          eventId).map (fun e' => e'.ticketsMinted) = some (e.ticketsMinted + 2)) ∧
    (∀ (tokenId : Nat) seller buyer price fee t,
      d.event = .TicketSold tokenId seller buyer price fee → d.writeOk1 = true →
      m.tickets tokenId = some t →
      ((startListener env d m).tickets tokenId).map (fun t' => t'.transferCount) =
          some (t.transferCount + 1) ∧
        ((startListener env { d with now := later } (startListener env d m)).tickets
          tokenId).map (fun t' => t'.transferCount) = some (t.transferCount + 2)) := by
  refine ⟨?_, ?_, ?_, ?_, ?_⟩
  · intro hminted hsold
    cases hev : d.event with
    | EventCreated eventId name price supply =>
      simp only [startListener, hev, onEventCreated]
      cases d.chain.getEventDetails eventId with
      | none => exact Mirror.agree_refl _ _ m
      | some ev =>
        cases d.writeOk1 with
        | false => exact Mirror.agree_refl _ _ m
        | true => exact Mirror.agree_upsertEvent_twice _ _ m eventId _ _ _ _ (fun _ => rfl)
    | EventDeactivated eventId =>
      simp only [startListener, hev, onEventDeactivated]
      cases d.writeOk1 with
      | false => exact Mirror.agree_refl _ _ m
      | true => exact Mirror.agree_updateEvent_twice _ _ m eventId _ _ (fun _ => rfl)
    | TicketMinted tokenId eventId buyer qrHash =>
      exact absurd hev (hminted tokenId eventId buyer qrHash)
    | TicketListed tokenId seller price =>
      simp only [startListener, hev, onTicketListed]
      cases d.writeOk1 with
      | false => exact Mirror.agree_refl _ _ m
      | true => exact Mirror.agree_updateTicket_twice _ _ m tokenId _ _ (fun _ => rfl)
    | ListingCancelled tokenId =>
      simp only [startListener, hev, onListingCancelled]
      cases d.writeOk1 with
      | false => exact Mirror.agree_refl _ _ m
      | true => exact Mirror.agree_updateTicket_twice _ _ m tokenId _ _ (fun _ => rfl)
    | TicketSold tokenId seller buyer price fee =>
      exact absurd hev (hsold tokenId seller buyer price fee)
    | TicketUsed tokenId =>
      simp only [startListener, hev, onTicketUsed]
      cases d.writeOk1 with
      | false => exact Mirror.agree_refl _ _ m
      | true => exact Mirror.agree_updateTicket_twice _ _ m tokenId _ _ (fun _ => rfl)
  · intro tokenId eventId buyer qrHash hev
    simp only [startListener, hev, onTicketMinted]
    cases d.chain.tickets tokenId with
    | none => exact Mirror.agree_refl _ _ m
    | some td =>
      cases d.writeOk1 with
      | false => exact Mirror.agree_refl _ _ m
      | true =>
        cases d.writeOk2 with
        | false =>
          exact Mirror.agree_upsertTicket_twice _ _ m tokenId _ _ _ _ (fun _ => rfl)
        | true =>
          exact Mirror.agree_minted_twice _ _ m tokenId eventId _ _ _ _ _ _ (fun _ => rfl)
            (fun _ => rfl)
  · intro tokenId seller buyer price fee hev
    simp only [startListener, hev, onTicketSold]
    cases d.writeOk1 with
    | false => exact Mirror.agree_refl _ _ m
    | true => exact Mirror.agree_updateTicket_twice _ _ m tokenId _ _ (fun _ => rfl)
  · intro tokenId eventId buyer qrHash td e hev hread hw1 hw2 hm
    simp only [startListener, hev, onTicketMinted, hread, hw1, hw2, Bool.not_true,
      Bool.false_eq_true, if_false, Mirror.updateEvent_events, Mirror.upsertTicket_events,
      if_true, hm, Option.map_some', Option.some.injEq, true_and]
    omega
  · intro tokenId seller buyer price fee t hev hw hm
    simp only [startListener, hev, onTicketSold, hw, Bool.not_true, Bool.false_eq_true,
      if_false, Mirror.updateTicket_tickets, if_true, hm, Option.map_some', Option.some.injEq,
      true_and]
    omega

/-! ## The event sweep in closed form -/

namespace SyncEvents

/-- The loop with its reads recorded computes the same mirror as the loop. -/
theorem eventSweep_fst (env : Env) (chain : Chain) (clock : Nat → Nat) :
    ∀ (fuel eventId : Nat) (m : Mirror) (reads : List Read),
      (traced env chain clock fuel eventId m reads).map Prod.fst =
        loop env chain clock fuel eventId m := by
  intro fuel
  induction fuel with
  | zero => intro eventId m reads; rfl
  | succ fuel ih =>
    intro eventId m reads
    unfold traced loop
    cases chain.getEventDetails eventId with
    | none => rfl
    | some ev => exact ih (eventId + 1) _ _

/-- The event sweep over a ledger whose reads succeed for `count` ids from `start` on and fail for
the next one: with more than `count` units of fuel it returns, it has read the ids
`start, ..., start + count` in that order, the Tickets are untouched, every Event in the range
carries the fields of its snapshot and every other Event is untouched. -/
theorem eventSweep_spec (env : Env) (chain : Chain) (clock : Nat → Nat) :
    ∀ (count start : Nat) (m : Mirror) (reads : List Read) (fuel : Nat),
      chain.eventGap start count → count < fuel →
      ∃ m', traced env chain clock fuel start m reads =
          some (m', reads ++ (List.range' start (count + 1)).map Read.getEventDetails) ∧
        m'.tickets = m.tickets ∧
        (∀ i ev, start ≤ i → i < start + count → chain.getEventDetails i = some ev →
          m'.events i =
            some (fields env clock i ev ((m.events i).getD (Event.fresh i (clock i))))) ∧
        (∀ k : Int, (∀ i : Nat, start ≤ i → i < start + count → k ≠ i) →
          m'.events k = m.events k) := by
  intro count
  induction count with
  | zero =>
    intro start m reads fuel hgap hfuel
    obtain ⟨fuel, rfl⟩ : ∃ f, fuel = f + 1 := ⟨fuel - 1, by omega⟩
    refine ⟨m, ?_, rfl, ?_, fun _ _ => rfl⟩
    · have hnone : chain.getEventDetails start = none := by simpa using hgap.2
      simp [traced, hnone, List.range']
    · intro i ev h1 h2; omega
  | succ count ih =>
    intro start m reads fuel hgap hfuel
    obtain ⟨fuel, rfl⟩ : ∃ f, fuel = f + 1 := ⟨fuel - 1, by omega⟩
    have hsome : chain.getEventDetails start ≠ none := hgap.1 start (le_refl _) (by omega)
    obtain ⟨ev, hev⟩ := Option.ne_none_iff_exists'.1 hsome
    have hgap' : chain.eventGap (start + 1) count := by
      refine ⟨fun i h1 h2 => hgap.1 i (by omega) (by omega), ?_⟩
      have := hgap.2
      rwa [show start + (count + 1) = start + 1 + count by omega] at this
    obtain ⟨m', hrun, htickets, hin, hout⟩ :=
      ih (start + 1)
        (m.upsertEvent start (Event.fresh start (clock start)) (fields env clock start ev))
        (reads ++ [Read.getEventDetails start]) fuel hgap' (by omega)
    refine ⟨m', ?_, ?_, ?_, ?_⟩
    · simp only [traced, hev, hrun]
      simp [List.range'_succ start (count + 1)]
    · rw [htickets, Mirror.upsertEvent_tickets]
    · intro i ev' h1 h2 hread
      by_cases hi : i = start
      · subst hi
        rw [hev] at hread
        cases hread
        rw [hout (i : Int) (fun j hj1 _ h => by omega)]
        simp [Mirror.upsertEvent_events]
      · have hne : (i : Int) ≠ (start : Int) := by omega
        rw [hin i ev' (by omega) (by omega) hread, Mirror.upsertEvent_events, if_neg hne]
    · intro k hk
      rw [hout k (fun i h1 h2 => hk i (by omega) (by omega)), Mirror.upsertEvent_events,
        if_neg (hk start (le_refl _) (by omega))]

/-- An event sweep that returns has met a failing read within its fuel. -/
theorem eventSweep_gap (env : Env) (chain : Chain) (clock : Nat → Nat) :
    ∀ (fuel start : Nat) (m x : Mirror), loop env chain clock fuel start m = some x →
      ∃ count, count < fuel ∧ chain.eventGap start count := by
  intro fuel
  induction fuel with
  | zero => intro start m x h; simp [loop] at h
  | succ fuel ih =>
    intro start m x h
    unfold loop at h
    cases hev : chain.getEventDetails start with
    | none => exact ⟨0, by omega, fun i h1 h2 => by omega, by simpa using hev⟩
    | some ev =>
      rw [hev] at h
      obtain ⟨count, hlt, hgap⟩ := ih (start + 1) _ x h
      refine ⟨count + 1, by omega, fun i h1 h2 => ?_, ?_⟩
      · by_cases hi : i = start
        · subst hi; simp [hev]
        · exact hgap.1 i (by omega) (by omega)
      · have := hgap.2
        rwa [show start + 1 + count = start + (count + 1) by omega] at this

end SyncEvents

/-! ## The ticket sweep in closed form -/

/-- When `lastOwned` returns nothing, no id of the range is owned. -/
theorem Chain.lastOwned_none (chain : Chain) (key : Int) :
    ∀ (count start : Nat), chain.lastOwned key count start = none →
      ∀ i, start ≤ i → i < start + count → chain.owns key i = false := by
  intro count
  induction count with
  | zero => intro start _ i h1 h2; omega
  | succ count ih =>
    intro start h i h1 h2
    unfold Chain.lastOwned at h
    cases hrest : chain.lastOwned key count (start + 1) with
    | some j' => rw [hrest] at h; cases h
    | none =>
      rw [hrest] at h
      by_cases hi : i = start
      · subst hi
        cases hown : chain.owns key i with
        | false => rfl
        | true => simp [hown] at h
      · exact ih (start + 1) hrest i (by omega) (by omega)

/-- What `lastOwned` returns is an owned id of the range, and no later id of the range is owned. -/
theorem Chain.lastOwned_some (chain : Chain) (key : Int) :
    ∀ (count start j : Nat), chain.lastOwned key count start = some j →
      start ≤ j ∧ j < start + count ∧ chain.owns key j = true ∧
        ∀ i, j < i → i < start + count → chain.owns key i = false := by
  intro count
  induction count with
  | zero => intro start j h; simp [Chain.lastOwned] at h
  | succ count ih =>
    intro start j h
    unfold Chain.lastOwned at h
    cases hrest : chain.lastOwned key count (start + 1) with
    | some j' =>
      rw [hrest] at h
      cases h
      obtain ⟨h1, h2, h3, h4⟩ := ih (start + 1) j hrest
      exact ⟨by omega, by omega, h3, fun i hi1 hi2 => h4 i hi1 (by omega)⟩
    | none =>
      rw [hrest] at h
      by_cases hown : chain.owns key start = true
      · simp only [hown, if_true, Option.some.injEq] at h
        subst h
        refine ⟨le_refl _, by omega, hown, fun i hi1 hi2 => ?_⟩
        exact Chain.lastOwned_none chain key count (start + 1) hrest i (by omega) (by omega)
      · simp [hown] at h

namespace SyncTickets

/-- The loop with its reads recorded computes the same mirror as the loop. -/
theorem ticketSweep_fst (env : Env) (chain : Chain) (clock : Nat → Nat) :
    ∀ (fuel tokenId : Nat) (m : Mirror) (reads : List Read),
      (traced env chain clock fuel tokenId m reads).map Prod.fst =
        loop env chain clock fuel tokenId m := by
  intro fuel
  induction fuel with
  | zero => intro tokenId m reads; rfl
  | succ fuel ih =>
    intro tokenId m reads
    unfold traced loop
    cases chain.ownerOf tokenId with
    | none => rfl
    | some owner =>
      cases chain.tickets tokenId with
      | none => rfl
      | some td => exact ih (tokenId + 1) _ _

/-- Marking an Event twice is marking it with the later id. -/
theorem mark_mark (clock : Nat → Nat) (i j : Nat) (e : Event) :
    mark clock j (mark clock i e) = mark clock j e := rfl

/-- The ticket sweep over a ledger whose reads succeed for `count` ids from `start` on and fail for
the next one: with more than `count` units of fuel it returns, it has made the reads of the ids
`start, ..., start + count` in that order, every Ticket in the range carries the owner and the
fields of its snapshot, every other Ticket is untouched, no Event is created or removed, and every
Event is marked with the last scanned token id the ledger assigns to it. -/
theorem ticketSweep_spec (env : Env) (chain : Chain) (clock : Nat → Nat) :
    ∀ (count start : Nat) (m : Mirror) (reads : List Read) (fuel : Nat),
      chain.ticketGap start count → count < fuel →
      ∃ m', traced env chain clock fuel start m reads =
          some (m', reads ++ ((List.range' start (count + 1)).map chain.ticketReads).flatten) ∧
        (∀ i owner td, start ≤ i → i < start + count → chain.ownerOf i = some owner →
          chain.tickets i = some td →
          m'.tickets i =
            some (fields env clock i owner td
              ((m.tickets i).getD (Ticket.fresh i (clock i))))) ∧
        (∀ k : Int, (∀ i : Nat, start ≤ i → i < start + count → k ≠ i) →
          m'.tickets k = m.tickets k) ∧
        (∀ k : Int,
          m'.events k = (m.events k).map (settle clock (chain.lastOwned k count start))) := by
  intro count
  induction count with
  | zero =>
    intro start m reads fuel hgap hfuel
    obtain ⟨fuel, rfl⟩ : ∃ f, fuel = f + 1 := ⟨fuel - 1, by omega⟩
    refine ⟨m, ?_, ?_, fun _ _ => rfl, ?_⟩
    · have hg := hgap.2
      simp only [Nat.add_zero] at hg
      cases ho : chain.ownerOf start with
      | none => simp [traced, ho, List.range', Chain.ticketReads]
      | some owner =>
        have ht : chain.tickets start = none := by
          rcases hg with h | h
          · rw [ho] at h; cases h
          · exact h
        simp [traced, ho, ht, List.range', Chain.ticketReads]
    · intro i owner td h1 h2; omega
    · intro k
      cases m.events k <;> simp [Chain.lastOwned, settle]
  | succ count ih =>
    intro start m reads fuel hgap hfuel
    obtain ⟨fuel, rfl⟩ : ∃ f, fuel = f + 1 := ⟨fuel - 1, by omega⟩
    obtain ⟨hso, hst⟩ := hgap.1 start (le_refl _) (by omega)
    obtain ⟨owner, ho⟩ := Option.ne_none_iff_exists'.1 hso
    obtain ⟨td, ht⟩ := Option.ne_none_iff_exists'.1 hst
    have hgap' : chain.ticketGap (start + 1) count := by
      refine ⟨fun i h1 h2 => hgap.1 i (by omega) (by omega), ?_⟩
      have := hgap.2
      rwa [show start + (count + 1) = start + 1 + count by omega] at this
    obtain ⟨m', hrun, hin, hout, hevents⟩ :=
      ih (start + 1)
        ((m.upsertTicket start (Ticket.fresh start (clock start))
          (fields env clock start owner td)).updateEvent td.eventId (mark clock start))
        (reads ++ [Read.ownerOf start, Read.tickets start]) fuel hgap' (by omega)
    refine ⟨m', ?_, ?_, ?_, ?_⟩
    · simp only [traced, ho, ht, hrun]
      simp [List.range'_succ start (count + 1), Chain.ticketReads, ho]
    · intro i owner' td' h1 h2 hown hread
      by_cases hi : i = start
      · subst hi
        rw [ho] at hown
        rw [ht] at hread
        cases hown
        cases hread
        rw [hout (i : Int) (fun j hj1 _ h => by omega)]
        simp [Mirror.updateEvent_tickets, Mirror.upsertTicket_tickets]
      · have hne : (i : Int) ≠ (start : Int) := by omega
        rw [hin i owner' td' (by omega) (by omega) hown hread, Mirror.updateEvent_tickets,
          Mirror.upsertTicket_tickets, if_neg hne]
    · intro k hk
      rw [hout k (fun i h1 h2 => hk i (by omega) (by omega)), Mirror.updateEvent_tickets,
        Mirror.upsertTicket_tickets, if_neg (hk start (le_refl _) (by omega))]
    · intro k
      rw [hevents k, Mirror.updateEvent_events, Mirror.upsertTicket_events]
      have hlast : chain.lastOwned k (count + 1) start =
          match chain.lastOwned k count (start + 1) with
          | some j => some j
          | none => if chain.owns k start then some start else none := rfl
      have howns : chain.owns k start = decide ((td.eventId : Int) = k) := by
        simp [Chain.owns, ht]
      rw [hlast, howns]
      by_cases hk : k = (td.eventId : Int)
      · subst hk
        cases chain.lastOwned (td.eventId : Int) count (start + 1) with
        | some j => cases m.events (td.eventId : Int) <;> simp [settle, mark_mark]
        | none => cases m.events (td.eventId : Int) <;> simp [settle]
      · have hk' : ¬ (td.eventId : Int) = k := fun h => hk h.symm
        cases chain.lastOwned k count (start + 1) with
        | some j => simp [hk]
        | none => cases m.events k <;> simp [settle, hk, hk']

/-- A ticket sweep that returns has met a failing read within its fuel. -/
theorem ticketSweep_gap (env : Env) (chain : Chain) (clock : Nat → Nat) :
    ∀ (fuel start : Nat) (m x : Mirror), loop env chain clock fuel start m = some x →
      ∃ count, count < fuel ∧ chain.ticketGap start count := by
  intro fuel
  induction fuel with
  | zero => intro start m x h; simp [loop] at h
  | succ fuel ih =>
    intro start m x h
    unfold loop at h
    cases ho : chain.ownerOf start with
    | none => exact ⟨0, by omega, fun i h1 h2 => by omega, Or.inl (by simpa using ho)⟩
    | some owner =>
      rw [ho] at h
      cases ht : chain.tickets start with
      | none => exact ⟨0, by omega, fun i h1 h2 => by omega, Or.inr (by simpa using ht)⟩
      | some td =>
        rw [ht] at h
        obtain ⟨count, hlt, hgap⟩ := ih (start + 1) _ x h
        refine ⟨count + 1, by omega, fun i h1 h2 => ?_, ?_⟩
        · by_cases hi : i = start
          · subst hi; simp [ho, ht]
          · exact hgap.1 i (by omega) (by omega)
        · have := hgap.2
          rwa [show start + 1 + count = start + (count + 1) by omega] at this

end SyncTickets

/-! ## The backfill sweeps: results and termination -/

/-- An integer key lies in a range of ids, or differs from every id of the range. -/
theorem key_in_range_or_not (k : Int) (start count : Nat) :
    (∃ i : Nat, start ≤ i ∧ i < start + count ∧ k = i) ∨
      ∀ i : Nat, start ≤ i → i < start + count → k ≠ i := by
  by_cases h : ∃ i : Nat, start ≤ i ∧ i < start + count ∧ k = i
  · exact Or.inl h
  · exact Or.inr fun i h1 h2 h3 => h ⟨i, h1, h2, h3⟩

/-- The `ownerOf` probes among the reads made for a list of ids are the probes of these ids. -/
theorem ownerOf_probes (chain : Chain) (ids : List Nat) :
    ((ids.map chain.ticketReads).flatten).filter Read.isOwnerOf = ids.map Read.ownerOf := by
  induction ids with
  | nil => rfl
  | cons i ids ih =>
    simp only [List.map_cons, List.flatten_cons, List.filter_append, ih]
    cases h : chain.ownerOf i <;> simp [Chain.ticketReads, h, Read.isOwnerOf]

/-- The reads made for a list of ids ask for these ids only. -/
theorem ticketReads_id (chain : Chain) (ids : List Nat) (r : Read)
    (hr : r ∈ (ids.map chain.ticketReads).flatten) : r.id ∈ ids := by
  simp only [List.mem_flatten, List.mem_map] at hr
  obtain ⟨l, ⟨i, hi, rfl⟩, hrl⟩ := hr
  unfold Chain.ticketReads at hrl
  cases h : chain.ownerOf i with
  | none =>
    rw [h] at hrl
    simp only [List.mem_singleton] at hrl
    subst hrl
    exact hi
  | some o =>
    rw [h] at hrl
    simp only [List.mem_cons, List.mem_singleton, List.not_mem_nil, or_false] at hrl
    rcases hrl with rfl | rfl <;> exact hi

/-- C12. Event backfill result: for every `n >= 0` and every ledger on which `getEventDetails`
succeeds for eventId `1..n` and fails for eventId `n+1`, the event sweep started on an empty mirror
returns (given more than `n` units of fuel), has probed exactly the ids `1, 2, ..., n+1` in that
order, and leaves a mirror containing exactly `n` Event records, with eventIds `1..n`, each holding
`name`, `date`, `venue`, `ticketPrice` (formatted), `totalSupply`, `ticketsMinted`,
`maxResalePercent` and `isActive` of its ledger snapshot; no Ticket is created. In particular for
`n = 1` the mirror contains exactly one Event, with eventId `1`. -/
theorem C12_event_backfill_result (env : Env) (chain : Chain) (clock : Nat → Nat) (n fuel : Nat)
    (hok : ∀ i, 1 ≤ i → i ≤ n → chain.getEventDetails i ≠ none)
    (hfail : chain.getEventDetails (n + 1) = none) (hfuel : n < fuel) :
    ∃ m', SyncEvents.sync env chain clock fuel Mirror.empty = some m' ∧
      SyncEvents.traced env chain clock fuel 1 Mirror.empty [] =
        some (m', (List.range' 1 (n + 1)).map Read.getEventDetails) ∧
      (∀ i ev, 1 ≤ i → i ≤ n → chain.getEventDetails i = some ev →
        m'.events i = some
          { eventId := i, name := ev.name, date := some ev.date, venue := some ev.venue
            ticketPrice := some (env.formatEther ev.ticketPrice)
            totalSupply := some (ev.totalSupply : Int)
            ticketsMinted := ev.ticketsMinted
            maxResalePercent := some (ev.maxResalePercent : Int)
            isActive := ev.isActive
            createdAt := clock i, updatedAt := clock i }) ∧
      (∀ k : Int, (m'.events k).isSome = true ↔ 1 ≤ k ∧ k ≤ n) ∧
      (n = 1 → ∀ k : Int, (m'.events k).isSome = true ↔ k = 1) ∧
      (∀ k : Int, m'.tickets k = none) := by
  have hgap : chain.eventGap 1 n :=
    ⟨fun i h1 h2 => hok i h1 (by omega), by rwa [Nat.add_comm] ⟩
  obtain ⟨m', hrun, htickets, hin, hout⟩ :=
    SyncEvents.eventSweep_spec env chain clock n 1 Mirror.empty [] fuel hgap hfuel
  have hsync : SyncEvents.sync env chain clock fuel Mirror.empty = some m' := by
    have := SyncEvents.eventSweep_fst env chain clock fuel 1 Mirror.empty []
    rw [hrun] at this
    exact this.symm
  have hkeys : ∀ k : Int, (m'.events k).isSome = true ↔ 1 ≤ k ∧ k ≤ n := by
    intro k
    rcases key_in_range_or_not k 1 n with ⟨i, h1, h2, rfl⟩ | hno
    · obtain ⟨ev, hev⟩ := Option.ne_none_iff_exists'.1 (hok i h1 (by omega))
      rw [hin i ev h1 h2 hev]
      simp only [Option.isSome_some, true_iff]
      omega
    · rw [hout k hno]
      simp only [Mirror.empty, Option.isSome_none, Bool.false_eq_true, false_iff]
      intro ⟨h1, h2⟩
      exact hno k.toNat (by omega) (by omega) (by omega)
  refine ⟨m', hsync, by simpa using hrun, ?_, hkeys, ?_, ?_⟩
  · intro i ev h1 h2 hev
    rw [hin i ev h1 (by omega) hev]
    rfl
  · intro hn k
    rw [hkeys k, hn]
    omega
  · intro k
    rw [htickets]
    rfl

/-- C12, witness: the ledger with the single event "Genesis Concert"; the sweep probes ids 1 and 2
and the mirror holds exactly one Event, with eventId 1. -/
theorem C12_event_backfill_result_witness :
    ((∀ i, 1 ≤ i → i ≤ 1 → Sample.oneEvent.getEventDetails i ≠ none) ∧
      Sample.oneEvent.getEventDetails (1 + 1) = none ∧ 1 < 2) ∧
    ∃ m', SyncEvents.sync Sample.env Sample.oneEvent Sample.clock 2 Mirror.empty = some m' ∧
      SyncEvents.traced Sample.env Sample.oneEvent Sample.clock 2 1 Mirror.empty [] =
        some (m', (List.range' 1 (1 + 1)).map Read.getEventDetails) ∧
      (∀ i ev, 1 ≤ i → i ≤ 1 → Sample.oneEvent.getEventDetails i = some ev →
        m'.events i = some
          { eventId := i, name := ev.name, date := some ev.date, venue := some ev.venue
            ticketPrice := some (Sample.env.formatEther ev.ticketPrice)
            totalSupply := some (ev.totalSupply : Int)
            ticketsMinted := ev.ticketsMinted
            maxResalePercent := some (ev.maxResalePercent : Int)
            isActive := ev.isActive
            createdAt := Sample.clock i, updatedAt := Sample.clock i }) ∧
      (∀ k : Int, (m'.events k).isSome = true ↔ 1 ≤ k ∧ k ≤ (1 : Nat)) ∧
      ((1 : Nat) = 1 → ∀ k : Int, (m'.events k).isSome = true ↔ k = 1) ∧
      (∀ k : Int, m'.tickets k = none) :=
  have hok : ∀ i, 1 ≤ i → i ≤ 1 → Sample.oneEvent.getEventDetails i ≠ none := by
    intro i h1 h2
    have hi : i = 1 := by omega
    subst hi
    simp [Sample.oneEvent]
  ⟨⟨hok, rfl, by decide⟩,
    C12_event_backfill_result Sample.env Sample.oneEvent Sample.clock 1 2 hok rfl (by decide)⟩

/-- C13. Ticket backfill result: for every `n >= 0` and every ledger on which `ownerOf` and
`tickets` succeed for tokenId `1..n` and `ownerOf` fails for tokenId `n+1`, the ticket sweep started
on a mirror with no Tickets returns (given more than `n` units of fuel) and leaves exactly `n`
Ticket records, with tokenIds `1..n`, each holding `eventId`, `seatNumber`, `originalPrice`
(formatted), `isUsed`, `qrHash` and `transferCount` of its ledger snapshot and `originalBuyer`
equal to the ledger's `ownerOf(tokenId)`; and each mirrored Event that owns one of these tickets
has its `ticketsMinted` set to the high-water-mark of the sweep for that Event, the largest
scanned tokenId the ledger assigns to it (its other fields, `updatedAt` apart, are unchanged). -/
theorem C13_ticket_backfill_result (env : Env) (chain : Chain) (clock : Nat → Nat)
    (n fuel : Nat) (m : Mirror)
    (hempty : ∀ k, m.tickets k = none)
    (hok : ∀ i, 1 ≤ i → i ≤ n → chain.ownerOf i ≠ none ∧ chain.tickets i ≠ none)
    (hfail : chain.ownerOf (n + 1) = none) (hfuel : n < fuel) :
    ∃ m', SyncTickets.sync env chain clock fuel m = some m' ∧
      (∀ i owner td, 1 ≤ i → i ≤ n → chain.ownerOf i = some owner →
        chain.tickets i = some td →
        m'.tickets i = some
          { tokenId := i, eventId := td.eventId, seatNumber := some td.seatNumber
            originalPrice := some (env.formatEther td.originalPrice)
            originalBuyer := some owner, isUsed := td.isUsed, qrHash := some td.qrHash
            transferCount := td.transferCount
            createdAt := clock i, updatedAt := clock i }) ∧
      (∀ k : Int, (m'.tickets k).isSome = true ↔ 1 ≤ k ∧ k ≤ n) ∧
      (∀ (k : Int) (e : Event) (j : Nat), m.events k = some e → 1 ≤ j → j ≤ n →
        chain.owns k j = true →
        ∃ last, 1 ≤ last ∧ last ≤ n ∧ chain.owns k last = true ∧
          (∀ i, last < i → i ≤ n → chain.owns k i = false) ∧
          m'.events k = some { e with ticketsMinted := last, updatedAt := clock last }) := by
  have hgap : chain.ticketGap 1 n :=
    ⟨fun i h1 h2 => hok i h1 (by omega), Or.inl (by rwa [Nat.add_comm])⟩
  obtain ⟨m', hrun, hin, hout, hevents⟩ :=
    SyncTickets.ticketSweep_spec env chain clock n 1 m [] fuel hgap hfuel
  have hsync : SyncTickets.sync env chain clock fuel m = some m' := by
    have := SyncTickets.ticketSweep_fst env chain clock fuel 1 m []
    rw [hrun] at this
    exact this.symm
  refine ⟨m', hsync, ?_, ?_, ?_⟩
  · intro i owner td h1 h2 ho ht
    rw [hin i owner td h1 (by omega) ho ht, hempty]
    rfl
  · intro k
    rcases key_in_range_or_not k 1 n with ⟨i, h1, h2, rfl⟩ | hno
    · obtain ⟨ho, ht⟩ := hok i h1 (by omega)
      obtain ⟨owner, ho⟩ := Option.ne_none_iff_exists'.1 ho
      obtain ⟨td, ht⟩ := Option.ne_none_iff_exists'.1 ht
      rw [hin i owner td h1 h2 ho ht]
      simp only [Option.isSome_some, true_iff]
      omega
    · rw [hout k hno, hempty]
      simp only [Option.isSome_none, Bool.false_eq_true, false_iff]
      intro ⟨h1, h2⟩
      exact hno k.toNat (by omega) (by omega) (by omega)
  · intro k e j he h1 h2 hown
    cases hlast : chain.lastOwned k n 1 with
    | none =>
      have := Chain.lastOwned_none chain k n 1 hlast j h1 (by omega)
      rw [hown] at this
      cases this
    | some last =>
      obtain ⟨l1, l2, l3, l4⟩ := Chain.lastOwned_some chain k n 1 last hlast
      refine ⟨last, l1, by omega, l3, fun i hi1 hi2 => l4 i hi1 (by omega), ?_⟩
      rw [hevents k, he, hlast]
      rfl

/-- C13, witness: the ledger with tickets 1 and 2 of event 1, swept into a mirror that holds
Event 1 and no Ticket. -/
theorem C13_ticket_backfill_result_witness :
    ((∀ k, Sample.mirrorEvent1.tickets k = none) ∧
      (∀ i, 1 ≤ i → i ≤ 2 →
        Sample.oneEvent.ownerOf i ≠ none ∧ Sample.oneEvent.tickets i ≠ none) ∧
      Sample.oneEvent.ownerOf (2 + 1) = none ∧ 2 < 3) ∧
    ∃ m', SyncTickets.sync Sample.env Sample.oneEvent Sample.clock 3 Sample.mirrorEvent1 =
        some m' ∧
      (∀ i owner td, 1 ≤ i → i ≤ 2 → Sample.oneEvent.ownerOf i = some owner →
        Sample.oneEvent.tickets i = some td →
        m'.tickets i = some
          { tokenId := i, eventId := td.eventId, seatNumber := some td.seatNumber
            originalPrice := some (Sample.env.formatEther td.originalPrice)
            originalBuyer := some owner, isUsed := td.isUsed, qrHash := some td.qrHash
            transferCount := td.transferCount
            createdAt := Sample.clock i, updatedAt := Sample.clock i }) ∧
      (∀ k : Int, (m'.tickets k).isSome = true ↔ 1 ≤ k ∧ k ≤ (2 : Nat)) ∧
      (∀ (k : Int) (e : Event) (j : Nat), Sample.mirrorEvent1.events k = some e → 1 ≤ j →
        j ≤ 2 → Sample.oneEvent.owns k j = true →
        ∃ last, 1 ≤ last ∧ last ≤ 2 ∧ Sample.oneEvent.owns k last = true ∧
          (∀ i, last < i → i ≤ 2 → Sample.oneEvent.owns k i = false) ∧
          m'.events k =
            some { e with ticketsMinted := last, updatedAt := Sample.clock last }) :=
  have hempty : ∀ k, Sample.mirrorEvent1.tickets k = none := fun _ => rfl
  have hok : ∀ i, 1 ≤ i → i ≤ 2 →
      Sample.oneEvent.ownerOf i ≠ none ∧ Sample.oneEvent.tickets i ≠ none := by
    intro i h1 h2
    have hi : i = 1 ∨ i = 2 := by omega
    rcases hi with rfl | rfl <;> simp [Sample.oneEvent]
  ⟨⟨hempty, hok, rfl, by decide⟩,
    C13_ticket_backfill_result Sample.env Sample.oneEvent Sample.clock 2 3 Sample.mirrorEvent1
      hempty hok rfl (by decide)⟩

/-- C14. Backfill termination: for every ledger in which some positive id `k` is the first id
whose read fails, the event sweep (first part) and the ticket sweep (second part) each terminate
(they return with any fuel of at least `k`), after exactly `k` probes: the ids probed are
`1, ..., k` in that order, and no read asks for an id greater than `k`. The reads are determined
by the ledger alone: they are the same for every initial mirror. -/
theorem C14_backfill_termination (env : Env) (chain : Chain) (clock : Nat → Nat) (fuel : Nat)
    (m : Mirror) :
    (∀ k, 1 ≤ k → (∀ i, 1 ≤ i → i < k → chain.getEventDetails i ≠ none) →
      chain.getEventDetails k = none → k ≤ fuel →
      ∃ m' reads, SyncEvents.sync env chain clock fuel m = some m' ∧
        SyncEvents.traced env chain clock fuel 1 m [] = some (m', reads) ∧
        reads = (List.range' 1 k).map Read.getEventDetails ∧ reads.length = k ∧
        ∀ r ∈ reads, r.id ≤ k) ∧
    (∀ k, 1 ≤ k → (∀ i, 1 ≤ i → i < k → chain.ownerOf i ≠ none ∧ chain.tickets i ≠ none) →
      (chain.ownerOf k = none ∨ chain.tickets k = none) → k ≤ fuel →
      ∃ m' reads, SyncTickets.sync env chain clock fuel m = some m' ∧
        SyncTickets.traced env chain clock fuel 1 m [] = some (m', reads) ∧
        reads = ((List.range' 1 k).map chain.ticketReads).flatten ∧
        reads.filter Read.isOwnerOf = (List.range' 1 k).map Read.ownerOf ∧
        (reads.filter Read.isOwnerOf).length = k ∧
        ∀ r ∈ reads, r.id ≤ k) := by
  constructor
  · intro k hk hok hfail hfuel
    obtain ⟨n, rfl⟩ : ∃ n, k = n + 1 := ⟨k - 1, by omega⟩
    have hgap : chain.eventGap 1 n :=
      ⟨fun i h1 h2 => hok i h1 (by omega), by rwa [Nat.add_comm]⟩
    obtain ⟨m', hrun, -, -, -⟩ :=
      SyncEvents.eventSweep_spec env chain clock n 1 m [] fuel hgap (by omega)
    have hsync : SyncEvents.sync env chain clock fuel m = some m' := by
      have := SyncEvents.eventSweep_fst env chain clock fuel 1 m []
      rw [hrun] at this
      exact this.symm
    refine ⟨m', _, hsync, by simpa using hrun, rfl, by simp, ?_⟩
    intro r hr
    simp only [List.mem_map, List.mem_range'_1] at hr
    obtain ⟨i, ⟨_, hi⟩, rfl⟩ := hr
    simp only [Read.id]
    omega
  · intro k hk hok hfail hfuel
    obtain ⟨n, rfl⟩ : ∃ n, k = n + 1 := ⟨k - 1, by omega⟩
    have hgap : chain.ticketGap 1 n :=
      ⟨fun i h1 h2 => hok i h1 (by omega), by rwa [Nat.add_comm]⟩
    obtain ⟨m', hrun, -, -, -⟩ :=
      SyncTickets.ticketSweep_spec env chain clock n 1 m [] fuel hgap (by omega)
    have hsync : SyncTickets.sync env chain clock fuel m = some m' := by
      have := SyncTickets.ticketSweep_fst env chain clock fuel 1 m []
      rw [hrun] at this
      exact this.symm
    refine ⟨m', _, hsync, by simpa using hrun, rfl, ownerOf_probes chain _, ?_, ?_⟩
    · rw [ownerOf_probes]; simp
    · intro r hr
      have := ticketReads_id chain _ r hr
      simp only [List.mem_range'_1] at this
      omega

/-- C14, witness: on the ledger with event 1 and tickets 1 and 2, the event sweep makes two
probes and the ticket sweep three, whatever the initial mirror (here one that already holds
Event 1). -/
theorem C14_backfill_termination_witness :
    (∃ m' reads, SyncEvents.sync Sample.env Sample.oneEvent Sample.clock 5
        Sample.mirrorEvent1 = some m' ∧
      SyncEvents.traced Sample.env Sample.oneEvent Sample.clock 5 1 Sample.mirrorEvent1 [] =
        some (m', reads) ∧
      reads = (List.range' 1 2).map Read.getEventDetails ∧ reads.length = 2 ∧
      ∀ r ∈ reads, r.id ≤ 2) ∧
    (∃ m' reads, SyncTickets.sync Sample.env Sample.oneEvent Sample.clock 5
        Sample.mirrorEvent1 = some m' ∧
      SyncTickets.traced Sample.env Sample.oneEvent Sample.clock 5 1 Sample.mirrorEvent1 [] =
        some (m', reads) ∧
      reads = ((List.range' 1 3).map Sample.oneEvent.ticketReads).flatten ∧
      reads.filter Read.isOwnerOf = (List.range' 1 3).map Read.ownerOf ∧
      (reads.filter Read.isOwnerOf).length = 3 ∧
      ∀ r ∈ reads, r.id ≤ 3) :=
  ⟨(C14_backfill_termination Sample.env Sample.oneEvent Sample.clock 5 Sample.mirrorEvent1).1 2
      (by decide)
      (by
        intro i h1 h2
        have hi : i = 1 := by omega
        subst hi
        simp [Sample.oneEvent])
      rfl (by decide),
    (C14_backfill_termination Sample.env Sample.oneEvent Sample.clock 5 Sample.mirrorEvent1).2 3
      (by decide)
      (by
        intro i h1 h2
        have hi : i = 1 ∨ i = 2 := by omega
        rcases hi with rfl | rfl <;> simp [Sample.oneEvent])
      (Or.inl rfl) (by decide)⟩

/-- The backfill over a ledger with a first failing event id and a first failing token id
returns, given fuel beyond both. -/
theorem backfill_returns (env : Env) (chain : Chain) (clock : Nat → Nat) (fuel ne nt : Nat)
    (m : Mirror) (hE : chain.eventGap 1 ne) (hT : chain.ticketGap 1 nt) (hfe : ne < fuel)
    (hft : nt < fuel) :
    ∃ m1, backfill env chain clock fuel m = some m1 := by
  obtain ⟨x, hx, -⟩ := SyncEvents.eventSweep_spec env chain clock ne 1 m [] fuel hE hfe
  obtain ⟨m1, hm1, -⟩ := SyncTickets.ticketSweep_spec env chain clock nt 1 x [] fuel hT hft
  have hsx : SyncEvents.sync env chain clock fuel m = some x := by
    have := SyncEvents.eventSweep_fst env chain clock fuel 1 m []
    rw [hx] at this
    exact this.symm
  have hsm : SyncTickets.sync env chain clock fuel x = some m1 := by
    have := SyncTickets.ticketSweep_fst env chain clock fuel 1 x []
    rw [hm1] at this
    exact this.symm
  exact ⟨m1, by simp [backfill, hsx, hsm]⟩

/-- C11. Idempotent backfill: for every initial mirror and every fixed (unchanged) ledger, running
the backfill (event sweep followed by ticket sweep) twice in a row yields a mirror identical, up to
the advisory timestamps `createdAt` and `updatedAt`, to the mirror obtained by running it once:
whenever the first run returns a mirror, the second run (at any later times, with the same fuel)
returns too, and its mirror holds the same documents with the same fields (first part); and on
every ledger with a first failing event id and a first failing token id both runs do return
(second part). -/
theorem C11_backfill_idempotent (env : Env) (chain : Chain) (clock1 clock2 : Nat → Nat)
    (fuel : Nat) (m : Mirror) :
    (∀ m1, backfill env chain clock1 fuel m = some m1 →
      ∃ m2, backfill env chain clock2 fuel m1 = some m2 ∧
        Mirror.agree Event.noStamps Ticket.noStamps m2 m1) ∧
    (∀ ne nt, chain.eventGap 1 ne → chain.ticketGap 1 nt → ne < fuel → nt < fuel →
      ∃ m1 m2, backfill env chain clock1 fuel m = some m1 ∧
        backfill env chain clock2 fuel m1 = some m2 ∧
        Mirror.agree Event.noStamps Ticket.noStamps m2 m1) := by
  have main : ∀ m1, backfill env chain clock1 fuel m = some m1 →
      ∃ m2, backfill env chain clock2 fuel m1 = some m2 ∧
        Mirror.agree Event.noStamps Ticket.noStamps m2 m1 := by
    intro m1 hrun
    simp only [backfill, Option.bind_eq_some] at hrun
    obtain ⟨x, hx, hm1⟩ := hrun
    obtain ⟨ne, hfe, hE⟩ := SyncEvents.eventSweep_gap env chain clock1 fuel 1 m x hx
    obtain ⟨nt, hft, hT⟩ := SyncTickets.ticketSweep_gap env chain clock1 fuel 1 x m1 hm1
    -- the first run in closed form
    obtain ⟨x', hx', hxt, hxin, hxout⟩ :=
      SyncEvents.eventSweep_spec env chain clock1 ne 1 m [] fuel hE hfe
    have hxx : x' = x := by
      have := SyncEvents.eventSweep_fst env chain clock1 fuel 1 m []
      rw [hx'] at this
      exact Option.some.inj (this.trans hx)
    subst hxx
    obtain ⟨m1', hm1', h1in, h1out, h1ev⟩ :=
      SyncTickets.ticketSweep_spec env chain clock1 nt 1 x' [] fuel hT hft
    have hmm : m1' = m1 := by
      have := SyncTickets.ticketSweep_fst env chain clock1 fuel 1 x' []
      rw [hm1'] at this
      exact Option.some.inj (this.trans hm1)
    subst hmm
    -- the second run in closed form
    obtain ⟨y, hy, hyt, hyin, hyout⟩ :=
      SyncEvents.eventSweep_spec env chain clock2 ne 1 m1' [] fuel hE hfe
    obtain ⟨m2, hm2, h2in, h2out, h2ev⟩ :=
      SyncTickets.ticketSweep_spec env chain clock2 nt 1 y [] fuel hT hft
    have hsy : SyncEvents.sync env chain clock2 fuel m1' = some y := by
      have := SyncEvents.eventSweep_fst env chain clock2 fuel 1 m1' []
      rw [hy] at this
      exact this.symm
    have hs2 : SyncTickets.sync env chain clock2 fuel y = some m2 := by
      have := SyncTickets.ticketSweep_fst env chain clock2 fuel 1 y []
      rw [hm2] at this
      exact this.symm
    refine ⟨m2, by simp [backfill, hsy, hs2], fun k => ⟨?_, ?_⟩⟩
    · -- Events
      rw [h2ev k, h1ev k]
      rcases key_in_range_or_not k 1 ne with ⟨i, hi1, hi2, rfl⟩ | hno
      · obtain ⟨ev, hev⟩ := Option.ne_none_iff_exists'.1 (hE.1 i hi1 hi2)
        rw [hyin i ev hi1 hi2 hev, hxin i ev hi1 hi2 hev]
        cases chain.lastOwned (i : Int) nt 1 <;> rfl
      · rw [hyout k hno, h1ev k, hxout k hno]
        cases m.events k with
        | none => rfl
        | some e => cases chain.lastOwned k nt 1 <;> rfl
    · -- Tickets
      rcases key_in_range_or_not k 1 nt with ⟨j, hj1, hj2, rfl⟩ | hno
      · obtain ⟨ho, ht⟩ := hT.1 j hj1 hj2
        obtain ⟨owner, ho⟩ := Option.ne_none_iff_exists'.1 ho
        obtain ⟨td, ht⟩ := Option.ne_none_iff_exists'.1 ht
        rw [h2in j owner td hj1 hj2 ho ht, hyt, h1in j owner td hj1 hj2 ho ht]
        rfl
      · rw [h2out k hno, hyt]
  refine ⟨main, fun ne nt hE hT hfe hft => ?_⟩
  obtain ⟨m1, hm1⟩ := backfill_returns env chain clock1 fuel ne nt m hE hT hfe hft
  obtain ⟨m2, hm2, hag⟩ := main m1 hm1
  exact ⟨m1, m2, hm1, hm2, hag⟩

/-- C11, witness: the ledger with event 1 and tickets 1 and 2, swept twice from the empty
mirror, the second time at later times. -/
theorem C11_backfill_idempotent_witness :
    (Sample.oneEvent.eventGap 1 1 ∧ Sample.oneEvent.ticketGap 1 2 ∧ 1 < 3 ∧ 2 < 3) ∧
    ∃ m1 m2, backfill Sample.env Sample.oneEvent Sample.clock 3 Mirror.empty = some m1 ∧
      backfill Sample.env Sample.oneEvent Sample.laterClock 3 m1 = some m2 ∧
      Mirror.agree Event.noStamps Ticket.noStamps m2 m1 :=
  have hE : Sample.oneEvent.eventGap 1 1 := by
    refine ⟨fun i h1 h2 => ?_, rfl⟩
    have hi : i = 1 := by omega
    subst hi
    simp [Sample.oneEvent]
  have hT : Sample.oneEvent.ticketGap 1 2 := by
    refine ⟨fun i h1 h2 => ?_, Or.inl rfl⟩
    have hi : i = 1 ∨ i = 2 := by omega
    rcases hi with rfl | rfl <;> simp [Sample.oneEvent]
  ⟨⟨hE, hT, by decide, by decide⟩,
    (C11_backfill_idempotent Sample.env Sample.oneEvent Sample.clock Sample.laterClock 3
      Mirror.empty).2 1 2 hE hT (by decide) (by decide)⟩

/-- C15, witness: listing Ticket 7 a second time, at a later time, changes nothing but
timestamps; minting Ticket 7 twice into the mirror holding Event 1 with three tickets minted
leaves `ticketsMinted` at `3 + 1` after the first and `3 + 2` after the second application and
changes nothing else but timestamps; selling Ticket 7 twice leaves `transferCount` at `0 + 1` and
then `0 + 2`. -/
theorem C15_handler_idempotence_witness :
    Mirror.agree Event.noStamps Ticket.noTimes
        (startListener Sample.env
          { Sample.deliver (.TicketListed 7 "0xSELLER" 5) with now := 9 }
          (startListener Sample.env (Sample.deliver (.TicketListed 7 "0xSELLER" 5))
            Sample.mirror7))
        (startListener Sample.env (Sample.deliver (.TicketListed 7 "0xSELLER" 5))
          Sample.mirror7) ∧
      Mirror.agree Event.noCount Ticket.noTimes
        (startListener Sample.env { Sample.mint7 0 with now := 9 }
          (startListener Sample.env (Sample.mint7 0) Sample.mirrorEvent1))
        (startListener Sample.env (Sample.mint7 0) Sample.mirrorEvent1) ∧
      (((startListener Sample.env (Sample.mint7 0) Sample.mirrorEvent1).events
          ((1 : Nat) : Int)).map (fun e' => e'.ticketsMinted) =
          some (Sample.event1.ticketsMinted + 1) ∧
        ((startListener Sample.env { Sample.mint7 0 with now := 9 }
          (startListener Sample.env (Sample.mint7 0) Sample.mirrorEvent1)).events
          ((1 : Nat) : Int)).map (fun e' => e'.ticketsMinted) =
          some (Sample.event1.ticketsMinted + 2)) ∧
      (((startListener Sample.env (Sample.deliver (.TicketSold 7 "0xABC" "0xBUYER" 5 1))
          Sample.mirror7).tickets ((7 : Nat) : Int)).map (fun t' => t'.transferCount) =
          some (Sample.ticket7.transferCount + 1) ∧
        ((startListener Sample.env
          { Sample.deliver (.TicketSold 7 "0xABC" "0xBUYER" 5 1) with now := 9 }
          (startListener Sample.env (Sample.deliver (.TicketSold 7 "0xABC" "0xBUYER" 5 1))
            Sample.mirror7)).tickets ((7 : Nat) : Int)).map (fun t' => t'.transferCount) =
          some (Sample.ticket7.transferCount + 2)) :=
  ⟨(C15_handler_idempotence Sample.env (Sample.deliver (.TicketListed 7 "0xSELLER" 5)) 9
      Sample.mirror7).1
      (fun _ _ _ _ h => by cases h) (fun _ _ _ _ _ h => by cases h),
    (C15_handler_idempotence Sample.env (Sample.mint7 0) 9 Sample.mirrorEvent1).2.1 7 1 "0xABC"
      "0xHASH7" rfl,
    (C15_handler_idempotence Sample.env (Sample.mint7 0) 9 Sample.mirrorEvent1).2.2.2.1 7 1
      "0xABC" "0xHASH7" (Sample.snapshot7 0) Sample.event1 rfl rfl rfl rfl rfl,
    (C15_handler_idempotence Sample.env (Sample.deliver (.TicketSold 7 "0xABC" "0xBUYER" 5 1)) 9
      Sample.mirror7).2.2.2.2 7 "0xABC" "0xBUYER" 5 1 Sample.ticket7 rfl rfl rfl⟩

/-! ## The validator: the run in closed form -/

namespace Validate

/-- The run of a request that the input validation or the mirror pre-check stops: the answer, and
the single step taken (none for a client input error). -/
theorem post_stopped {σ : Type} (env : Env) (C : Contract σ) (req : Request) (w : World σ) :
    match preCheck env w.mirror req with
    | .clientError => post env C req w = (badRequest, w)
    | .lookupFailed e =>
      post env C req w = (failed e, (findOne env (req.tokenId.toNumber env) w).2)
    | .notFound => post env C req w = (notFound, (findOne env (req.tokenId.toNumber env) w).2)
    | .alreadyUsed t =>
      post env C req w = (conflict t, (findOne env (req.tokenId.toNumber env) w).2)
    | .mismatch => post env C req w = (mismatch, (findOne env (req.tokenId.toNumber env) w).2)
    | .passed _ => True := by
  unfold preCheck post tryBlock
  cases ht : req.tokenId.truthy <;> cases hq : req.qrHash.truthy <;> simp [findOne]
  cases hl : lookup env w.mirror (req.tokenId.toNumber env) with
  | error e => simp
  | ok found =>
    cases found with
    | none => simp
    | some t =>
      cases hu : t.isUsed <;> cases hs : strictEq t.qrHash req.qrHash <;> simp [hu, hs]

/-- The run of a request that passes the pre-check, from a fresh world, written with the three
calls of the ledger: every failing call ends the run with the answer `failed`. -/
theorem post_steps {σ : Type} (env : Env) (C : Contract σ) (req : Request) (m : Mirror) (s : σ)
    (t : Ticket) (hpre : preCheck env m req = .passed t) :
    post env C req (World.start m s) =
      match C.estimateGas s req.tokenId req.qrHash with
      | (.error e, s1) =>
        (failed e, ⟨m, s1, [Op.findOne (req.tokenId.toNumber env),
          Op.estimateGas req.tokenId req.qrHash]⟩)
      | (.ok _, s1) =>
        match C.markTicketAsUsed s1 req.tokenId req.qrHash with
        | (.error e, s2) =>
          (failed e, ⟨m, s2, [Op.findOne (req.tokenId.toNumber env),
            Op.estimateGas req.tokenId req.qrHash, Op.markTicketAsUsed req.tokenId req.qrHash]⟩)
        | (.ok tx, s2) =>
          match C.wait s2 tx with
          | (.error e, s3) =>
            (failed e, ⟨m, s3, [Op.findOne (req.tokenId.toNumber env),
              Op.estimateGas req.tokenId req.qrHash, Op.markTicketAsUsed req.tokenId req.qrHash,
              Op.wait tx]⟩)
          | (.ok receipt, s3) =>
            (granted tx receipt t, ⟨m, s3, [Op.findOne (req.tokenId.toNumber env),
              Op.estimateGas req.tokenId req.qrHash, Op.markTicketAsUsed req.tokenId req.qrHash,
              Op.wait tx]⟩) := by
  rw [post_of_passed env C req (World.start m s) t hpre]
  simp only [estimateGas, markTicketAsUsed, wait, findOne, World.start, List.nil_append]
  rcases h1 : C.estimateGas s req.tokenId req.qrHash with ⟨r1, s1⟩
  cases r1 with
  | error e => simp
  | ok u =>
    simp only []
    rcases h2 : C.markTicketAsUsed s1 req.tokenId req.qrHash with ⟨r2, s2⟩
    cases r2 with
    | error e => simp
    | ok tx =>
      simp only []
      rcases h3 : C.wait s2 tx with ⟨r3, s3⟩
      cases r3 with
      | error e => simp
      | ok receipt => simp

end Validate


/-! ## The status query and the confirmation wait: claims -/

/-- C21. Status query: let the path segment of `GET /api/validate/:tokenId` denote the number `k`.
If the mirror holds a Ticket under `k`, the answer is `{tokenId, eventId, seatNumber, owner,
isUsed, status}` taken from that record, `owner` being its `originalBuyer` and `status` being
`"USED"` when `isUsed` is true and `"VALID"` otherwise; if it holds none, the answer is `404`.
In both cases the mirror and the ledger are as before and the only step taken is the read of the
mirror, which is no ledger call. A path segment that denotes a number other than an integer is
answered `404` as well. -/
theorem C21_status_query {σ : Type} (env : Env) (param : String) (k : Int) (w : World σ)
    (hk : env.strToNumber param = .int k) :
    (∀ t, w.mirror.tickets k = some t →
        (Validate.get env param w).1 =
          { status := 200
            body := some
              { tokenId := t.tokenId, eventId := t.eventId, seatNumber := t.seatNumber
                owner := t.originalBuyer, isUsed := t.isUsed
                status := if t.isUsed then "USED" else "VALID" } }) ∧
      (w.mirror.tickets k = none →
        (Validate.get env param w).1 = { status := 404, error := some "Ticket not found" }) ∧
      (Validate.get env param w).2.mirror = w.mirror ∧
      (Validate.get env param w).2.chain = w.chain ∧
      (Validate.get env param w).2.log = w.log ++ [Op.findOne (.int k)] ∧
      (Op.findOne (.int k)).isLedger = false ∧
      (∀ other : String, env.strToNumber other = .other →
        (Validate.get env other w).1 = { status := 404, error := some "Ticket not found" }) := by
  refine ⟨?_, ?_, ?_, ?_, ?_, rfl, ?_⟩
  · intro t ht
    simp [Validate.get, findOne, lookup, hk, ht]
  · intro ht
    simp [Validate.get, findOne, lookup, hk, ht]
  · cases ht : w.mirror.tickets k <;> simp [Validate.get, findOne, lookup, hk, ht]
  · cases ht : w.mirror.tickets k <;> simp [Validate.get, findOne, lookup, hk, ht]
  · cases ht : w.mirror.tickets k <;> simp [Validate.get, findOne, lookup, hk, ht]
  · intro other ho
    simp [Validate.get, findOne, lookup, ho]

/-- C21, witness: the status of the unused Ticket 7 is `VALID`, that of the used Ticket 7 is
`USED`, and the query for ticket 7 of an empty mirror is answered `404`. -/
theorem C21_status_query_witness :
    Sample.pathEnv.strToNumber "7" = .int 7 ∧
      (Validate.get Sample.pathEnv "7" (World.start Sample.mirror7 ())).1 =
        { status := 200
          body := some
            { tokenId := 7, eventId := 1, seatNumber := some "A1", owner := some "0xABC"
              isUsed := false, status := "VALID" } } ∧
      (Validate.get Sample.pathEnv "7" (World.start Sample.usedMirror7 ())).1 =
        { status := 200
          body := some
            { tokenId := 7, eventId := 1, seatNumber := some "A1", owner := some "0xABC"
              isUsed := true, status := "USED" } } ∧
      (Validate.get Sample.pathEnv "7" (World.start Mirror.empty ())).1 =
        { status := 404, error := some "Ticket not found" } ∧
      (Validate.get Sample.pathEnv "7" (World.start Sample.mirror7 ())).2.log =
        [Op.findOne (.int 7)] :=
  ⟨rfl,
    (C21_status_query Sample.pathEnv "7" 7 (World.start Sample.mirror7 ()) rfl).1
      Sample.ticket7 rfl,
    (C21_status_query Sample.pathEnv "7" 7 (World.start Sample.usedMirror7 ()) rfl).1
      Sample.usedTicket7 rfl,
    (C21_status_query Sample.pathEnv "7" 7 (World.start Mirror.empty ()) rfl).2.1 rfl,
    (C21_status_query Sample.pathEnv "7" 7 (World.start Sample.mirror7 ()) rfl).2.2.2.2.1⟩

/-- C22, counterexample. The unused Ticket 7 is presented with its own proof token, the estimation
and the submission succeed, and the wait for the confirmation gives up with a timeout error. The
validator answers with the failure answer of its `catch` block, status `500` and
`success = false`; the answer to a reverted call has the same status and flag, and the two answers
differ in nothing but the message text. -/
theorem C22_counterexample :
    preCheck Sample.env Sample.mirror7 Sample.request7 = .passed Sample.ticket7 ∧
      (Sample.stalledContract.wait () ⟨"0xTX"⟩).1 = .error Sample.timeout ∧
      (post Sample.env Sample.stalledContract Sample.request7
        (World.start Sample.mirror7 ())).1 =
        { status := 500, success := false, message := "wait for transaction timeout" } ∧
      (post Sample.env Sample.revertingContract Sample.request7
        (World.start Sample.mirror7 ())).1 =
        { status := 500, success := false, message := "Already used on-chain." } ∧
      { (post Sample.env Sample.stalledContract Sample.request7
          (World.start Sample.mirror7 ())).1 with message := "" } =
        { (post Sample.env Sample.revertingContract Sample.request7
          (World.start Sample.mirror7 ())).1 with message := "" } := by
  refine ⟨by decide, rfl, ?_, ?_, ?_⟩ <;> decide

/-- C22, amended. The validator has no outcome for a confirmation that is still pending: for every
request that passes the pre-check, an error `e` thrown by the wait for the confirmation (a timeout
of the wait included) is answered exactly like the same error thrown by the estimation or by the
submission, with status `500`, `success = false` and the translation `parseChainError e` as
message. -/
theorem C22_wait_failure_is_failure {σ : Type} (env : Env) (C : Contract σ) (req : Request)
    (m : Mirror) (s : σ) (t : Ticket) (e : JsError)
    (hpre : preCheck env m req = .passed t) :
    (∀ s1 tx s2 s3, C.estimateGas s req.tokenId req.qrHash = (.ok (), s1) →
        C.markTicketAsUsed s1 req.tokenId req.qrHash = (.ok tx, s2) →
        C.wait s2 tx = (.error e, s3) →
        (post env C req (World.start m s)).1 =
          { status := 500, success := false, message := parseChainError e }) ∧
      (∀ s1 s2, C.estimateGas s req.tokenId req.qrHash = (.ok (), s1) →
        C.markTicketAsUsed s1 req.tokenId req.qrHash = (.error e, s2) →
        (post env C req (World.start m s)).1 =
          { status := 500, success := false, message := parseChainError e }) ∧
      (∀ s1, C.estimateGas s req.tokenId req.qrHash = (.error e, s1) →
        (post env C req (World.start m s)).1 =
          { status := 500, success := false, message := parseChainError e }) := by
  refine ⟨?_, ?_, ?_⟩
  · intro s1 tx s2 s3 h1 h2 h3
    rw [post_steps env C req m s t hpre]
    simp only [h1, h2, h3]
    rfl
  · intro s1 s2 h1 h2
    rw [post_steps env C req m s t hpre]
    simp only [h1, h2]
    rfl
  · intro s1 h1
    rw [post_steps env C req m s t hpre]
    simp only [h1]
    rfl

/-- C22, witness: the wait that gives up on the submitted call for Ticket 7. -/
theorem C22_wait_failure_is_failure_witness :
    preCheck Sample.env Sample.mirror7 Sample.request7 = .passed Sample.ticket7 ∧
      (post Sample.env Sample.stalledContract Sample.request7
        (World.start Sample.mirror7 ())).1 =
        { status := 500, success := false, message := parseChainError Sample.timeout } :=
  ⟨by decide,
    (C22_wait_failure_is_failure Sample.env Sample.stalledContract Sample.request7
      Sample.mirror7 () Sample.ticket7 Sample.timeout (by decide)).1 () ⟨"0xTX"⟩ () () rfl rfl
      rfl⟩


/-! ## The validator: retries, wrong tokens and the shape of the answer -/

/-- C25. No automatic retry: for every request, mirror and ledger, one validator call performs at
most one gas estimation, at most one submission of `markTicketAsUsed` and at most one wait for a
confirmation. Once a ledger step fails, no further ledger call is made: after a failed estimation
the steps taken are the mirror read and that estimation, after a failed submission they are the
mirror read, the estimation and that submission, and the wait, when it fails, is the last step
taken. -/
theorem C25_no_automatic_retry {σ : Type} (env : Env) (C : Contract σ) (req : Request)
    (m : Mirror) (s : σ) :
    (post env C req (World.start m s)).2.log.countP Op.isEstimate ≤ 1 ∧
      (post env C req (World.start m s)).2.log.countP Op.isSubmit ≤ 1 ∧
      (post env C req (World.start m s)).2.log.countP Op.isWait ≤ 1 ∧
      (∀ t e s1, preCheck env m req = .passed t →
        C.estimateGas s req.tokenId req.qrHash = (.error e, s1) →
        (post env C req (World.start m s)).2.log =
          [Op.findOne (req.tokenId.toNumber env), Op.estimateGas req.tokenId req.qrHash]) ∧
      (∀ t e s1 s2, preCheck env m req = .passed t →
        C.estimateGas s req.tokenId req.qrHash = (.ok (), s1) →
        C.markTicketAsUsed s1 req.tokenId req.qrHash = (.error e, s2) →
        (post env C req (World.start m s)).2.log =
          [Op.findOne (req.tokenId.toNumber env), Op.estimateGas req.tokenId req.qrHash,
            Op.markTicketAsUsed req.tokenId req.qrHash]) ∧
      (∀ t e s1 tx s2 s3, preCheck env m req = .passed t →
        C.estimateGas s req.tokenId req.qrHash = (.ok (), s1) →
        C.markTicketAsUsed s1 req.tokenId req.qrHash = (.ok tx, s2) →
        C.wait s2 tx = (.error e, s3) →
        (post env C req (World.start m s)).2.log =
          [Op.findOne (req.tokenId.toNumber env), Op.estimateGas req.tokenId req.qrHash,
            Op.markTicketAsUsed req.tokenId req.qrHash, Op.wait tx]) := by
  have hcount : (post env C req (World.start m s)).2.log.countP Op.isEstimate ≤ 1 ∧
      (post env C req (World.start m s)).2.log.countP Op.isSubmit ≤ 1 ∧
      (post env C req (World.start m s)).2.log.countP Op.isWait ≤ 1 := by
    have hstop := post_stopped env C req (World.start m s)
    cases hpc : preCheck env m req with
    | passed t =>
      rw [post_steps env C req m s t hpc]
      rcases h1 : C.estimateGas s req.tokenId req.qrHash with ⟨r1, s1⟩
      cases r1 with
      | error e => simp [Op.isEstimate, Op.isSubmit, Op.isWait]
      | ok u =>
        simp only []
        rcases h2 : C.markTicketAsUsed s1 req.tokenId req.qrHash with ⟨r2, s2⟩
        cases r2 with
        | error e => simp [Op.isEstimate, Op.isSubmit, Op.isWait]
        | ok tx =>
          simp only []
          rcases h3 : C.wait s2 tx with ⟨r3, s3⟩
          cases r3 with
          | error e => simp [Op.isEstimate, Op.isSubmit, Op.isWait]
          | ok receipt => simp [Op.isEstimate, Op.isSubmit, Op.isWait]
    | clientError =>
      simp only [show (World.start m s).mirror = m from rfl, hpc] at hstop
      rw [hstop]
      simp [World.start]
    | lookupFailed e =>
      simp only [show (World.start m s).mirror = m from rfl, hpc] at hstop
      rw [hstop]
      simp [World.start, findOne, Op.isEstimate, Op.isSubmit, Op.isWait]
    | notFound =>
      simp only [show (World.start m s).mirror = m from rfl, hpc] at hstop
      rw [hstop]
      simp [World.start, findOne, Op.isEstimate, Op.isSubmit, Op.isWait]
    | alreadyUsed t =>
      simp only [show (World.start m s).mirror = m from rfl, hpc] at hstop
      rw [hstop]
      simp [World.start, findOne, Op.isEstimate, Op.isSubmit, Op.isWait]
    | mismatch =>
      simp only [show (World.start m s).mirror = m from rfl, hpc] at hstop
      rw [hstop]
      simp [World.start, findOne, Op.isEstimate, Op.isSubmit, Op.isWait]
  refine ⟨hcount.1, hcount.2.1, hcount.2.2, ?_, ?_, ?_⟩
  · intro t e s1 hpre h1
    rw [post_steps env C req m s t hpre]
    simp only [h1]
  · intro t e s1 s2 hpre h1 h2
    rw [post_steps env C req m s t hpre]
    simp only [h1, h2]
  · intro t e s1 tx s2 s3 hpre h1 h2 h3
    rw [post_steps env C req m s t hpre]
    simp only [h1, h2, h3]

/-- C25, witness: on the ledger whose estimation reverts, the call for Ticket 7 estimates once and
then stops, and on the ledger whose wait gives up it estimates, submits and waits once each. -/
theorem C25_no_automatic_retry_witness :
    (post Sample.env Sample.revertingContract Sample.request7
        (World.start Sample.mirror7 ())).2.log =
        [Op.findOne (.int 7), Op.estimateGas (.num 7) (.str "0xHASH7")] ∧
      (post Sample.env Sample.stalledContract Sample.request7
        (World.start Sample.mirror7 ())).2.log.countP Op.isSubmit ≤ 1 ∧
      (post Sample.env Sample.stalledContract Sample.request7
        (World.start Sample.mirror7 ())).2.log =
        [Op.findOne (.int 7), Op.estimateGas (.num 7) (.str "0xHASH7"),
          Op.markTicketAsUsed (.num 7) (.str "0xHASH7"), Op.wait ⟨"0xTX"⟩] :=
  ⟨(C25_no_automatic_retry Sample.env Sample.revertingContract Sample.request7 Sample.mirror7
      ()).2.2.2.1 Sample.ticket7 Sample.alreadyUsed () (by decide) rfl,
    (C25_no_automatic_retry Sample.env Sample.stalledContract Sample.request7 Sample.mirror7
      ()).2.1,
    (C25_no_automatic_retry Sample.env Sample.stalledContract Sample.request7 Sample.mirror7
      ()).2.2.2.2.2 Sample.ticket7 Sample.timeout () ⟨"0xTX"⟩ () () (by decide) rfl rfl rfl⟩

/-- C29, counterexample. The mirror holds the unused Ticket 0, and two non-empty proof tokens that
both differ from its stored qrHash are presented for tokenId `0`: the validator does not answer
`401`, it answers the client input error `400` to both. -/
theorem C29_counterexample :
    Sample.mirror0.tickets 0 = some Sample.ticket0 ∧ Sample.ticket0.isUsed = false ∧
      Sample.ticket0.qrHash ≠ some "0xWRONG" ∧ Sample.ticket0.qrHash ≠ some "0xOTHER" ∧
      (post Sample.env Sample.okContract ⟨.num 0, .str "0xWRONG"⟩
        (World.start Sample.mirror0 ())).1.status = 400 ∧
      (post Sample.env Sample.okContract ⟨.num 0, .str "0xOTHER"⟩
        (World.start Sample.mirror0 ())).1.status = 400 := by
  refine ⟨rfl, rfl, by decide, by decide, ?_, ?_⟩ <;> decide

/-- C29, amended. Wrong-token answers do not depend on the token: for every mirror and every
non-zero tokenId `k` of a mirrored, unused Ticket, any two non-empty proof tokens that both differ
from the stored qrHash get the same validator result (answer, mirror, ledger and steps taken). The
answer is the constant `401` body `{success: false, message: "QR hash mismatch. Invalid
ticket."}`: it carries no ticket summary, no transaction and nothing computed from the stored
qrHash, and no ledger call is made. -/
theorem C29_wrong_token_independent {σ : Type} (env : Env) (C : Contract σ) (m : Mirror) (s : σ)
    (k : Int) (t : Ticket) (a b : String)
    (hm : m.tickets k = some t) (hu : t.isUsed = false) (hk : k ≠ 0)
    (ha : a ≠ "") (hb : b ≠ "") (hta : t.qrHash ≠ some a) (htb : t.qrHash ≠ some b) :
    post env C ⟨.num k, .str a⟩ (World.start m s) =
        post env C ⟨.num k, .str b⟩ (World.start m s) ∧
      post env C ⟨.num k, .str a⟩ (World.start m s) =
        ({ status := 401, success := false, message := "QR hash mismatch. Invalid ticket." },
          ⟨m, s, [Op.findOne (.int k)]⟩) ∧
      (post env C ⟨.num k, .str a⟩ (World.start m s)).1.ticket = none := by
  have key : ∀ c : String, c ≠ "" → t.qrHash ≠ some c →
      post env C ⟨.num k, .str c⟩ (World.start m s) =
        ({ status := 401, success := false, message := "QR hash mismatch. Invalid ticket." },
          ⟨m, s, [Op.findOne (.int k)]⟩) := by
    intro c hc htc
    have hstop := post_stopped env C ⟨.num k, .str c⟩ (World.start m s)
    have hs : strictEq t.qrHash (.str c) = false := by
      cases hq : t.qrHash with
      | none => rfl
      | some h =>
        have : h ≠ c := fun hh => htc (by rw [hq, hh])
        simp [strictEq, this]
    have hpc : preCheck env m ⟨.num k, .str c⟩ = .mismatch := by
      simp [preCheck, JsValue.truthy, JsValue.toNumber, lookup, hk, hc, hm, hu, hs]
    simp only [show (World.start m s).mirror = m from rfl, hpc] at hstop
    rw [hstop]
    rfl
  rw [key a ha hta, key b hb htb]
  exact ⟨rfl, rfl, rfl⟩

/-- C29, witness: two wrong proof tokens presented for the unused Ticket 7. -/
theorem C29_wrong_token_independent_witness :
    (Sample.mirror7.tickets 7 = some Sample.ticket7 ∧ Sample.ticket7.isUsed = false ∧
      (7 : Int) ≠ 0 ∧ "0xWRONG" ≠ "" ∧ "0xOTHER" ≠ "" ∧
      Sample.ticket7.qrHash ≠ some "0xWRONG" ∧ Sample.ticket7.qrHash ≠ some "0xOTHER") ∧
    (post Sample.env Sample.okContract ⟨.num 7, .str "0xWRONG"⟩ (World.start Sample.mirror7 ()) =
        post Sample.env Sample.okContract ⟨.num 7, .str "0xOTHER"⟩
          (World.start Sample.mirror7 ()) ∧
      post Sample.env Sample.okContract ⟨.num 7, .str "0xWRONG"⟩ (World.start Sample.mirror7 ()) =
        ({ status := 401, success := false, message := "QR hash mismatch. Invalid ticket." },
          ⟨Sample.mirror7, (), [Op.findOne (.int 7)]⟩) ∧
      (post Sample.env Sample.okContract ⟨.num 7, .str "0xWRONG"⟩
        (World.start Sample.mirror7 ())).1.ticket = none) :=
  ⟨⟨rfl, rfl, by decide, by decide, by decide, by decide, by decide⟩,
    C29_wrong_token_independent Sample.env Sample.okContract Sample.mirror7 () 7 Sample.ticket7
      "0xWRONG" "0xOTHER" rfl rfl (by decide) (by decide) (by decide) (by decide) (by decide)⟩


/-- C30. Validator result well-formedness: for every request, mirror and ledger, the answer has
`success = true` exactly when the request passed the pre-check and the estimation, the submission
and the wait for the confirmation all succeeded, and exactly when its status is `200`; `txHash`
and `block` are present exactly when `success = true`; and a ticket summary is present only in the
success answer and in the `409` answer given for a Ticket that is already used. -/
theorem C30_result_well_formed {σ : Type} (env : Env) (C : Contract σ) (req : Request)
    (m : Mirror) (s : σ) :
    ((post env C req (World.start m s)).1.success = true ↔
        ∃ t s1 tx s2 receipt s3, preCheck env m req = .passed t ∧
          C.estimateGas s req.tokenId req.qrHash = (.ok (), s1) ∧
          C.markTicketAsUsed s1 req.tokenId req.qrHash = (.ok tx, s2) ∧
          C.wait s2 tx = (.ok receipt, s3)) ∧
      ((post env C req (World.start m s)).1.success = true ↔
        (post env C req (World.start m s)).1.status = 200) ∧
      ((post env C req (World.start m s)).1.txHash.isSome = true ↔
        (post env C req (World.start m s)).1.success = true) ∧
      ((post env C req (World.start m s)).1.block.isSome = true ↔
        (post env C req (World.start m s)).1.success = true) ∧
      ((post env C req (World.start m s)).1.ticket.isSome = true →
        (post env C req (World.start m s)).1.success = true ∨
          ((post env C req (World.start m s)).1.status = 409 ∧
            ∃ t, preCheck env m req = .alreadyUsed t)) := by
  have hstop := post_stopped env C req (World.start m s)
  cases hpc : preCheck env m req with
  | passed t =>
    rw [post_steps env C req m s t hpc]
    rcases h1 : C.estimateGas s req.tokenId req.qrHash with ⟨r1, s1⟩
    cases r1 with
    | error e => simp [failed]
    | ok u =>
      simp only []
      rcases h2 : C.markTicketAsUsed s1 req.tokenId req.qrHash with ⟨r2, s2⟩
      cases r2 with
      | error e =>
        simp only [failed, Bool.false_eq_true, false_iff, not_exists, not_and, Option.isSome_none,
          iff_self, and_true, false_or, false_and, imp_false, not_true_eq_false, Nat.reduceEqDiff,
          PreCheck.passed.injEq, Prod.mk.injEq, true_and, reduceCtorEq, false_implies,
          implies_true, and_self]
        refine ⟨?_, not_false⟩
        intro t' s1' tx s2' receipt s3' _ hs1 h2'
        subst hs1
        rw [h2] at h2'
        simp at h2'
      | ok tx =>
        simp only []
        rcases h3 : C.wait s2 tx with ⟨r3, s3⟩
        cases r3 with
        | error e =>
          simp only [failed, Bool.false_eq_true, false_iff, not_exists, not_and,
            Option.isSome_none, iff_self, and_true, false_or, false_and, imp_false,
            not_true_eq_false, Nat.reduceEqDiff, PreCheck.passed.injEq, Prod.mk.injEq, true_and,
            reduceCtorEq, false_implies, implies_true, and_self]
          refine ⟨?_, not_false⟩
          intro t' s1' tx' s2' receipt s3' _ hs1 h2'
          subst hs1
          rw [h2] at h2'
          simp only [Prod.mk.injEq, Except.ok.injEq] at h2'
          obtain ⟨htx, hs2⟩ := h2'
          subst htx
          subst hs2
          rw [h3]
          simp
        | ok receipt =>
          simp only [granted, true_iff, Option.isSome_some, iff_self, and_true, true_or,
            implies_true, PreCheck.passed.injEq, Prod.mk.injEq, true_and]
          exact ⟨t, s1, tx, s2, receipt, s3, rfl, rfl, h2, h3⟩
  | clientError =>
    simp only [show (World.start m s).mirror = m from rfl, hpc] at hstop
    rw [hstop]
    simp [badRequest]
  | lookupFailed e =>
    simp only [show (World.start m s).mirror = m from rfl, hpc] at hstop
    rw [hstop]
    simp [failed]
  | notFound =>
    simp only [show (World.start m s).mirror = m from rfl, hpc] at hstop
    rw [hstop]
    simp [Validate.notFound]
  | alreadyUsed t =>
    simp only [show (World.start m s).mirror = m from rfl, hpc] at hstop
    rw [hstop]
    simp [conflict]
  | mismatch =>
    simp only [show (World.start m s).mirror = m from rfl, hpc] at hstop
    rw [hstop]
    simp [Validate.mismatch]

/-- C30, witness: the success answer for Ticket 7 carries `txHash`, `block` and the summary, and
the answer to a wrong proof token carries none of them. -/
theorem C30_result_well_formed_witness :
    (post Sample.env Sample.okContract Sample.request7
        (World.start Sample.mirror7 ())).1.success = true ∧
      (post Sample.env Sample.okContract Sample.request7
        (World.start Sample.mirror7 ())).1.status = 200 ∧
      ((post Sample.env Sample.okContract ⟨.num 7, .str "0xWRONG"⟩
        (World.start Sample.mirror7 ())).1.txHash.isSome = true ↔
        (post Sample.env Sample.okContract ⟨.num 7, .str "0xWRONG"⟩
          (World.start Sample.mirror7 ())).1.success = true) :=
  ⟨(C30_result_well_formed Sample.env Sample.okContract Sample.request7 Sample.mirror7 ()).1.2
      ⟨Sample.ticket7, (), ⟨"0xTX"⟩, (), ⟨42⟩, (), by decide, rfl, rfl, rfl⟩,
    (C30_result_well_formed Sample.env Sample.okContract Sample.request7 Sample.mirror7 ()).2.1.1
      ((C30_result_well_formed Sample.env Sample.okContract Sample.request7 Sample.mirror7
        ()).1.2 ⟨Sample.ticket7, (), ⟨"0xTX"⟩, (), ⟨42⟩, (), by decide, rfl, rfl, rfl⟩),
    (C30_result_well_formed Sample.env Sample.okContract ⟨.num 7, .str "0xWRONG"⟩ Sample.mirror7
      ()).2.2.1⟩


/-! ## The listener: failures, frames and absent records -/

namespace Listener

/-- The mirror a `try` block leaves, thrown error or not, is the mirror of the handler run. -/
theorem attempt_mirror (env : Env) (d : Delivery) (m : Mirror) :
    (attempt env d m).2 = startListener env d m := by
  unfold attempt startListener
  cases d.event with
  | EventCreated eventId name price supply =>
    simp only [tryEventCreated, onEventCreated]
    cases d.chain.getEventDetails eventId with
    | none => rfl
    | some ev => cases d.writeOk1 <;> rfl
  | EventDeactivated eventId =>
    simp only [tryEventDeactivated, onEventDeactivated]
    cases d.writeOk1 <;> rfl
  | TicketMinted tokenId eventId buyer qrHash =>
    simp only [tryTicketMinted, onTicketMinted]
    cases d.chain.tickets tokenId with
    | none => rfl
    | some td => cases d.writeOk1 <;> cases d.writeOk2 <;> rfl
  | TicketListed tokenId seller price =>
    simp only [tryTicketListed, onTicketListed]
    cases d.writeOk1 <;> rfl
  | ListingCancelled tokenId =>
    simp only [tryListingCancelled, onListingCancelled]
    cases d.writeOk1 <;> rfl
  | TicketSold tokenId seller buyer price fee =>
    simp only [tryTicketSold, onTicketSold]
    cases d.writeOk1 <;> rfl
  | TicketUsed tokenId =>
    simp only [tryTicketUsed, onTicketUsed]
    cases d.writeOk1 <;> rfl

/-- The callback settles normally whatever its `try` block throws. -/
theorem callback_ok (env : Env) (d : Delivery) (m : Mirror) :
    callback env d m = .ok (startListener env d m) := by
  rw [← attempt_mirror]
  unfold callback
  rcases attempt env d m with ⟨r, m'⟩
  cases r <;> rfl

/-- The subscription never ends with an error: it applies every delivery. -/
theorem listen_ok (env : Env) (ds : List Delivery) (m : Mirror) :
    listen env ds m = .ok (applyAll env ds m) := by
  induction ds generalizing m with
  | nil => rfl
  | cons d ds ih => simp only [listen, callback_ok, applyAll, ih]

end Listener

/-- C23. Handler failure containment: for each of the seven handlers, every mirror and every
delivered event, the callback completes normally, also when the ledger read or a write to the
mirror inside its `try` block throws: it leaves the mirror as the `try` block left it and raises
nothing to the subscription. So the subscription is never ended by an error, and the events
delivered after a failed one are applied to the mirror the failed handler left. -/
theorem C23_handler_failure_contained (env : Env) :
    (∀ d m, callback env d m = .ok (startListener env d m)) ∧
      (∀ d m f, (attempt env d m).1 = .error f →
        callback env d m = .ok (attempt env d m).2) ∧
      (∀ ds m, listen env ds m = .ok (applyAll env ds m)) ∧
      (∀ d ds m f, (attempt env d m).1 = .error f →
        listen env (d :: ds) m = listen env ds (attempt env d m).2) := by
  refine ⟨callback_ok env, ?_, listen_ok env, ?_⟩
  · intro d m f _
    rw [callback_ok, attempt_mirror]
  · intro d ds m f _
    rw [listen_ok, listen_ok, attempt_mirror]
    rfl

/-- C23, witness: a `TicketMinted` whose ledger read fails and a `TicketUsed` whose write to the
mirror fails both throw inside their `try` block, their callbacks complete, and the `TicketListed`
delivered after them is applied to Ticket 7. -/
theorem C23_handler_failure_contained_witness :
    (attempt Sample.env Sample.mintUnread7 Sample.mirror7).1 = .error .ledgerRead ∧
      (attempt Sample.env { Sample.used7 with writeOk1 := false } Sample.mirror7).1 =
        .error .mirrorWrite ∧
      callback Sample.env Sample.mintUnread7 Sample.mirror7 =
        .ok (attempt Sample.env Sample.mintUnread7 Sample.mirror7).2 ∧
      listen Sample.env
          [Sample.mintUnread7, { Sample.used7 with writeOk1 := false }, Sample.listed7]
          Sample.mirror7 =
        .ok (applyAll Sample.env
          [Sample.mintUnread7, { Sample.used7 with writeOk1 := false }, Sample.listed7]
          Sample.mirror7) ∧
      ((applyAll Sample.env
          [Sample.mintUnread7, { Sample.used7 with writeOk1 := false }, Sample.listed7]
          Sample.mirror7).tickets 7).map (fun t => t.listing.isActive) = some true :=
  ⟨rfl, rfl,
    (C23_handler_failure_contained Sample.env).2.1 Sample.mintUnread7 Sample.mirror7 .ledgerRead
      rfl,
    (C23_handler_failure_contained Sample.env).2.2.1 _ Sample.mirror7, rfl⟩


/-- C24, counterexample. The mirror holds Ticket 7, last updated at time `0`, and `TicketListed`
for it is applied at time `5`: besides the listing fields its mapping names, the handler changes
the `updatedAt` field of the Ticket, which the mapping does not name. -/
theorem C24_counterexample :
    Sample.mirror7.tickets 7 = some Sample.ticket7 ∧
      Sample.listed7.event = .TicketListed 7 "0xABC" 2 ∧
      Sample.ticket7.updatedAt = 0 ∧
      ((startListener Sample.env Sample.listed7 Sample.mirror7).tickets 7).map
        (fun t => t.updatedAt) = some 5 := by
  refine ⟨rfl, rfl, rfl, rfl⟩

/-- C24, amended. Field-level merge: for every mirror holding a Ticket `t` under tokenId, each of
the handlers `TicketListed`, `ListingCancelled`, `TicketSold` and `TicketUsed` leaves under that
key the Ticket `t` with the fields of its mapping and the advisory `updatedAt` replaced and every
other field (tokenId, eventId, seatNumber, originalPrice, qrHash among them) as it was, or `t`
itself when the write fails; every other Ticket and every Event is unchanged. Likewise
`EventDeactivated` replaces `isActive` and `updatedAt` of the Event and nothing else, the
increment of `TicketMinted` replaces `ticketsMinted` and `updatedAt` of the Event and nothing
else, and both leave every other Event unchanged. -/
theorem C24_field_level_merge (env : Env) (d : Delivery) (m : Mirror) :
    (∀ (tokenId : Nat) seller price t, d.event = .TicketListed tokenId seller price →
        m.tickets tokenId = some t →
        (startListener env d m).tickets tokenId =
          some (if d.writeOk1 then
            { t with
              listing :=
                { isActive := true, seller := some seller
                  price := some (env.formatEther price), listedAt := some d.now }
              updatedAt := d.now }
            else t)) ∧
      (∀ (tokenId : Nat) t, d.event = .ListingCancelled tokenId → m.tickets tokenId = some t →
        (startListener env d m).tickets tokenId =
          some (if d.writeOk1 then
            { t with listing := { t.listing with isActive := false }, updatedAt := d.now }
            else t)) ∧
      (∀ (tokenId : Nat) seller buyer price fee t,
        d.event = .TicketSold tokenId seller buyer price fee → m.tickets tokenId = some t →
        (startListener env d m).tickets tokenId =
          some (if d.writeOk1 then
            { t with
              originalBuyer := some buyer
              listing := { t.listing with isActive := false }
              transferCount := t.transferCount + 1
              updatedAt := d.now }
            else t)) ∧
      (∀ (tokenId : Nat) t, d.event = .TicketUsed tokenId → m.tickets tokenId = some t →
        (startListener env d m).tickets tokenId =
          some (if d.writeOk1 then
            { t with
              isUsed := true, listing := { t.listing with isActive := false }
              updatedAt := d.now }
            else t)) ∧
      (∀ (tokenId : Nat),
        ((∃ seller price, d.event = .TicketListed tokenId seller price) ∨
          d.event = .ListingCancelled tokenId ∨
          (∃ seller buyer price fee, d.event = .TicketSold tokenId seller buyer price fee) ∨
          d.event = .TicketUsed tokenId) →
        (∀ k : Int, k ≠ tokenId → (startListener env d m).tickets k = m.tickets k) ∧
          (startListener env d m).events = m.events) ∧
      (∀ (eventId : Nat) e, d.event = .EventDeactivated eventId → m.events eventId = some e →
        (startListener env d m).events eventId =
            some (if d.writeOk1 then { e with isActive := false, updatedAt := d.now } else e) ∧
          (∀ k : Int, k ≠ eventId → (startListener env d m).events k = m.events k) ∧
          (startListener env d m).tickets = m.tickets) ∧
      (∀ (tokenId eventId : Nat) buyer qrHash e,
        d.event = .TicketMinted tokenId eventId buyer qrHash → m.events eventId = some e →
        ((startListener env d m).events eventId = some e ∨
          (startListener env d m).events eventId =
            some { e with ticketsMinted := e.ticketsMinted + 1, updatedAt := d.now }) ∧
          (∀ k : Int, k ≠ eventId → (startListener env d m).events k = m.events k)) := by
  refine ⟨?_, ?_, ?_, ?_, ?_, ?_, ?_⟩
  · intro tokenId seller price t hev hm
    simp only [startListener, hev, onTicketListed]
    cases d.writeOk1 <;> simp [Mirror.updateTicket_tickets, hm]
  · intro tokenId t hev hm
    simp only [startListener, hev, onListingCancelled]
    cases d.writeOk1 <;> simp [Mirror.updateTicket_tickets, hm]
  · intro tokenId seller buyer price fee t hev hm
    simp only [startListener, hev, onTicketSold]
    cases d.writeOk1 <;> simp [Mirror.updateTicket_tickets, hm]
  · intro tokenId t hev hm
    simp only [startListener, hev, onTicketUsed]
    cases d.writeOk1 <;> simp [Mirror.updateTicket_tickets, hm]
  · intro tokenId hev
    rcases hev with ⟨seller, price, hev⟩ | hev | ⟨seller, buyer, price, fee, hev⟩ | hev
    · simp only [startListener, hev, onTicketListed]
      cases d.writeOk1 <;>
        simp +contextual [Mirror.updateTicket_tickets,
          Mirror.updateTicket_events]
    · simp only [startListener, hev, onListingCancelled]
      cases d.writeOk1 <;>
        simp +contextual [Mirror.updateTicket_tickets,
          Mirror.updateTicket_events]
    · simp only [startListener, hev, onTicketSold]
      cases d.writeOk1 <;>
        simp +contextual [Mirror.updateTicket_tickets,
          Mirror.updateTicket_events]
    · simp only [startListener, hev, onTicketUsed]
      cases d.writeOk1 <;>
        simp +contextual [Mirror.updateTicket_tickets,
          Mirror.updateTicket_events]
  · intro eventId e hev hm
    simp only [startListener, hev, onEventDeactivated]
    cases d.writeOk1 <;>
      simp +contextual [Mirror.updateEvent_events,
        Mirror.updateEvent_tickets, hm]
  · intro tokenId eventId buyer qrHash e hev hm
    simp only [startListener, hev, onTicketMinted]
    cases d.chain.tickets tokenId with
    | none => simp [hm]
    | some td =>
      cases d.writeOk1 <;> cases d.writeOk2 <;>
        simp +contextual [Mirror.updateEvent_events,
          Mirror.upsertTicket_events, hm]


/-- C24, witness: `TicketListed(7, "0xABC", 2)` at time `5` on the mirror holding Ticket 7 replaces
the listing and `updatedAt` of the Ticket and keeps its tokenId, eventId, seatNumber and qrHash. -/
theorem C24_field_level_merge_witness :
    (startListener Sample.env Sample.listed7 Sample.mirror7).tickets 7 =
      some
        { tokenId := 7, eventId := 1, seatNumber := some "A1", originalBuyer := some "0xABC"
          qrHash := some "0xHASH7"
          listing :=
            { isActive := true, seller := some "0xABC", price := some "1.0"
              listedAt := some 5 }
          updatedAt := 5 } :=
  (C24_field_level_merge Sample.env Sample.listed7 Sample.mirror7).1 7 "0xABC" 2 Sample.ticket7
    rfl rfl

/-- C26. Updates to absent records are dropped: for every mirror with no Ticket under tokenId,
applying `TicketListed`, `ListingCancelled`, `TicketSold` or `TicketUsed` for that tokenId leaves
the whole mirror as it was, so no record is created; likewise `EventDeactivated` for an eventId
with no mirrored Event, and the `ticketsMinted` increment of `TicketMinted` for such an eventId
leaves the Events as they were. Consequently a `TicketUsed(t)` applied before `TicketMinted(t)` is
lost: after both (the mint reading the ledger and writing the Ticket), the mirror's Ticket `t` has
`isUsed = false`. -/
theorem C26_absent_updates_dropped (env : Env) (m : Mirror) :
    (∀ (d : Delivery) (tokenId : Nat), m.tickets tokenId = none →
        ((∃ seller price, d.event = .TicketListed tokenId seller price) ∨
          d.event = .ListingCancelled tokenId ∨
          (∃ seller buyer price fee, d.event = .TicketSold tokenId seller buyer price fee) ∨
          d.event = .TicketUsed tokenId) →
        startListener env d m = m) ∧
      (∀ (d : Delivery) (eventId : Nat), m.events eventId = none →
        d.event = .EventDeactivated eventId → startListener env d m = m) ∧
      (∀ (d : Delivery) (tokenId eventId : Nat) buyer qrHash, m.events eventId = none →
        d.event = .TicketMinted tokenId eventId buyer qrHash →
        (startListener env d m).events = m.events) ∧
      (∀ (used minted : Delivery) (t eventId : Nat) buyer qrHash td, m.tickets t = none →
        used.event = .TicketUsed t → minted.event = .TicketMinted t eventId buyer qrHash →
        minted.chain.tickets t = some td → minted.writeOk1 = true →
        ∃ ticket, (applyAll env [used, minted] m).tickets t = some ticket ∧
          ticket.isUsed = false) := by
  have hused : ∀ (d : Delivery) (t : Nat), m.tickets t = none → d.event = .TicketUsed t →
      startListener env d m = m := by
    intro d t hm hev
    simp only [startListener, hev, onTicketUsed]
    cases d.writeOk1 <;> simp [Mirror.updateTicket, hm]
  refine ⟨?_, ?_, ?_, ?_⟩
  · intro d tokenId hm hev
    rcases hev with ⟨seller, price, hev⟩ | hev | ⟨seller, buyer, price, fee, hev⟩ | hev
    · simp only [startListener, hev, onTicketListed]
      cases d.writeOk1 <;> simp [Mirror.updateTicket, hm]
    · simp only [startListener, hev, onListingCancelled]
      cases d.writeOk1 <;> simp [Mirror.updateTicket, hm]
    · simp only [startListener, hev, onTicketSold]
      cases d.writeOk1 <;> simp [Mirror.updateTicket, hm]
    · exact hused d tokenId hm hev
  · intro d eventId hm hev
    simp only [startListener, hev, onEventDeactivated]
    cases d.writeOk1 <;> simp [Mirror.updateEvent, hm]
  · intro d tokenId eventId buyer qrHash hm hev
    simp only [startListener, hev, onTicketMinted]
    cases d.chain.tickets tokenId with
    | none => rfl
    | some td =>
      cases d.writeOk1 <;> cases d.writeOk2 <;>
        simp [Mirror.updateEvent, Mirror.upsertTicket_events, hm]
  · intro used minted t eventId buyer qrHash td hm hu hmint hread hw
    simp only [applyAll, hused used t hm hu]
    simp only [startListener, hmint, onTicketMinted, hread, hw, Bool.not_true,
      Bool.false_eq_true, if_false]
    cases minted.writeOk2 <;>
      simp [Mirror.updateEvent_tickets, Mirror.upsertTicket_tickets, hm, Ticket.fresh]

/-- C26, witness: on the empty mirror `TicketUsed(7)` changes nothing, and the `TicketMinted(7)`
that follows stores Ticket 7 as unused. -/
theorem C26_absent_updates_dropped_witness :
    startListener Sample.env Sample.used7 Mirror.empty = Mirror.empty ∧
      ∃ ticket, (applyAll Sample.env [Sample.used7, Sample.mint7 0] Mirror.empty).tickets 7 =
        some ticket ∧ ticket.isUsed = false :=
  ⟨(C26_absent_updates_dropped Sample.env Mirror.empty).1 Sample.used7 7 rfl
      (Or.inr (Or.inr (Or.inr rfl))),
    (C26_absent_updates_dropped Sample.env Mirror.empty).2.2.2 Sample.used7 (Sample.mint7 0) 7 1
      "0xABC" "0xHASH7" (Sample.snapshot7 0) rfl rfl rfl rfl rfl⟩


/-! ## The sweeps: the ticket counter and the frame -/

/-- C27. After the ticket sweep over the tokens `1..n` (the ledger's ticket reads succeed for them
and fail for `n+1`; the sweep returns given more than `n` units of fuel), every mirrored Event
that owns at least one scanned ticket has its `ticketsMinted` equal to the largest tokenId among
the scanned tickets whose `eventId` is that Event, the last value written in ascending tokenId
order; and an Event that owns no scanned ticket is left as it was, so it keeps its previous
`ticketsMinted`. The value is a token id, not a number of tickets. -/
theorem C27_tickets_minted_is_last_token (env : Env) (chain : Chain) (clock : Nat → Nat)
    (n fuel : Nat) (m : Mirror) (hgap : chain.ticketGap 1 n) (hfuel : n < fuel) :
    ∃ m', SyncTickets.sync env chain clock fuel m = some m' ∧
      (∀ (k : Int) (e : Event) (j : Nat), m.events k = some e → 1 ≤ j → j ≤ n →
        chain.owns k j = true →
        ∃ last e', 1 ≤ last ∧ last ≤ n ∧ chain.owns k last = true ∧
          (∀ i, 1 ≤ i → i ≤ n → chain.owns k i = true → i ≤ last) ∧
          m'.events k = some e' ∧ e'.ticketsMinted = last) ∧
      (∀ (k : Int) (e : Event), m.events k = some e →
        (∀ j, 1 ≤ j → j ≤ n → chain.owns k j = false) → m'.events k = some e) := by
  obtain ⟨m', hrun, _, _, hevents⟩ :=
    SyncTickets.ticketSweep_spec env chain clock n 1 m [] fuel hgap hfuel
  have hsync : SyncTickets.sync env chain clock fuel m = some m' := by
    have := SyncTickets.ticketSweep_fst env chain clock fuel 1 m []
    rw [hrun] at this
    exact this.symm
  refine ⟨m', hsync, ?_, ?_⟩
  · intro k e j he h1 h2 hown
    cases hlast : chain.lastOwned k n 1 with
    | none =>
      have := Chain.lastOwned_none chain k n 1 hlast j h1 (by omega)
      rw [hown] at this
      cases this
    | some last =>
      obtain ⟨l1, l2, l3, l4⟩ := Chain.lastOwned_some chain k n 1 last hlast
      refine ⟨last, SyncTickets.mark clock last e, l1, by omega, l3, ?_, ?_, rfl⟩
      · intro i hi1 hi2 hi3
        by_contra hlt
        have := l4 i (by omega) (by omega)
        rw [hi3] at this
        cases this
      · rw [hevents k, he, hlast]
        rfl
  · intro k e he hnone
    cases hlast : chain.lastOwned k n 1 with
    | none =>
      rw [hevents k, he, hlast]
      rfl
    | some last =>
      obtain ⟨l1, l2, l3, _⟩ := Chain.lastOwned_some chain k n 1 last hlast
      have := hnone last l1 (by omega)
      rw [l3] at this
      cases this

/-- C27, witness: on the ledger with ticket 1 of event 1 and ticket 2 of event 2, the sweep over
the tokens `1..2` leaves Event 2, which owns the single scanned ticket 2, with `ticketsMinted = 2`.
-/
theorem C27_tickets_minted_is_last_token_witness :
    (Sample.twoEvents.ticketGap 1 2 ∧ 2 < 3) ∧
      ((List.range' 1 2).filter (Sample.twoEvents.owns 2)).length = 1 ∧
      (SyncTickets.sync Sample.env Sample.twoEvents Sample.clock 3 Sample.mirrorTwoEvents).bind
        (fun m' => (m'.events 2).map fun e => e.ticketsMinted) = some 2 ∧
      ∃ m', SyncTickets.sync Sample.env Sample.twoEvents Sample.clock 3 Sample.mirrorTwoEvents =
          some m' ∧
        (∀ (k : Int) (e : Event) (j : Nat), Sample.mirrorTwoEvents.events k = some e → 1 ≤ j →
          j ≤ 2 → Sample.twoEvents.owns k j = true →
          ∃ last e', 1 ≤ last ∧ last ≤ 2 ∧ Sample.twoEvents.owns k last = true ∧
            (∀ i, 1 ≤ i → i ≤ 2 → Sample.twoEvents.owns k i = true → i ≤ last) ∧
            m'.events k = some e' ∧ e'.ticketsMinted = last) ∧
        (∀ (k : Int) (e : Event), Sample.mirrorTwoEvents.events k = some e →
          (∀ j, 1 ≤ j → j ≤ 2 → Sample.twoEvents.owns k j = false) → m'.events k = some e) :=
  have hgap : Sample.twoEvents.ticketGap 1 2 := by
    refine ⟨fun i h1 h2 => ?_, Or.inl rfl⟩
    have hi : i = 1 ∨ i = 2 := by omega
    rcases hi with rfl | rfl <;> simp [Sample.twoEvents]
  ⟨⟨hgap, by decide⟩, rfl, rfl,
    C27_tickets_minted_is_last_token Sample.env Sample.twoEvents Sample.clock 2 3
      Sample.mirrorTwoEvents hgap (by decide)⟩


/-- C28. Backfill frame: for every initial mirror, on a ledger whose first failing event id is
`ke + 1` the event sweep returns and leaves every Event with `eventId >= ke + 1` and every Ticket
unchanged; on a ledger whose first failing token id is `kt + 1` the ticket sweep returns and
leaves every Ticket with `tokenId >= kt + 1` unchanged. Neither sweep deletes a record: every key
that held an Event or a Ticket before still holds one after. And the ticket sweep leaves the
listing sub-record (`isActive`, `seller`, `price`, `listedAt`) of every Ticket exactly as it
was, the Tickets it rewrites included. -/
theorem C28_backfill_frame (env : Env) (chain : Chain) (clock : Nat → Nat) (ke kt fuel : Nat)
    (m : Mirror) (hevents : chain.eventGap 1 ke) (htickets : chain.ticketGap 1 kt)
    (hfe : ke < fuel) (hft : kt < fuel) :
    (∃ m', SyncEvents.sync env chain clock fuel m = some m' ∧
        (∀ k : Int, (ke : Int) + 1 ≤ k → m'.events k = m.events k) ∧
        (∀ k : Int, (m.events k).isSome = true → (m'.events k).isSome = true) ∧
        m'.tickets = m.tickets) ∧
      (∃ m', SyncTickets.sync env chain clock fuel m = some m' ∧
        (∀ k : Int, (kt : Int) + 1 ≤ k → m'.tickets k = m.tickets k) ∧
        (∀ k : Int, (m.tickets k).isSome = true → (m'.tickets k).isSome = true) ∧
        (∀ k : Int, (m.events k).isSome = true → (m'.events k).isSome = true) ∧
        (∀ (k : Int) (t : Ticket), m.tickets k = some t →
          ∃ t', m'.tickets k = some t' ∧ t'.listing = t.listing)) := by
  constructor
  · obtain ⟨m', hrun, htk, hin, hout⟩ :=
      SyncEvents.eventSweep_spec env chain clock ke 1 m [] fuel hevents hfe
    have hsync : SyncEvents.sync env chain clock fuel m = some m' := by
      have := SyncEvents.eventSweep_fst env chain clock fuel 1 m []
      rw [hrun] at this
      exact this.symm
    refine ⟨m', hsync, ?_, ?_, htk⟩
    · intro k hk
      exact hout k fun i h1 h2 h3 => by omega
    · intro k hk
      rcases key_in_range_or_not k 1 ke with ⟨i, h1, h2, rfl⟩ | hno
      · obtain ⟨ev, hev⟩ := Option.ne_none_iff_exists'.1 (hevents.1 i h1 h2)
        rw [hin i ev h1 h2 hev]
        rfl
      · rw [hout k hno]
        exact hk
  · obtain ⟨m', hrun, hin, hout, hev⟩ :=
      SyncTickets.ticketSweep_spec env chain clock kt 1 m [] fuel htickets hft
    have hsync : SyncTickets.sync env chain clock fuel m = some m' := by
      have := SyncTickets.ticketSweep_fst env chain clock fuel 1 m []
      rw [hrun] at this
      exact this.symm
    refine ⟨m', hsync, ?_, ?_, ?_, ?_⟩
    · intro k hk
      exact hout k fun i h1 h2 h3 => by omega
    · intro k hk
      rcases key_in_range_or_not k 1 kt with ⟨i, h1, h2, rfl⟩ | hno
      · obtain ⟨ho, ht⟩ := htickets.1 i h1 h2
        obtain ⟨owner, ho⟩ := Option.ne_none_iff_exists'.1 ho
        obtain ⟨td, ht⟩ := Option.ne_none_iff_exists'.1 ht
        rw [hin i owner td h1 h2 ho ht]
        rfl
      · rw [hout k hno]
        exact hk
    · intro k hk
      rw [hev k]
      cases h : m.events k with
      | none => rw [h] at hk; cases hk
      | some e => rfl
    · intro k t hm
      rcases key_in_range_or_not k 1 kt with ⟨i, h1, h2, rfl⟩ | hno
      · obtain ⟨ho, ht⟩ := htickets.1 i h1 h2
        obtain ⟨owner, ho⟩ := Option.ne_none_iff_exists'.1 ho
        obtain ⟨td, ht⟩ := Option.ne_none_iff_exists'.1 ht
        rw [hin i owner td h1 h2 ho ht, hm]
        exact ⟨_, rfl, rfl⟩
      · rw [hout k hno]
        exact ⟨t, hm, rfl⟩

/-- C28, witness: on the ledger `twoEvents`, whose reads fail from id 3 on, swept into the mirror
holding the Events 1 and 2 and the listed Ticket 7, both sweeps keep Ticket 7 with its listing. -/
theorem C28_backfill_frame_witness :
    (Sample.twoEvents.eventGap 1 2 ∧ Sample.twoEvents.ticketGap 1 2 ∧ 2 < 3) ∧
      ((∃ m', SyncEvents.sync Sample.env Sample.twoEvents Sample.clock 3 Sample.mirrorTwoEvents =
          some m' ∧
        (∀ k : Int, ((2 : Nat) : Int) + 1 ≤ k → m'.events k = Sample.mirrorTwoEvents.events k) ∧
        (∀ k : Int, (Sample.mirrorTwoEvents.events k).isSome = true →
          (m'.events k).isSome = true) ∧
        m'.tickets = Sample.mirrorTwoEvents.tickets) ∧
      (∃ m', SyncTickets.sync Sample.env Sample.twoEvents Sample.clock 3 Sample.mirrorTwoEvents =
          some m' ∧
        (∀ k : Int, ((2 : Nat) : Int) + 1 ≤ k →
          m'.tickets k = Sample.mirrorTwoEvents.tickets k) ∧
        (∀ k : Int, (Sample.mirrorTwoEvents.tickets k).isSome = true →
          (m'.tickets k).isSome = true) ∧
        (∀ k : Int, (Sample.mirrorTwoEvents.events k).isSome = true →
          (m'.events k).isSome = true) ∧
        (∀ (k : Int) (t : Ticket), Sample.mirrorTwoEvents.tickets k = some t →
          ∃ t', m'.tickets k = some t' ∧ t'.listing = t.listing))) :=
  have hevents : Sample.twoEvents.eventGap 1 2 := by
    refine ⟨fun i h1 h2 => ?_, rfl⟩
    have hi : i = 1 ∨ i = 2 := by omega
    rcases hi with rfl | rfl <;> simp [Sample.twoEvents]
  have htickets : Sample.twoEvents.ticketGap 1 2 := by
    refine ⟨fun i h1 h2 => ?_, Or.inl rfl⟩
    have hi : i = 1 ∨ i = 2 := by omega
    rcases hi with rfl | rfl <;> simp [Sample.twoEvents]
  ⟨⟨hevents, htickets, by decide⟩,
    C28_backfill_frame Sample.env Sample.twoEvents Sample.clock 2 2 3 Sample.mirrorTwoEvents
      hevents htickets (by decide) (by decide)⟩


end ChainPass
